import Mathlib

/-!
# MakAir firmware: the breathing-cycle pressure controller

Shallow embedding of `srcs/pressure_controller.cpp` (class `PressureController`)
and the properties of it that the specification states.

Conventions of the embedding.

* `uint16_t` and `uint8_t` values are natural numbers; every store into such a
  field reduces modulo `2^16` (resp. `2^8`).  Unsigned expressions that cannot
  leave the 32-bit range for 16-bit operands (a 16-bit value times a constant
  of at most 120, a sum of two 16-bit values) are written over `Nat` directly.
* `int32_t` values are integers; every arithmetic operation of the PID code is
  reduced to the signed 32-bit range by `toI32` (two's complement wrap-around).
  `/` on `int32_t` is the truncating division `Int.tdiv`.
* The headers (`pressure_controller.h`, `parameters.h`, `config.h`,
  `pressure_valve.h`, `blower.h`, `alarm_controller.h`) are not part of the
  sources.  Their constants are the fields of `Config`; the field widths of the
  controller follow the temporaries the code copies them into (`uint16_t`) and
  the specification; the valve, the blower and the alarm controller are
  modelled from the specification (sections 4.1, 4.2 and 6).
-/

namespace MakAir

/-! ## Machine integers -/

/-- Conversion of an integer value to `uint16_t`. -/
def toU16 (x : Int) : Nat := (x % 65536).toNat

/-- Conversion of an integer value to `uint32_t`. -/
def toU32 (x : Int) : Nat := (x % 4294967296).toNat

/-- Conversion of an integer value to `int32_t` (two's complement). -/
def toI32 (x : Int) : Int := (x + 2147483648) % 4294967296 - 2147483648

/-- The value fits a signed 32-bit integer. -/
@[reducible] def isI32 (x : Int) : Prop := -2147483648 ≤ x ∧ x ≤ 2147483647

/-- The value fits a signed 16-bit integer. -/
@[reducible] def isI16 (x : Int) : Prop := -32768 ≤ x ∧ x ≤ 32767

/-- Source: `static const int32_t INVALID_ERROR_MARKER = INT32_MIN;`. -/
def INVALID_ERROR_MARKER : Int := -2147483648

/-- Source: `static const uint16_t MAX_BLOWER_INCREMENT = 3u;`. -/
def MAX_BLOWER_INCREMENT : Nat := 3

/-! ## Configuration constants -/

/-- The constants of `parameters.h` and `config.h` that the controller reads.
The headers are not part of the sources, so the constants are parameters. -/
structure Config where
  SIMULATION : Nat
  CONST_MIN_CYCLE : Nat
  CONST_MAX_CYCLE : Nat
  CONST_MIN_PEEP_PRESSURE : Nat
  CONST_MAX_PEEP_PRESSURE : Nat
  CONST_MIN_PLATEAU_PRESSURE : Nat
  CONST_MAX_PLATEAU_PRESSURE : Nat
  CONST_MAX_PEAK_PRESSURE : Nat
  MAX_PRESSURE_SAMPLES : Nat
  MAX_PEAK_INCREMENT : Nat
  PID_BLOWER_KP : Int
  PID_BLOWER_KI : Int
  PID_BLOWER_KD : Int
  PID_BLOWER_INTEGRAL_MIN : Int
  PID_BLOWER_INTEGRAL_MAX : Int
  PID_PATIENT_KP : Int
  PID_PATIENT_KI : Int
  PID_PATIENT_KD : Int
  PID_PATIENT_INTEGRAL_MIN : Int
  PID_PATIENT_INTEGRAL_MAX : Int
  PID_PATIENT_SAFETY_PEEP_OFFSET : Int
  ALARM_2_CMH2O : Nat
  ALARM_35_CMH2O : Nat
  ALARM_THRESHOLD_PLATEAU_UNDER_2_CMH2O : Nat
  ALARM_THRESHOLD_PLATEAU_ABOVE_80_CMH2O : Nat
  ALARM_THRESHOLD_PEEP_ABOVE_OR_UNDER_2_CMH2O : Nat
  deriving Repr

/-- Modelled from the spec: the default magnitude of `onPeakPressureIncrease` and
`onPeakPressureDecrease`, a default argument declared in the missing header
`pressure_controller.h`; section 4.8 gives 10. -/
def DEFAULT_PEAK_PRESSURE_DELTA : Nat := 10

/-! ## Collaborators -/

/-- Source: `enum CyclePhases` (header `cycle.h`, used by the controller). -/
inductive CyclePhases where
  | INHALATION
  | EXHALATION
  deriving DecidableEq, Repr

/-- Source: `enum CycleSubPhases`. -/
inductive CycleSubPhases where
  | INSPIRATION
  | HOLD_INSPIRATION
  | EXHALE
  | HOLD_EXHALE
  deriving DecidableEq, Repr

/-- The alarm codes the controller reports. -/
inductive AlarmCode where
  | RCM_SW_1
  | RCM_SW_2
  | RCM_SW_3
  | RCM_SW_14
  | RCM_SW_15
  | RCM_SW_18
  | RCM_SW_19
  deriving DecidableEq, Repr

/-- Modelled from the spec: one call received by the alarm controller
(`alarm_controller.h` is missing), either `detectedAlarm(code, cycle)` or
`notDetectedAlarm(code)` (section 6). -/
inductive AlarmCall where
  | detectedAlarm (code : AlarmCode) (cycle : Nat)
  | notDetectedAlarm (code : AlarmCode)
  deriving DecidableEq, Repr

/-- Modelled from the spec: the valve actuator of section 4.1
(`pressure_valve.h` is missing).  `command` is the staged command, `position`
what the hardware was last given, `closedAperture` the command that `close()`
stages, `minAperture` and `maxAperture` the bounds the valve exposes. -/
structure PressureValve where
  minAperture : Int
  maxAperture : Int
  closedAperture : Int
  command : Int
  position : Int
  deriving DecidableEq, Repr

/-- Modelled from the spec: `open(aperture)` records the aperture in the staged
command field (section 4.1). -/
def PressureValve.openAperture (v : PressureValve) (p_command : Int) : PressureValve :=
  { v with command := p_command }

/-- Modelled from the spec: `close()` records the closed aperture in the staged
command field (section 4.1). -/
def PressureValve.close (v : PressureValve) : PressureValve :=
  { v with command := v.closedAperture }

/-- Modelled from the spec: `execute()` flushes the staged command to the
hardware (section 4.1). -/
def PressureValve.execute (v : PressureValve) : PressureValve :=
  { v with position := v.command }

/-- Modelled from the spec: the blower actuator of section 4.2 (`blower.h` is
missing); `getSpeed()` returns the last speed given to `runSpeed`. -/
structure Blower where
  speed : Int
  deriving DecidableEq, Repr

/-- Modelled from the spec: `runSpeed(s)` sets the commanded speed. -/
def Blower.runSpeed (_b : Blower) (p_speed : Int) : Blower := { speed := p_speed }

/-- Modelled from the spec: `getSpeed()` returns the last commanded speed. -/
def Blower.getSpeed (b : Blower) : Int := b.speed

/-! ## Controller state -/

/-- The members of `PressureController`.  `m_alarmController` is the sequence of
calls the alarm controller has received, the oldest first. -/
structure PressureController where
  m_cyclesPerMinuteCommand : Nat
  m_vigilance : Bool
  m_minPeepCommand : Nat
  m_maxPlateauPressureCommand : Nat
  m_maxPeakPressureCommand : Nat
  m_cyclesPerMinute : Nat
  m_maxPeakPressure : Nat
  m_maxPlateauPressure : Nat
  m_minPeep : Nat
  m_pressure : Nat
  m_peakPressure : Nat
  m_plateauPressure : Nat
  m_peep : Nat
  m_phase : CyclePhases
  m_subPhase : CycleSubPhases
  m_pressureCommand : Nat
  m_centiSecPerCycle : Nat
  m_centiSecPerInhalation : Nat
  m_cycleNb : Nat
  m_dt : Int
  blowerIntegral : Int
  blowerLastError : Int
  patientIntegral : Int
  patientLastError : Int
  m_blower_valve : PressureValve
  m_patient_valve : PressureValve
  m_blower : Blower
  m_alarmController : List AlarmCall
  m_blower_increment : Int
  m_lastPressureValues : List Nat
  m_lastPressureValuesIndex : Nat
  m_startPlateauComputation : Bool
  m_plateauComputed : Bool
  deriving DecidableEq, Repr

/-- Appends `detectedAlarm(code, m_cycleNb)` to the calls of the alarm controller. -/
def detectedAlarm (s : PressureController) (code : AlarmCode) : PressureController :=
  { s with m_alarmController := s.m_alarmController ++ [AlarmCall.detectedAlarm code s.m_cycleNb] }

/-- Appends `notDetectedAlarm(code)` to the calls of the alarm controller. -/
def notDetectedAlarm (s : PressureController) (code : AlarmCode) : PressureController :=
  { s with m_alarmController := s.m_alarmController ++ [AlarmCall.notDetectedAlarm code] }

/-! ## The controller's operations -/

/-- Source: `PressureController::setSubPhase`. -/
def setSubPhase (s : PressureController) (p_subPhase : CycleSubPhases) : PressureController :=
  { s with m_subPhase := p_subPhase, m_vigilance := false }

/-- Source: `PressureController::computeCentiSecParameters`.  The unsigned
division `60u * 100u / m_cyclesPerMinute` is `Nat` division (a zero divisor
yields zero, as the integer divide of the target processor does by default). -/
def computeCentiSecParameters (s : PressureController) : PressureController :=
  let s := { s with m_centiSecPerCycle := (60 * 100 / s.m_cyclesPerMinute) % 65536 }
  { s with m_centiSecPerInhalation := (s.m_centiSecPerCycle / 3) % 65536 }

/-- Source: `PressureController::setup`, the initialisation `setup()` of
`respirator.cpp` runs once, before the first cycle. -/
def setup (s : PressureController) : PressureController :=
  let s := { s with m_blower_valve := s.m_blower_valve.close }
  let s := { s with m_patient_valve := s.m_patient_valve.close }
  let s := { s with m_blower_valve := s.m_blower_valve.execute }
  let s := { s with m_patient_valve := s.m_patient_valve.execute }
  let s := { s with m_peakPressure := 0 }
  let s := { s with m_plateauPressure := 0 }
  let s := { s with m_peep := 0 }
  { s with m_cycleNb := 0 }

/-- Source: `PressureController::initRespiratoryCycle`. -/
def initRespiratoryCycle (cfg : Config) (s : PressureController) : PressureController :=
  let s := { s with m_phase := CyclePhases.INHALATION }
  let s := setSubPhase s CycleSubPhases.INSPIRATION
  let s := { s with m_cycleNb := (s.m_cycleNb + 1) % 4294967296 }
  let s := { s with m_plateauPressure := 0 }
  -- Reset PID integrals
  let s := { s with blowerIntegral := 0 }
  let s := { s with blowerLastError := INVALID_ERROR_MARKER }
  let s := { s with patientIntegral := 0 }
  let s := { s with patientLastError := INVALID_ERROR_MARKER }
  let s := { s with m_peakPressure := 0 }
  let s := computeCentiSecParameters s
  let s := { s with m_cyclesPerMinute := s.m_cyclesPerMinuteCommand }
  let s := { s with m_minPeep := s.m_minPeepCommand }
  let s := { s with m_maxPlateauPressure := s.m_maxPlateauPressureCommand }
  -- Apply blower ramp-up
  let s := { s with m_blower := s.m_blower.runSpeed (s.m_blower.getSpeed + s.m_blower_increment) }
  let s := { s with m_blower_increment := 0 }
  let s := { s with m_lastPressureValues := List.replicate cfg.MAX_PRESSURE_SAMPLES 0 }
  let s := { s with m_lastPressureValuesIndex := 0 }
  let s := { s with m_startPlateauComputation := false }
  { s with m_plateauComputed := false }

/-- Source: `PressureController::onCycleDecrease`. -/
def onCycleDecrease (cfg : Config) (s : PressureController) : PressureController :=
  let s := { s with m_cyclesPerMinuteCommand := toU16 (s.m_cyclesPerMinuteCommand - 1) }
  if s.m_cyclesPerMinuteCommand < cfg.CONST_MIN_CYCLE then
    { s with m_cyclesPerMinuteCommand := cfg.CONST_MIN_CYCLE }
  else s

/-- Source: `PressureController::onCycleIncrease` (the body is compiled only
when `SIMULATION != 1`). -/
def onCycleIncrease (cfg : Config) (s : PressureController) : PressureController :=
  if cfg.SIMULATION ≠ 1 then
    let s := { s with m_cyclesPerMinuteCommand := (s.m_cyclesPerMinuteCommand + 1) % 65536 }
    if s.m_cyclesPerMinuteCommand > cfg.CONST_MAX_CYCLE then
      { s with m_cyclesPerMinuteCommand := cfg.CONST_MAX_CYCLE }
    else s
  else s

/-- Source: `PressureController::onPeepPressureDecrease`. -/
def onPeepPressureDecrease (cfg : Config) (s : PressureController) : PressureController :=
  let s := { s with m_minPeepCommand := toU16 (s.m_minPeepCommand - 10) }
  if s.m_minPeepCommand < cfg.CONST_MIN_PEEP_PRESSURE then
    { s with m_minPeepCommand := cfg.CONST_MIN_PEEP_PRESSURE }
  else s

/-- Source: `PressureController::onPeepPressureIncrease`. -/
def onPeepPressureIncrease (cfg : Config) (s : PressureController) : PressureController :=
  let s := { s with m_minPeepCommand := (s.m_minPeepCommand + 10) % 65536 }
  if s.m_minPeepCommand > cfg.CONST_MAX_PEEP_PRESSURE then
    { s with m_minPeepCommand := cfg.CONST_MAX_PEEP_PRESSURE }
  else s

/-- Source: `PressureController::onPeakPressureDecrease`; `p_decrement` is a
`uint8_t`. -/
def onPeakPressureDecrease (s : PressureController) (p_decrement : Nat) : PressureController :=
  let s := { s with m_maxPeakPressureCommand := toU16 (s.m_maxPeakPressureCommand - p_decrement) }
  if s.m_maxPeakPressureCommand < s.m_maxPlateauPressureCommand then
    { s with m_maxPeakPressureCommand := s.m_maxPlateauPressureCommand }
  else s

/-- Source: `PressureController::onPeakPressureIncrease`; `p_increment` is a
`uint8_t`. -/
def onPeakPressureIncrease (cfg : Config) (s : PressureController) (p_increment : Nat) :
    PressureController :=
  let s := { s with m_maxPeakPressureCommand := (s.m_maxPeakPressureCommand + p_increment) % 65536 }
  if s.m_maxPeakPressureCommand > cfg.CONST_MAX_PEAK_PRESSURE then
    { s with m_maxPeakPressureCommand := cfg.CONST_MAX_PEAK_PRESSURE }
  else s

/-- Source: `PressureController::onPlateauPressureDecrease`. -/
def onPlateauPressureDecrease (cfg : Config) (s : PressureController) : PressureController :=
  let s := { s with m_maxPlateauPressureCommand := toU16 (s.m_maxPlateauPressureCommand - 10) }
  let s :=
    if s.m_maxPlateauPressureCommand < cfg.CONST_MIN_PLATEAU_PRESSURE then
      { s with m_maxPlateauPressureCommand := cfg.CONST_MIN_PLATEAU_PRESSURE }
    else s
  onPeakPressureDecrease s DEFAULT_PEAK_PRESSURE_DELTA

/-- Source: `PressureController::onPlateauPressureIncrease`. -/
def onPlateauPressureIncrease (cfg : Config) (s : PressureController) : PressureController :=
  let s := { s with m_maxPlateauPressureCommand := (s.m_maxPlateauPressureCommand + 10) % 65536 }
  let s :=
    if s.m_maxPlateauPressureCommand > cfg.CONST_MAX_PLATEAU_PRESSURE then
      { s with m_maxPlateauPressureCommand := cfg.CONST_MAX_PLATEAU_PRESSURE }
    else s
  onPeakPressureIncrease cfg s DEFAULT_PEAK_PRESSURE_DELTA

/-- Source: `PressureController::checkCycleAlarm`. -/
def checkCycleAlarm (s : PressureController) : PressureController :=
  -- RCM-SW-14 : Check if plateau is reached
  let minPlateauBeforeAlarm := ((s.m_maxPlateauPressureCommand * 80) / 100) % 65536
  let maxPlateauBeforeAlarm := ((s.m_maxPlateauPressureCommand * 120) / 100) % 65536
  if s.m_plateauPressure < minPlateauBeforeAlarm ∨ s.m_plateauPressure > maxPlateauBeforeAlarm then
    detectedAlarm s AlarmCode.RCM_SW_14
  else
    notDetectedAlarm s AlarmCode.RCM_SW_14

/-- Source: `PressureController::endRespiratoryCycle`.  The difference of the two
`uint16_t` members is an `int`, its product with `2u` an `unsigned int`; the
argument of the peak adjuster is converted to `uint8_t`. -/
def endRespiratoryCycle (cfg : Config) (s : PressureController) : PressureController :=
  let s := checkCycleAlarm s
  if s.m_blower_increment = 0 then
    if s.m_plateauPressure > (s.m_maxPlateauPressureCommand * 105 / 100) then
      let plateauDiff :=
        toU16 (toU32 ((s.m_plateauPressure - s.m_maxPlateauPressureCommand) * 2) / 10)
      onPeakPressureDecrease s (min plateauDiff cfg.MAX_PEAK_INCREMENT % 256)
    else if s.m_plateauPressure < (s.m_maxPlateauPressureCommand * 95 / 100) then
      let plateauDiff :=
        toU16 (toU32 ((s.m_maxPlateauPressureCommand - s.m_plateauPressure) * 2) / 10)
      onPeakPressureIncrease cfg s (min plateauDiff cfg.MAX_PEAK_INCREMENT % 256)
    else s
  else s

/-- Source: `PressureController::updatePressure`; `p_currentPressure` is an
`int16_t`, the members it is stored into are `uint16_t`. -/
def updatePressure (cfg : Config) (s : PressureController) (p_currentPressure : Int) :
    PressureController :=
  let s := { s with m_pressure := toU16 p_currentPressure }
  -- Store the current pressure to compute aggregates
  let s := { s with
    m_lastPressureValues := s.m_lastPressureValues.set s.m_lastPressureValuesIndex
      (toU16 p_currentPressure) }
  let s := { s with m_lastPressureValuesIndex := (s.m_lastPressureValuesIndex + 1) % 65536 }
  -- Start over if we reached the max samples number
  if s.m_lastPressureValuesIndex ≥ cfg.MAX_PRESSURE_SAMPLES then
    { s with m_lastPressureValuesIndex := 0 }
  else s

/-- Source: `PressureController::updateDt`. -/
def updateDt (s : PressureController) (p_dt : Int) : PressureController :=
  { s with m_dt := p_dt }

/-- Source: `PressureController::updateBlower`. -/
def updateBlower (s : PressureController) (p_centiSec : Nat) : PressureController :=
  -- Case blower is too low
  let s :=
    if s.m_phase = CyclePhases.INHALATION
        ∧ p_centiSec > ((s.m_centiSecPerInhalation * 80) / 100)
        ∧ s.m_peakPressure < ((s.m_maxPeakPressureCommand * 95) / 100) then
      { s with m_blower_increment := 1 }
    else s
  -- Case blower is too high
  if s.m_phase = CyclePhases.INHALATION
      ∧ p_centiSec < ((s.m_centiSecPerInhalation * 30) / 100)
      ∧ s.m_peakPressure > ((s.m_maxPeakPressureCommand * 105) / 100) then
    { s with m_blower_increment := -1 }
  else s

/-- Source: `PressureController::updatePhase`. -/
def updatePhase (s : PressureController) (p_centiSec : Nat) : PressureController :=
  if p_centiSec < s.m_centiSecPerInhalation then
    let s := { s with m_phase := CyclePhases.INHALATION }
    if p_centiSec < ((s.m_centiSecPerInhalation * 80) / 100)
        ∧ s.m_pressure < s.m_maxPeakPressureCommand then
      if s.m_subPhase ≠ CycleSubPhases.HOLD_INSPIRATION then
        let s := { s with m_pressureCommand := s.m_maxPeakPressureCommand }
        setSubPhase s CycleSubPhases.INSPIRATION
      else s
    else
      let s := { s with m_pressureCommand := s.m_maxPlateauPressureCommand }
      setSubPhase s CycleSubPhases.HOLD_INSPIRATION
  else
    let s := { s with m_phase := CyclePhases.EXHALATION }
    let s := { s with m_pressureCommand := s.m_minPeepCommand }
    if s.m_subPhase ≠ CycleSubPhases.HOLD_EXHALE then
      setSubPhase s CycleSubPhases.EXHALE
    else s

/-! ## The two PID loops -/

/-- The local variables of one PID invocation, and the divisors of the integer
divisions the invocation evaluates, in evaluation order. -/
structure PidLocals where
  error : Int
  integral : Int
  derivative : Int
  command : Int
  minAperture : Int
  maxAperture : Int
  aperture : Int
  divisors : List Int
  deriving DecidableEq, Repr

/-- Source: the body of `PressureController::pidBlower`, every `int32_t`
operation reduced by `toI32`.  The computed aperture goes through a `uint32_t`
local before it is returned as `int32_t`. -/
def pidBlowerLocals (cfg : Config) (s : PressureController)
    (targetPressure currentPressure dt : Int) : PidLocals :=
  -- Compute error
  let error := toI32 (targetPressure - currentPressure)
  -- Compute integral
  let blowerIntegral :=
    toI32 (s.blowerIntegral
      + toI32 (Int.tdiv (toI32 (toI32 (cfg.PID_BLOWER_KI * error) * dt)) 1000000))
  let blowerIntegral :=
    max cfg.PID_BLOWER_INTEGRAL_MIN (min cfg.PID_BLOWER_INTEGRAL_MAX blowerIntegral)
  -- Compute derivative
  let noDerivative : Bool := s.blowerLastError = INVALID_ERROR_MARKER || dt = 0
  let derivative :=
    if noDerivative then 0
    else toI32 (Int.tdiv (toI32 (1000000 * toI32 (error - s.blowerLastError))) dt)
  let blowerCommand :=
    toI32 (toI32 (toI32 (cfg.PID_BLOWER_KP * error) + blowerIntegral)
      + toI32 (Int.tdiv (toI32 (cfg.PID_BLOWER_KD * derivative)) 1000))
  let minAperture := s.m_blower_valve.minAperture
  let maxAperture := s.m_blower_valve.maxAperture
  let blowerAperture : Nat :=
    toU32 (max minAperture
      (min maxAperture
        (toI32 (maxAperture
          + toI32 (Int.tdiv (toI32 (toI32 (minAperture - maxAperture) * blowerCommand)) 1000)))))
  { error := error
    integral := blowerIntegral
    derivative := derivative
    command := blowerCommand
    minAperture := minAperture
    maxAperture := maxAperture
    aperture := toI32 blowerAperture
    divisors := [1000000] ++ (if noDerivative then [] else [dt]) ++ [1000, 1000] }

/-- Source: `PressureController::pidBlower`: the returned aperture and the
controller with `blowerIntegral` and `blowerLastError` updated. -/
def pidBlower (cfg : Config) (s : PressureController)
    (targetPressure currentPressure dt : Int) : Int × PressureController :=
  let r := pidBlowerLocals cfg s targetPressure currentPressure dt
  (r.aperture, { s with blowerIntegral := r.integral, blowerLastError := r.error })

/-- Source: the body of `PressureController::pidPatient`.  Both aperture bounds
are read from `m_blower_valve`, as in the source. -/
def pidPatientLocals (cfg : Config) (s : PressureController)
    (targetPressure currentPressure dt : Int) : PidLocals :=
  -- Compute error
  let error :=
    toI32 (toI32 (targetPressure + cfg.PID_PATIENT_SAFETY_PEEP_OFFSET) - currentPressure)
  -- Compute integral
  let patientIntegral :=
    toI32 (s.patientIntegral
      + toI32 (Int.tdiv (toI32 (toI32 (cfg.PID_PATIENT_KI * error) * dt)) 1000000))
  let patientIntegral :=
    max cfg.PID_PATIENT_INTEGRAL_MIN (min cfg.PID_PATIENT_INTEGRAL_MAX patientIntegral)
  -- Compute derivative
  let noDerivative : Bool := s.patientLastError = INVALID_ERROR_MARKER || dt = 0
  let derivative :=
    if noDerivative then 0
    else toI32 (Int.tdiv (toI32 (1000000 * toI32 (error - s.patientLastError))) dt)
  let patientCommand :=
    toI32 (toI32 (toI32 (cfg.PID_PATIENT_KP * error) + patientIntegral)
      + toI32 (Int.tdiv (toI32 (cfg.PID_PATIENT_KD * derivative)) 1000))
  let minAperture := s.m_blower_valve.minAperture
  let maxAperture := s.m_blower_valve.maxAperture
  let patientAperture : Nat :=
    toU32 (max minAperture
      (min maxAperture
        (toI32 (maxAperture
          + toI32 (Int.tdiv (toI32 (toI32 (maxAperture - minAperture) * patientCommand)) 1000)))))
  { error := error
    integral := patientIntegral
    derivative := derivative
    command := patientCommand
    minAperture := minAperture
    maxAperture := maxAperture
    aperture := toI32 patientAperture
    divisors := [1000000] ++ (if noDerivative then [] else [dt]) ++ [1000, 1000] }

/-- Source: `PressureController::pidPatient`: the returned aperture and the
controller with `patientIntegral` and `patientLastError` updated. -/
def pidPatient (cfg : Config) (s : PressureController)
    (targetPressure currentPressure dt : Int) : Int × PressureController :=
  let r := pidPatientLocals cfg s targetPressure currentPressure dt
  (r.aperture, { s with patientIntegral := r.integral, patientLastError := r.error })

/-! ## Sub-phase actions, plateau estimator, safeguards, tick -/

/-- Source: `PressureController::inhale`. -/
def inhale (cfg : Config) (s : PressureController) : PressureController :=
  let r := pidBlower cfg s s.m_pressureCommand s.m_pressure s.m_dt
  let s := r.2
  -- Open the air stream towards the patient's lungs
  let s := { s with m_blower_valve := s.m_blower_valve.openAperture r.1 }
  let s := { s with m_patient_valve := s.m_patient_valve.close }
  -- Update the peak pressure
  { s with m_peakPressure := max s.m_pressure s.m_peakPressure }

/-- Source: `PressureController::plateau`. -/
def plateau (s : PressureController) : PressureController :=
  -- Deviate the air stream outside
  let s := { s with m_blower_valve := s.m_blower_valve.close }
  -- Close the air stream towards the patient's lungs
  let s := { s with m_patient_valve := s.m_patient_valve.close }
  -- Update the peak pressure
  { s with m_peakPressure := max s.m_pressure s.m_peakPressure }

/-- Source: `PressureController::exhale`. -/
def exhale (cfg : Config) (s : PressureController) : PressureController :=
  -- Deviate the air stream outside
  let s := { s with m_blower_valve := s.m_blower_valve.close }
  -- Open the valve so the patient can exhale outside
  let r := pidPatient cfg s s.m_pressureCommand s.m_pressure s.m_dt
  let s := r.2
  let s := { s with m_patient_valve := s.m_patient_valve.openAperture r.1 }
  -- Update the PEEP
  { s with m_peep := s.m_pressure }

/-- Source: `PressureController::holdExhalation`. -/
def holdExhalation (s : PressureController) : PressureController :=
  let s := { s with m_blower_valve := s.m_blower_valve.close }
  { s with m_patient_valve := s.m_patient_valve.close }

/-- One iteration of the aggregation loop of `computePlateau` on the `uint16_t`
locals `(minValue, maxValue, totalValues)`. -/
def plateauLoopBody (values : List Nat) (acc : Nat × Nat × Nat) (index : Nat) : Nat × Nat × Nat :=
  let v := values.getD index 0
  (min acc.1 v, max acc.2.1 v, (acc.2.2 + v) % 65536)

/-- Source: `PressureController::computePlateau`. -/
def computePlateau (cfg : Config) (s : PressureController) (p_centiSec : Nat) :
    PressureController :=
  let first := s.m_lastPressureValues.getD 0 0
  let acc := (List.range' 1 (cfg.MAX_PRESSURE_SAMPLES - 1)).foldl
    (plateauLoopBody s.m_lastPressureValues) (first, first, first)
  let minValue := acc.1
  let maxValue := acc.2.1
  let totalValues := acc.2.2
  let diff := toU16 (maxValue - minValue)
  -- Start computing plateau pressure when:
  -- - the last pressure values were close enough
  -- - the hold inspiration phase is about to end
  -- - plateau pressure computation was not already started
  let s :=
    if !s.m_plateauComputed ∧ diff < 10
        ∧ p_centiSec ≥ ((s.m_centiSecPerInhalation * 95) / 100) then
      { s with m_startPlateauComputation := true }
    else s
  -- Stop computing plateau pressure when pressure drops
  let s :=
    if s.m_startPlateauComputation ∧ diff > 10 then
      { s with m_startPlateauComputation := false, m_plateauComputed := true }
    else s
  if s.m_startPlateauComputation then
    { s with m_plateauPressure := (totalValues / cfg.MAX_PRESSURE_SAMPLES) % 65536 }
  else s

/-- Source: `PressureController::safeguardPlateau`. -/
def safeguardPlateau (cfg : Config) (s : PressureController) (_p_centiSec : Nat) :
    PressureController :=
  if s.m_subPhase = CycleSubPhases.HOLD_INSPIRATION then
    let s :=
      if s.m_pressure < cfg.ALARM_THRESHOLD_PLATEAU_UNDER_2_CMH2O then
        detectedAlarm s AlarmCode.RCM_SW_19
      else notDetectedAlarm s AlarmCode.RCM_SW_19
    if s.m_pressure > cfg.ALARM_THRESHOLD_PLATEAU_ABOVE_80_CMH2O then
      detectedAlarm s AlarmCode.RCM_SW_18
    else notDetectedAlarm s AlarmCode.RCM_SW_18
  else s

/-- Source: `PressureController::safeguardHoldExpiration`. -/
def safeguardHoldExpiration (cfg : Config) (s : PressureController) (_p_centiSec : Nat) :
    PressureController :=
  if s.m_phase = CyclePhases.EXHALATION then
    let minPeepBeforeAlarm :=
      toU16 (s.m_minPeepCommand - cfg.ALARM_THRESHOLD_PEEP_ABOVE_OR_UNDER_2_CMH2O)
    let maxPeepBeforeAlarm :=
      toU16 (s.m_minPeepCommand + cfg.ALARM_THRESHOLD_PEEP_ABOVE_OR_UNDER_2_CMH2O)
    if s.m_pressure < minPeepBeforeAlarm ∨ s.m_pressure > maxPeepBeforeAlarm then
      detectedAlarm (detectedAlarm s AlarmCode.RCM_SW_3) AlarmCode.RCM_SW_15
    else
      notDetectedAlarm (notDetectedAlarm s AlarmCode.RCM_SW_3) AlarmCode.RCM_SW_15
  else s

/-- Source: `PressureController::safeguards`. -/
def safeguards (cfg : Config) (s : PressureController) (p_centiSec : Nat) : PressureController :=
  let s := safeguardPlateau cfg s p_centiSec
  let s := safeguardHoldExpiration cfg s p_centiSec
  let s :=
    if s.m_pressure < cfg.ALARM_2_CMH2O then detectedAlarm s AlarmCode.RCM_SW_2
    else notDetectedAlarm s AlarmCode.RCM_SW_2
  if s.m_pressure > cfg.ALARM_35_CMH2O then detectedAlarm s AlarmCode.RCM_SW_1
  else notDetectedAlarm s AlarmCode.RCM_SW_1

/-- Source: `PressureController::executeCommands`. -/
def executeCommands (s : PressureController) : PressureController :=
  let s := { s with m_blower_valve := s.m_blower_valve.execute }
  { s with m_patient_valve := s.m_patient_valve.execute }

/-- Source: `PressureController::compute` up to, and excluding, its last
statement `executeCommands()`. -/
def computeStaged (cfg : Config) (s : PressureController) (p_centiSec : Nat) :
    PressureController :=
  let s := updateBlower s p_centiSec
  -- Update the cycle phase
  let s := updatePhase s p_centiSec
  let s :=
    if !s.m_vigilance then
      -- Act accordingly
      match s.m_subPhase with
      | CycleSubPhases.INSPIRATION => inhale cfg s
      | CycleSubPhases.HOLD_INSPIRATION => plateau s
      | CycleSubPhases.EXHALE =>
        -- Plateau happens with delay related to the pressure command
        computePlateau cfg (exhale cfg s) p_centiSec
      | CycleSubPhases.HOLD_EXHALE => holdExhalation s
    else s
  safeguards cfg s p_centiSec

/-- Source: `PressureController::compute`. -/
def compute (cfg : Config) (s : PressureController) (p_centiSec : Nat) : PressureController :=
  executeCommands (computeStaged cfg s p_centiSec)

/-! ## Runs of the controller -/

/-- The calls the cycle driver and the keyboard make on the controller. -/
inductive Call where
  | initRespiratoryCycle
  | endRespiratoryCycle
  | updatePressure (p_currentPressure : Int)
  | updateDt (p_dt : Int)
  | compute (p_centiSec : Nat)
  | onCycleDecrease
  | onCycleIncrease
  | onPeepPressureDecrease
  | onPeepPressureIncrease
  | onPlateauPressureDecrease
  | onPlateauPressureIncrease
  | onPeakPressureDecrease (p_decrement : Nat)
  | onPeakPressureIncrease (p_increment : Nat)
  deriving DecidableEq, Repr

/-- The effect of one call on the controller. -/
def Call.run (cfg : Config) (s : PressureController) : Call → PressureController
  | Call.initRespiratoryCycle => MakAir.initRespiratoryCycle cfg s
  | Call.endRespiratoryCycle => MakAir.endRespiratoryCycle cfg s
  | Call.updatePressure p => MakAir.updatePressure cfg s p
  | Call.updateDt dt => MakAir.updateDt s dt
  | Call.compute t => MakAir.compute cfg s t
  | Call.onCycleDecrease => MakAir.onCycleDecrease cfg s
  | Call.onCycleIncrease => MakAir.onCycleIncrease cfg s
  | Call.onPeepPressureDecrease => MakAir.onPeepPressureDecrease cfg s
  | Call.onPeepPressureIncrease => MakAir.onPeepPressureIncrease cfg s
  | Call.onPlateauPressureDecrease => MakAir.onPlateauPressureDecrease cfg s
  | Call.onPlateauPressureIncrease => MakAir.onPlateauPressureIncrease cfg s
  | Call.onPeakPressureDecrease k => MakAir.onPeakPressureDecrease s k
  | Call.onPeakPressureIncrease k => MakAir.onPeakPressureIncrease cfg s k

/-- The controller after a sequence of calls, the first call of the list first. -/
def runCalls (cfg : Config) (s : PressureController) (calls : List Call) : PressureController :=
  calls.foldl (Call.run cfg) s

/-- The states reachable from `initRespiratoryCycle`: the state it leaves,
whatever the state before, followed by any sequence of calls. -/
def Reachable (cfg : Config) (s : PressureController) : Prop :=
  ∃ (s0 : PressureController) (calls : List Call),
    s = runCalls cfg (initRespiratoryCycle cfg s0) calls

/-! ## Concrete configuration and states used for evaluation -/

/-- A configuration in the units of the firmware (mmH2O, cycles per minute). -/
def sampleConfig : Config :=
  { SIMULATION := 0
    CONST_MIN_CYCLE := 5
    CONST_MAX_CYCLE := 35
    CONST_MIN_PEEP_PRESSURE := 0
    CONST_MAX_PEEP_PRESSURE := 300
    CONST_MIN_PLATEAU_PRESSURE := 100
    CONST_MAX_PLATEAU_PRESSURE := 400
    CONST_MAX_PEAK_PRESSURE := 700
    MAX_PRESSURE_SAMPLES := 10
    MAX_PEAK_INCREMENT := 30
    PID_BLOWER_KP := 2
    PID_BLOWER_KI := 50
    PID_BLOWER_KD := 1
    PID_BLOWER_INTEGRAL_MIN := -1000
    PID_BLOWER_INTEGRAL_MAX := 1000
    PID_PATIENT_KP := 2
    PID_PATIENT_KI := 50
    PID_PATIENT_KD := 1
    PID_PATIENT_INTEGRAL_MIN := -1000
    PID_PATIENT_INTEGRAL_MAX := 1000
    PID_PATIENT_SAFETY_PEEP_OFFSET := 0
    ALARM_2_CMH2O := 20
    ALARM_35_CMH2O := 350
    ALARM_THRESHOLD_PLATEAU_UNDER_2_CMH2O := 20
    ALARM_THRESHOLD_PLATEAU_ABOVE_80_CMH2O := 800
    ALARM_THRESHOLD_PEEP_ABOVE_OR_UNDER_2_CMH2O := 20 }

/-- A valve whose apertures range over `0 .. 125`, closed at `125`. -/
def sampleValve : PressureValve :=
  { minAperture := 0, maxAperture := 125, closedAperture := 125, command := 125, position := 125 }

/-- A controller as the parameterised constructor and `setup` leave it for 20
cycles per minute, a PEEP of 100, a plateau of 300 and a peak of 320 mmH2O. -/
def sampleState : PressureController :=
  { m_cyclesPerMinuteCommand := 20
    m_vigilance := false
    m_minPeepCommand := 100
    m_maxPlateauPressureCommand := 300
    m_maxPeakPressureCommand := 320
    m_cyclesPerMinute := 20
    m_maxPeakPressure := 320
    m_maxPlateauPressure := 300
    m_minPeep := 100
    m_pressure := 0
    m_peakPressure := 0
    m_plateauPressure := 0
    m_peep := 0
    m_phase := CyclePhases.INHALATION
    m_subPhase := CycleSubPhases.INSPIRATION
    m_pressureCommand := 0
    m_centiSecPerCycle := 300
    m_centiSecPerInhalation := 100
    m_cycleNb := 0
    m_dt := 10000
    blowerIntegral := 0
    blowerLastError := INVALID_ERROR_MARKER
    patientIntegral := 0
    patientLastError := INVALID_ERROR_MARKER
    m_blower_valve := sampleValve
    m_patient_valve := sampleValve
    m_blower := { speed := 150 }
    m_alarmController := []
    m_blower_increment := 0
    m_lastPressureValues := List.replicate 10 0
    m_lastPressureValuesIndex := 0
    m_startPlateauComputation := false
    m_plateauComputed := false }

/-- The sample controller with a patient valve whose apertures range over
`200 .. 300`, the blower valve ranging over `0 .. 125`. -/
def twoValveState : PressureController :=
  { sampleState with
    m_patient_valve :=
      { minAperture := 200, maxAperture := 300, closedAperture := 300, command := 300,
        position := 300 } }

/-- The sample controller with the plateau and peak commands both at the lowest
plateau command, 100 mmH2O. -/
def floorState : PressureController :=
  { sampleState with m_maxPlateauPressureCommand := 100, m_maxPeakPressureCommand := 100 }

/-- The sample controller with a PEEP command of 295 and a plateau command of
300 mmH2O. -/
def tightState : PressureController :=
  { sampleState with m_minPeepCommand := 295 }

/-- The sample controller with a PEEP command of 6 mmH2O, smaller than the
step of 10 of the PEEP adjusters. -/
def lowPeepState : PressureController :=
  { sampleState with m_minPeepCommand := 6 }

/-- The ordering of the plateau and peak commands under the absolute peak
ceiling. -/
@[reducible] def peakOrdering (cfg : Config) (s : PressureController) : Prop :=
  s.m_maxPlateauPressureCommand ≤ s.m_maxPeakPressureCommand
    ∧ s.m_maxPeakPressureCommand ≤ cfg.CONST_MAX_PEAK_PRESSURE

/-- The three commands of the keyboard adjusters lie in their declared ranges. -/
@[reducible] def commandsInRange (cfg : Config) (s : PressureController) : Prop :=
  (cfg.CONST_MIN_CYCLE ≤ s.m_cyclesPerMinuteCommand
      ∧ s.m_cyclesPerMinuteCommand ≤ cfg.CONST_MAX_CYCLE)
    ∧ (cfg.CONST_MIN_PEEP_PRESSURE ≤ s.m_minPeepCommand
      ∧ s.m_minPeepCommand ≤ cfg.CONST_MAX_PEEP_PRESSURE)
    ∧ (cfg.CONST_MIN_PLATEAU_PRESSURE ≤ s.m_maxPlateauPressureCommand
      ∧ s.m_maxPlateauPressureCommand ≤ cfg.CONST_MAX_PLATEAU_PRESSURE)

/-- The six adjusters of cycles per minute, PEEP and plateau. -/
def Call.isRangeAdjuster : Call → Bool
  | Call.onCycleDecrease => true
  | Call.onCycleIncrease => true
  | Call.onPeepPressureDecrease => true
  | Call.onPeepPressureIncrease => true
  | Call.onPlateauPressureDecrease => true
  | Call.onPlateauPressureIncrease => true
  | _ => false

/-- The phase and the sub-phase agree: an inhalation is in `INSPIRATION` or
`HOLD_INSPIRATION`, an exhalation in `EXHALE` or `HOLD_EXHALE`. -/
@[reducible] def phaseConsistent (s : PressureController) : Prop :=
  (s.m_phase = CyclePhases.INHALATION →
      s.m_subPhase = CycleSubPhases.INSPIRATION ∨ s.m_subPhase = CycleSubPhases.HOLD_INSPIRATION)
    ∧ (s.m_phase = CyclePhases.EXHALATION →
      s.m_subPhase = CycleSubPhases.EXHALE ∨ s.m_subPhase = CycleSubPhases.HOLD_EXHALE)

/-- The second controller differs from the first at most in the calls received
by the alarm controller. -/
def onlyAlarmsDiffer (s s' : PressureController) : Prop :=
  s' = { s with m_alarmController := s'.m_alarmController }

/-- The body of `pidBlower` over the unbounded integers: the operations of
`pidBlowerLocals` in the same order, none of them reduced to 32 bits. -/
def pidBlowerExactLocals (cfg : Config) (s : PressureController)
    (targetPressure currentPressure dt : Int) : PidLocals :=
  let error := targetPressure - currentPressure
  let blowerIntegral := s.blowerIntegral + Int.tdiv (cfg.PID_BLOWER_KI * error * dt) 1000000
  let blowerIntegral :=
    max cfg.PID_BLOWER_INTEGRAL_MIN (min cfg.PID_BLOWER_INTEGRAL_MAX blowerIntegral)
  let noDerivative : Bool := s.blowerLastError = INVALID_ERROR_MARKER || dt = 0
  let derivative :=
    if noDerivative then 0 else Int.tdiv (1000000 * (error - s.blowerLastError)) dt
  let blowerCommand :=
    cfg.PID_BLOWER_KP * error + blowerIntegral + Int.tdiv (cfg.PID_BLOWER_KD * derivative) 1000
  let minAperture := s.m_blower_valve.minAperture
  let maxAperture := s.m_blower_valve.maxAperture
  let blowerAperture :=
    max minAperture
      (min maxAperture
        (maxAperture + Int.tdiv ((minAperture - maxAperture) * blowerCommand) 1000))
  { error := error
    integral := blowerIntegral
    derivative := derivative
    command := blowerCommand
    minAperture := minAperture
    maxAperture := maxAperture
    aperture := blowerAperture
    divisors := [1000000] ++ (if noDerivative then [] else [dt]) ++ [1000, 1000] }

/-- Every intermediate value of `pidBlower`, computed over the unbounded
integers, fits a signed 32-bit integer (the operands read from the
configuration and from the valve included). -/
@[reducible] def pidBlowerNoOverflow (cfg : Config) (s : PressureController)
    (targetPressure currentPressure dt : Int) : Prop :=
  isI32 cfg.PID_BLOWER_INTEGRAL_MIN
    ∧ isI32 cfg.PID_BLOWER_INTEGRAL_MAX
    ∧ isI32 s.m_blower_valve.minAperture
    ∧ isI32 s.m_blower_valve.maxAperture
    ∧ isI32 (targetPressure - currentPressure)
    ∧ isI32 (cfg.PID_BLOWER_KI * (targetPressure - currentPressure))
    ∧ isI32 (cfg.PID_BLOWER_KI * (targetPressure - currentPressure) * dt)
    ∧ isI32 (s.blowerIntegral
        + Int.tdiv (cfg.PID_BLOWER_KI * (targetPressure - currentPressure) * dt) 1000000)
    ∧ (s.blowerLastError ≠ INVALID_ERROR_MARKER →
        isI32 (targetPressure - currentPressure - s.blowerLastError)
        ∧ isI32 (1000000 * (targetPressure - currentPressure - s.blowerLastError)))
    ∧ isI32 (cfg.PID_BLOWER_KP * (targetPressure - currentPressure))
    ∧ isI32 (cfg.PID_BLOWER_KP * (targetPressure - currentPressure)
        + (pidBlowerExactLocals cfg s targetPressure currentPressure dt).integral)
    ∧ isI32 (cfg.PID_BLOWER_KD
        * (pidBlowerExactLocals cfg s targetPressure currentPressure dt).derivative)
    ∧ isI32 (pidBlowerExactLocals cfg s targetPressure currentPressure dt).command
    ∧ isI32 (s.m_blower_valve.minAperture - s.m_blower_valve.maxAperture)
    ∧ isI32 ((s.m_blower_valve.minAperture - s.m_blower_valve.maxAperture)
        * (pidBlowerExactLocals cfg s targetPressure currentPressure dt).command)
    ∧ isI32 (s.m_blower_valve.maxAperture
        + Int.tdiv ((s.m_blower_valve.minAperture - s.m_blower_valve.maxAperture)
            * (pidBlowerExactLocals cfg s targetPressure currentPressure dt).command) 1000)

/-- The sample controller after a first `pidBlower` invocation with a target of
0 and a measure of 3000 mmH2O: the stored error is -3000. -/
def afterHighPressureState : PressureController :=
  (pidBlower sampleConfig sampleState 0 3000 10000).2

/-- The sample controller with a pending command of 21 cycles per minute, the
cycle in progress having been started at 20. -/
def cycleChangedState : PressureController :=
  onCycleIncrease sampleConfig sampleState

/-- The sample controller at the start of a cycle, after a pressure sample of
330 mmH2O, above the peak command of 320. -/
def overPeakState : PressureController :=
  runCalls sampleConfig (initRespiratoryCycle sampleConfig sampleState) [Call.updatePressure 330]

/-- The code an alarm call is about. -/
def AlarmCall.code : AlarmCall → AlarmCode
  | AlarmCall.detectedAlarm code _ => code
  | AlarmCall.notDetectedAlarm code => code

/-- The calls about one code among the calls received, in the order received. -/
def callsFor (code : AlarmCode) (calls : List AlarmCall) : List AlarmCall :=
  calls.filter (fun c => c.code = code)

/-- The call made for a code: `detectedAlarm(code, cycle)` when the condition
holds, `notDetectedAlarm(code)` otherwise. -/
def alarmReport (detected : Bool) (code : AlarmCode) (cycle : Nat) : AlarmCall :=
  if detected then AlarmCall.detectedAlarm code cycle else AlarmCall.notDetectedAlarm code

/-- The calls the alarm controller receives during one `compute`: what
`compute` appends to the calls received before. -/
def computeAlarmCalls (cfg : Config) (s : PressureController) (p_centiSec : Nat) :
    List AlarmCall :=
  (compute cfg s p_centiSec).m_alarmController.drop s.m_alarmController.length

/-- The calls the alarm controller receives during one `endRespiratoryCycle`. -/
def endCycleAlarmCalls (cfg : Config) (s : PressureController) : List AlarmCall :=
  (endRespiratoryCycle cfg s).m_alarmController.drop s.m_alarmController.length

/-- The sample controller at the start of a cycle after a pressure sample of
-5 mmH2O (a negative `int16_t`). -/
def negativePressureState : PressureController :=
  updatePressure sampleConfig (initRespiratoryCycle sampleConfig sampleState) (-5)

/-- A cycle started with a PEEP command of 6 mmH2O, smaller than the PEEP alarm
threshold of 20, after a pressure sample of 10 mmH2O. -/
def lowPeepExhaleState : PressureController :=
  updatePressure sampleConfig (initRespiratoryCycle sampleConfig lowPeepState) 10

/-- The sample configuration with a PEEP alarm threshold of 2, and a controller
with a PEEP command of 6, as in the PEEP drift scenario of the specification. -/
def driftConfig : Config :=
  { sampleConfig with ALARM_THRESHOLD_PEEP_ABOVE_OR_UNDER_2_CMH2O := 2 }

/-- The sample controller at the start of a cycle after a pressure sample of
400 mmH2O. -/
def highPressureState : PressureController :=
  updatePressure sampleConfig (initRespiratoryCycle sampleConfig sampleState) 400

/-- The sample controller at the start of a cycle after a pressure sample of
50 mmH2O, below the peak command. -/
def risingPressureState : PressureController :=
  updatePressure sampleConfig (initRespiratoryCycle sampleConfig sampleState) 50

/-- The sample controller at the end of a cycle with a plateau command of 101
and a measured plateau pressure of 80 mmH2O. -/
def oddPlateauState : PressureController :=
  { sampleState with m_maxPlateauPressureCommand := 101, m_plateauPressure := 80 }

/-- The sample controller at the end of a cycle with a plateau command of 20, a
peak command of 25 and a measured plateau pressure of 15, the values of the
plateau-too-low scenario of the specification. -/
def lowPlateauState : PressureController :=
  { sampleState with
    m_maxPlateauPressureCommand := 20, m_maxPeakPressureCommand := 25, m_plateauPressure := 15 }

/-- The sample controller at the end of a cycle with a plateau command of 20, a
peak command of 25 and a measured plateau pressure of 200 mmH2O. -/
def highPlateauState : PressureController :=
  { lowPlateauState with m_plateauPressure := 200 }

/-- The sample controller in the middle of a cycle: the cycle was started with a
PEEP command of 100 and the last pressure sample is 125 mmH2O. -/
def midCycleState : PressureController :=
  updatePressure sampleConfig (initRespiratoryCycle sampleConfig sampleState) 125

/-- The controller of `midCycleState` after the operator raised the PEEP command
during the cycle. -/
def editedMidCycleState : PressureController :=
  onPeepPressureIncrease sampleConfig midCycleState

/-- The sample controller after a cycle start followed by ten pressure samples
of 7000 mmH2O: the window holds ten times 7000. -/
def saturatedWindowState : PressureController :=
  (List.replicate 10 (7000 : Int)).foldl (updatePressure sampleConfig)
    (initRespiratoryCycle sampleConfig sampleState)

/-- The sample controller after a cycle start followed by ten pressure samples
of 250 mmH2O. -/
def steadyWindowState : PressureController :=
  (List.replicate 10 (250 : Int)).foldl (updatePressure sampleConfig)
    (initRespiratoryCycle sampleConfig sampleState)

/-- Source: the body of the tick loop of `loop()` in `respirator.cpp` while the
controller runs: `updatePressure(pressure)`, `updateDt(currentMicro - lastMicro)`,
`compute(centiSec)`.  The input is the pressure sample and the elapsed
microseconds. -/
def loopTick (cfg : Config) (s : PressureController) (input : Int × Int) (centiSec : Nat) :
    PressureController :=
  compute cfg (updateDt (updatePressure cfg s input.1) input.2) centiSec

/-- Source: the `while` loop of `loop()` in `respirator.cpp`: one `loopTick` per
input at the consecutive ticks `centiSec`, `centiSec + 1`, ..., the first input
first. -/
def runTicks (cfg : Config) (s : PressureController) :
    List (Int × Int) → Nat → PressureController
  | [], _ => s
  | input :: rest, centiSec => runTicks cfg (loopTick cfg s input centiSec) rest (centiSec + 1)

/-- The largest of zero and the pressure samples, as stored in the `uint16_t`
member `m_pressure`. -/
def peakOfSamples (inputs : List (Int × Int)) : Nat :=
  inputs.foldl (fun m input => max (toU16 input.1) m) 0

/-- The sample controller in `HOLD_INSPIRATION` early in a cycle: a first tick
with a sample of 330 mmH2O, above the peak command of 320, then a sample of
50 mmH2O. -/
def fallenPressureState : PressureController :=
  updatePressure sampleConfig (compute sampleConfig overPeakState 0) 50

/-- The ticks of the `compute` calls of a sequence of calls, in the order of the
calls. -/
def computeTicks : List Call → List Nat
  | [] => []
  | Call.compute t :: rest => t :: computeTicks rest
  | _ :: rest => computeTicks rest

/-- The sample controller late in a cycle whose plateau has been computed: ten
samples of 250 mmH2O, the tick 100 (the estimator starts and stores 250), a
sample of 100 mmH2O and the tick 101 (the spread of the window exceeds 10: the
estimator stops and marks the plateau computed). -/
def plateauDoneState : PressureController :=
  runCalls sampleConfig (initRespiratoryCycle sampleConfig sampleState)
    (List.replicate 10 (Call.updatePressure 250)
      ++ [Call.compute 100, Call.updatePressure 100, Call.compute 101])

/-- The sample controller with a plateau command of 20 and a peak command of
30 mmH2O. -/
def lowPeakState : PressureController :=
  { sampleState with m_maxPlateauPressureCommand := 20, m_maxPeakPressureCommand := 30 }

/-- The blower-side command-to-aperture mapping in the words of the
specification: `clamp(maxA + (minA - maxA)*c/1000, minA, maxA)` with truncating
integer division, over the unbounded integers. -/
def blowerApertureOf (minA maxA c : Int) : Int :=
  max minA (min maxA (maxA + Int.tdiv ((minA - maxA) * c) 1000))

/-- The patient-side command-to-aperture mapping in the words of the
specification: `clamp(maxA + (maxA - minA)*c/1000, minA, maxA)` with truncating
integer division, over the unbounded integers. -/
def patientApertureOf (minA maxA c : Int) : Int :=
  max minA (min maxA (maxA + Int.tdiv ((maxA - minA) * c) 1000))

/-- The valve bounds, their difference `span`, its product with the command and
the sum the mapping clamps all fit a signed 32-bit integer. -/
@[reducible] def apertureNoOverflow (minA maxA span c : Int) : Prop :=
  isI32 minA ∧ isI32 maxA ∧ isI32 span ∧ isI32 (span * c)
    ∧ isI32 (maxA + Int.tdiv (span * c) 1000)

/-- The products and sums of `Kp*error + integral + (Kd*derivative)/1000` all
fit a signed 32-bit integer. -/
@[reducible] def commandNoOverflow (kp kd error integral derivative : Int) : Prop :=
  isI32 (kp * error) ∧ isI32 (kp * error + integral) ∧ isI32 (kd * derivative)
    ∧ isI32 (kp * error + integral + Int.tdiv (kd * derivative) 1000)

/-- The sample controller in the exhalation with the sub-phase `HOLD_EXHALE`,
the blower valve staged at 60 and the patient valve at 40. -/
def holdExhaleState : PressureController :=
  { sampleState with
    m_phase := CyclePhases.EXHALATION
    m_subPhase := CycleSubPhases.HOLD_EXHALE
    m_blower_valve := { sampleValve with command := 60 }
    m_patient_valve := { sampleValve with command := 40 } }

/-- The sample controller after a cycle start and a first tick with a sample of
50 mmH2O: `inhale()` has run `pidBlower` once, `pidPatient` has not run yet. -/
def afterFirstInhaleState : PressureController :=
  compute sampleConfig risingPressureState 0

/-- The inputs of `pidBlower` on which the products of the loop fit 32 bits,
stated on the inputs and on the configuration: 16-bit target and measure,
`dt >= 1`, the stored integral within its clamp bounds, `|Ki * error| * dt` at
most `2^31 - 1`, a stored last error that the error differs from by so little
that `1000000 * |error - lastError|` and `|Kd| * 1000000 * |error - lastError|`
are at most `2^31 - 1`, clamp bounds within `-bound .. bound`, valve bounds
within `-span .. span`, and `2 * span * (|Kp| * 65535 + bound + 2147483) + span`
at most `2^31 - 1`. -/
@[reducible] def pidBlowerDomain (cfg : Config) (s : PressureController)
    (targetPressure currentPressure dt bound span : Int) : Prop :=
  isI16 targetPressure ∧ isI16 currentPressure
    ∧ 1 ≤ dt
    ∧ (cfg.PID_BLOWER_INTEGRAL_MIN ≤ s.blowerIntegral
      ∧ s.blowerIntegral ≤ cfg.PID_BLOWER_INTEGRAL_MAX)
    ∧ |cfg.PID_BLOWER_KI * (targetPressure - currentPressure)| * dt ≤ 2147483647
    ∧ (s.blowerLastError = INVALID_ERROR_MARKER
      ∨ (1000000 * |targetPressure - currentPressure - s.blowerLastError| ≤ 2147483647
        ∧ |cfg.PID_BLOWER_KD| * (1000000 * |targetPressure - currentPressure - s.blowerLastError|)
            ≤ 2147483647))
    ∧ (-bound ≤ cfg.PID_BLOWER_INTEGRAL_MIN ∧ cfg.PID_BLOWER_INTEGRAL_MAX ≤ bound)
    ∧ (|s.m_blower_valve.minAperture| ≤ span ∧ |s.m_blower_valve.maxAperture| ≤ span)
    ∧ |cfg.PID_BLOWER_KP| * 65535 + bound + 2147483 ≤ 2147483647
    ∧ 2 * span * (|cfg.PID_BLOWER_KP| * 65535 + bound + 2147483) + span ≤ 2147483647

/-- The largest of zero and the pressure samples, as signed values: the
`maximum of 0 and all pressures sampled` of the specification. -/
def maxOfSamples (inputs : List (Int × Int)) : Int :=
  inputs.foldl (fun m input => max input.1 m) 0

theorem toI32_of_isI32 (x : Int) (h : isI32 x) : toI32 x = x := by
  unfold toI32
  obtain ⟨h1, h2⟩ := h
  omega

theorem toI32_toU32 (x : Int) : toI32 (toU32 x) = toI32 x := by
  unfold toI32 toU32
  rw [Int.toNat_of_nonneg (by omega)]
  omega

theorem isI32_toI32 (x : Int) : isI32 (toI32 x) := by
  unfold toI32
  constructor <;> omega

theorem clamp_bounds (lo hi x : Int) (h : lo ≤ hi) :
    lo ≤ max lo (min hi x) ∧ max lo (min hi x) ≤ hi :=
  ⟨le_max_left _ _, max_le h (min_le_left _ _)⟩

/-! ## PID: aperture bounds -/

/-- The aperture `pidBlower` returns lies within the bounds of the blower valve. -/
theorem pidBlower_aperture_bounds (cfg : Config) (s : PressureController)
    (targetPressure currentPressure dt : Int)
    (hmin : isI32 s.m_blower_valve.minAperture) (hmax : isI32 s.m_blower_valve.maxAperture)
    (h : s.m_blower_valve.minAperture ≤ s.m_blower_valve.maxAperture) :
    s.m_blower_valve.minAperture ≤ (pidBlower cfg s targetPressure currentPressure dt).1
      ∧ (pidBlower cfg s targetPressure currentPressure dt).1 ≤ s.m_blower_valve.maxAperture := by
  simp only [pidBlower, pidBlowerLocals, toI32_toU32]
  generalize toI32 (s.m_blower_valve.maxAperture + _) = x
  have hb := clamp_bounds _ _ x h
  rw [toI32_of_isI32 _ ⟨le_trans hmin.1 hb.1, le_trans hb.2 hmax.2⟩]
  exact hb

/-- The aperture `pidPatient` returns lies within the bounds of the blower valve,
the valve whose bounds its code reads. -/
theorem pidPatient_aperture_bounds_blower_valve (cfg : Config) (s : PressureController)
    (targetPressure currentPressure dt : Int)
    (hmin : isI32 s.m_blower_valve.minAperture) (hmax : isI32 s.m_blower_valve.maxAperture)
    (h : s.m_blower_valve.minAperture ≤ s.m_blower_valve.maxAperture) :
    s.m_blower_valve.minAperture ≤ (pidPatient cfg s targetPressure currentPressure dt).1
      ∧ (pidPatient cfg s targetPressure currentPressure dt).1 ≤ s.m_blower_valve.maxAperture := by
  simp only [pidPatient, pidPatientLocals, toI32_toU32]
  generalize toI32 (s.m_blower_valve.maxAperture + _) = x
  have hb := clamp_bounds _ _ x h
  rw [toI32_of_isI32 _ ⟨le_trans hmin.1 hb.1, le_trans hb.2 hmax.2⟩]
  exact hb

/-- C1 (evaluation at the failing input): with a blower valve ranging over
`0 .. 125` and a patient valve ranging over `200 .. 300`, `pidPatient` for a
target of 100 and a measure of 150 returns 110, which lies within the bounds of
the blower valve and outside the bounds of the patient valve the result is
staged on by `exhale`. -/
theorem pidPatient_aperture_outside_patient_valve :
    (pidPatient sampleConfig twoValveState 100 150 10000).1 = 110
      ∧ twoValveState.m_patient_valve.minAperture ≤ twoValveState.m_patient_valve.maxAperture
      ∧ ¬ (twoValveState.m_patient_valve.minAperture
            ≤ (pidPatient sampleConfig twoValveState 100 150 10000).1
          ∧ (pidPatient sampleConfig twoValveState 100 150 10000).1
            ≤ twoValveState.m_patient_valve.maxAperture)
      ∧ (exhale sampleConfig twoValveState).m_patient_valve.command = 125 := by
  decide

/-- C2: one call of `pidBlower` (resp. `pidPatient`) leaves the blower (resp.
patient) integral accumulator within its anti-windup bounds when the lower bound
is at most the upper bound, and `initRespiratoryCycle` leaves both accumulators
within their bounds when zero lies between the bounds. -/
theorem pid_integral_within_bounds (cfg : Config) (s : PressureController)
    (targetPressure currentPressure dt : Int) :
    (cfg.PID_BLOWER_INTEGRAL_MIN ≤ cfg.PID_BLOWER_INTEGRAL_MAX →
      cfg.PID_BLOWER_INTEGRAL_MIN
          ≤ (pidBlower cfg s targetPressure currentPressure dt).2.blowerIntegral
        ∧ (pidBlower cfg s targetPressure currentPressure dt).2.blowerIntegral
          ≤ cfg.PID_BLOWER_INTEGRAL_MAX)
    ∧ (cfg.PID_PATIENT_INTEGRAL_MIN ≤ cfg.PID_PATIENT_INTEGRAL_MAX →
      cfg.PID_PATIENT_INTEGRAL_MIN
          ≤ (pidPatient cfg s targetPressure currentPressure dt).2.patientIntegral
        ∧ (pidPatient cfg s targetPressure currentPressure dt).2.patientIntegral
          ≤ cfg.PID_PATIENT_INTEGRAL_MAX)
    ∧ (cfg.PID_BLOWER_INTEGRAL_MIN ≤ 0 ∧ 0 ≤ cfg.PID_BLOWER_INTEGRAL_MAX →
      cfg.PID_BLOWER_INTEGRAL_MIN ≤ (initRespiratoryCycle cfg s).blowerIntegral
        ∧ (initRespiratoryCycle cfg s).blowerIntegral ≤ cfg.PID_BLOWER_INTEGRAL_MAX)
    ∧ (cfg.PID_PATIENT_INTEGRAL_MIN ≤ 0 ∧ 0 ≤ cfg.PID_PATIENT_INTEGRAL_MAX →
      cfg.PID_PATIENT_INTEGRAL_MIN ≤ (initRespiratoryCycle cfg s).patientIntegral
        ∧ (initRespiratoryCycle cfg s).patientIntegral ≤ cfg.PID_PATIENT_INTEGRAL_MAX) := by
  refine ⟨fun h => ?_, fun h => ?_, fun h => ?_, fun h => ?_⟩
  · simp only [pidBlower, pidBlowerLocals]
    exact clamp_bounds _ _ _ h
  · simp only [pidPatient, pidPatientLocals]
    exact clamp_bounds _ _ _ h
  · simpa [initRespiratoryCycle, computeCentiSecParameters, setSubPhase] using h
  · simpa [initRespiratoryCycle, computeCentiSecParameters, setSubPhase] using h

theorem pid_integral_within_bounds_witness :
    (-1000 ≤ (pidBlower sampleConfig sampleState 320 0 10000).2.blowerIntegral
        ∧ (pidBlower sampleConfig sampleState 320 0 10000).2.blowerIntegral ≤ 1000)
    ∧ (-1000 ≤ (pidPatient sampleConfig sampleState 320 0 10000).2.patientIntegral
        ∧ (pidPatient sampleConfig sampleState 320 0 10000).2.patientIntegral ≤ 1000)
    ∧ (-1000 ≤ (initRespiratoryCycle sampleConfig sampleState).blowerIntegral
        ∧ (initRespiratoryCycle sampleConfig sampleState).blowerIntegral ≤ 1000)
    ∧ (-1000 ≤ (initRespiratoryCycle sampleConfig sampleState).patientIntegral
        ∧ (initRespiratoryCycle sampleConfig sampleState).patientIntegral ≤ 1000) :=
  have h := pid_integral_within_bounds sampleConfig sampleState 320 0 10000
  ⟨h.1 (by decide), h.2.1 (by decide), h.2.2.1 (by decide), h.2.2.2 (by decide)⟩

/-! ## PID: first-tick derivative guard -/

theorem toI32_idem (x : Int) : toI32 (toI32 x) = toI32 x :=
  toI32_of_isI32 _ (isI32_toI32 x)

/-- C8: `initRespiratoryCycle` stores `INVALID_ERROR_MARKER` in both `lastError`
members; on a `pidBlower` invocation that finds the marker in `blowerLastError`
(the first one after `initRespiratoryCycle`, whatever `dt` is) and on any
`pidBlower` invocation with `dt = 0`, and likewise on a `pidPatient` invocation
that finds the marker in `patientLastError` or has `dt = 0`, whatever the other
loop has stored: the derivative is 0, no evaluated division has a zero divisor,
the command is `Kp * error + integral` in 32-bit arithmetic (and over the
integers when that sum fits 32 bits), `integral` being the clamped accumulator
that is stored, and `lastError` becomes the current error. -/
theorem pid_derivative_guard (cfg : Config) (s : PressureController)
    (targetPressure currentPressure dt : Int) :
    (∀ s0 : PressureController,
        (initRespiratoryCycle cfg s0).blowerLastError = INVALID_ERROR_MARKER
        ∧ (initRespiratoryCycle cfg s0).patientLastError = INVALID_ERROR_MARKER)
    ∧ (s.blowerLastError = INVALID_ERROR_MARKER ∨ dt = 0 →
      (pidBlowerLocals cfg s targetPressure currentPressure dt).derivative = 0
      ∧ 0 ∉ (pidBlowerLocals cfg s targetPressure currentPressure dt).divisors
      ∧ (pidBlowerLocals cfg s targetPressure currentPressure dt).command
          = toI32 (toI32 (cfg.PID_BLOWER_KP
                * (pidBlowerLocals cfg s targetPressure currentPressure dt).error)
              + (pidBlowerLocals cfg s targetPressure currentPressure dt).integral)
      ∧ (isI32 (cfg.PID_BLOWER_KP
                * (pidBlowerLocals cfg s targetPressure currentPressure dt).error)
          → isI32 (cfg.PID_BLOWER_KP
                * (pidBlowerLocals cfg s targetPressure currentPressure dt).error
              + (pidBlowerLocals cfg s targetPressure currentPressure dt).integral)
          → (pidBlowerLocals cfg s targetPressure currentPressure dt).command
              = cfg.PID_BLOWER_KP
                  * (pidBlowerLocals cfg s targetPressure currentPressure dt).error
                + (pidBlowerLocals cfg s targetPressure currentPressure dt).integral)
      ∧ (pidBlowerLocals cfg s targetPressure currentPressure dt).error
          = toI32 (targetPressure - currentPressure)
      ∧ (pidBlower cfg s targetPressure currentPressure dt).2.blowerIntegral
          = (pidBlowerLocals cfg s targetPressure currentPressure dt).integral
      ∧ (pidBlower cfg s targetPressure currentPressure dt).2.blowerLastError
          = (pidBlowerLocals cfg s targetPressure currentPressure dt).error)
    ∧ (s.patientLastError = INVALID_ERROR_MARKER ∨ dt = 0 →
      (pidPatientLocals cfg s targetPressure currentPressure dt).derivative = 0
      ∧ 0 ∉ (pidPatientLocals cfg s targetPressure currentPressure dt).divisors
      ∧ (pidPatientLocals cfg s targetPressure currentPressure dt).command
          = toI32 (toI32 (cfg.PID_PATIENT_KP
                * (pidPatientLocals cfg s targetPressure currentPressure dt).error)
              + (pidPatientLocals cfg s targetPressure currentPressure dt).integral)
      ∧ (isI32 (cfg.PID_PATIENT_KP
                * (pidPatientLocals cfg s targetPressure currentPressure dt).error)
          → isI32 (cfg.PID_PATIENT_KP
                * (pidPatientLocals cfg s targetPressure currentPressure dt).error
              + (pidPatientLocals cfg s targetPressure currentPressure dt).integral)
          → (pidPatientLocals cfg s targetPressure currentPressure dt).command
              = cfg.PID_PATIENT_KP
                  * (pidPatientLocals cfg s targetPressure currentPressure dt).error
                + (pidPatientLocals cfg s targetPressure currentPressure dt).integral)
      ∧ (pidPatientLocals cfg s targetPressure currentPressure dt).error
          = toI32 (toI32 (targetPressure + cfg.PID_PATIENT_SAFETY_PEEP_OFFSET)
              - currentPressure)
      ∧ (pidPatient cfg s targetPressure currentPressure dt).2.patientIntegral
          = (pidPatientLocals cfg s targetPressure currentPressure dt).integral
      ∧ (pidPatient cfg s targetPressure currentPressure dt).2.patientLastError
          = (pidPatientLocals cfg s targetPressure currentPressure dt).error) := by
  have hz : ∀ k : Int, toI32 (Int.tdiv (toI32 (k * 0)) 1000) = 0 := by
    intro k
    simp [toI32]
  refine ⟨fun s0 => ?_, fun h => ?_, fun h => ?_⟩
  · simp [initRespiratoryCycle, computeCentiSecParameters, setSubPhase]
  · have hb : (s.blowerLastError = INVALID_ERROR_MARKER || dt = 0) = true := by
      rcases h with h | h <;> simp [h]
    have hc : (pidBlowerLocals cfg s targetPressure currentPressure dt).command
          = toI32 (toI32 (cfg.PID_BLOWER_KP
                * (pidBlowerLocals cfg s targetPressure currentPressure dt).error)
              + (pidBlowerLocals cfg s targetPressure currentPressure dt).integral) := by
      simp only [pidBlowerLocals, hb, if_true, hz, add_zero, toI32_idem]
    refine ⟨?_, ?_, hc, ?_, ?_, ?_, ?_⟩
    · simp only [pidBlowerLocals, hb, if_true]
    · simp only [pidBlowerLocals, hb, if_true]
      decide
    · intro h1 h2
      rw [hc, toI32_of_isI32 _ h1, toI32_of_isI32 _ h2]
    · simp only [pidBlowerLocals]
    · simp only [pidBlower]
    · simp only [pidBlower]
  · have hp : (s.patientLastError = INVALID_ERROR_MARKER || dt = 0) = true := by
      rcases h with h | h <;> simp [h]
    have hc : (pidPatientLocals cfg s targetPressure currentPressure dt).command
          = toI32 (toI32 (cfg.PID_PATIENT_KP
                * (pidPatientLocals cfg s targetPressure currentPressure dt).error)
              + (pidPatientLocals cfg s targetPressure currentPressure dt).integral) := by
      simp only [pidPatientLocals, hp, if_true, hz, add_zero, toI32_idem]
    refine ⟨?_, ?_, hc, ?_, ?_, ?_, ?_⟩
    · simp only [pidPatientLocals, hp, if_true]
    · simp only [pidPatientLocals, hp, if_true]
      decide
    · intro h1 h2
      rw [hc, toI32_of_isI32 _ h1, toI32_of_isI32 _ h2]
    · simp only [pidPatientLocals]
    · simp only [pidPatient]
    · simp only [pidPatient]

theorem pid_derivative_guard_witness :
    ((initRespiratoryCycle sampleConfig sampleState).blowerLastError = INVALID_ERROR_MARKER
      ∧ (pidBlowerLocals sampleConfig (initRespiratoryCycle sampleConfig sampleState)
          320 0 10000).derivative = 0
      ∧ 0 ∉ (pidBlowerLocals sampleConfig (initRespiratoryCycle sampleConfig sampleState)
          320 0 10000).divisors
      ∧ (pidBlower sampleConfig (initRespiratoryCycle sampleConfig sampleState)
          320 0 10000).2.blowerLastError = 320)
    ∧ (afterFirstInhaleState.blowerLastError = 270
      ∧ afterFirstInhaleState.patientLastError = INVALID_ERROR_MARKER
      ∧ (pidPatientLocals sampleConfig afterFirstInhaleState 100 150 10000).derivative = 0
      ∧ 0 ∉ (pidPatientLocals sampleConfig afterFirstInhaleState 100 150 10000).divisors
      ∧ (pidPatient sampleConfig afterFirstInhaleState 100 150 10000).2.patientLastError
          = -50)
    ∧ ((pidBlower sampleConfig afterFirstInhaleState 320 60 10000).2.blowerLastError ≠ INVALID_ERROR_MARKER
      ∧ (pidBlowerLocals sampleConfig
          (pidBlower sampleConfig afterFirstInhaleState 320 60 10000).2 320 70 0).derivative = 0
      ∧ 0 ∉ (pidBlowerLocals sampleConfig
          (pidBlower sampleConfig afterFirstInhaleState 320 60 10000).2 320 70 0).divisors) :=
  have h := pid_derivative_guard sampleConfig (initRespiratoryCycle sampleConfig sampleState)
    320 0 10000
  have h' := pid_derivative_guard sampleConfig afterFirstInhaleState 100 150 10000
  have h'' := pid_derivative_guard sampleConfig
    (pidBlower sampleConfig afterFirstInhaleState 320 60 10000).2 320 70 0
  have hb := h.2.1 (Or.inl (by decide))
  have hp := h'.2.2 (Or.inl (by decide))
  have hz := h''.2.1 (Or.inr rfl)
  ⟨⟨by decide, hb.1, hb.2.1, by decide⟩,
    ⟨by decide, by decide, hp.1, hp.2.1, by decide⟩,
    ⟨by decide, hz.1, hz.2.1⟩⟩

/-! ## Parameter adjusters -/

theorem toU16_sub_of_le (a b : Nat) (h : b ≤ a) (ha : a < 65536) :
    toU16 ((a : Int) - (b : Int)) = a - b := by
  unfold toU16
  omega

theorem toU16_sub_ten_of_le (a : Nat) (h : 10 ≤ a) (ha : a < 65536) :
    toU16 ((a : Int) - 10) = a - 10 := by
  unfold toU16
  omega

theorem toU16_sub_one_of_le (a : Nat) (h : 1 ≤ a) (ha : a < 65536) :
    toU16 ((a : Int) - 1) = a - 1 := by
  unfold toU16
  omega

theorem toU16_lt (x : Int) : toU16 x < 65536 := by
  unfold toU16
  omega

/-- The cycle alarm check leaves the plateau and peak commands as they are. -/
theorem checkCycleAlarm_commands (s : PressureController) :
    (checkCycleAlarm s).m_maxPlateauPressureCommand = s.m_maxPlateauPressureCommand
      ∧ (checkCycleAlarm s).m_maxPeakPressureCommand = s.m_maxPeakPressureCommand := by
  simp only [checkCycleAlarm, detectedAlarm, notDetectedAlarm]
  split_ifs <;> simp

/-- Without unsigned wrap-around (a decrement of at most the peak command, the
ceiling at least 255 below `2^16`, the lowest plateau command at least the steps
taken from it), every operation that writes the plateau or the peak command keeps
`maxPlateauPressureCommand <= maxPeakPressureCommand <= CONST_MAX_PEAK_PRESSURE`. -/
theorem peakOrdering_preserved_without_wrap (cfg : Config) (s : PressureController) (k : Nat)
    (hk : k ≤ 255)
    (hrange : cfg.CONST_MIN_PLATEAU_PRESSURE ≤ s.m_maxPlateauPressureCommand
      ∧ s.m_maxPlateauPressureCommand ≤ cfg.CONST_MAX_PLATEAU_PRESSURE)
    (hconst : cfg.CONST_MAX_PLATEAU_PRESSURE ≤ cfg.CONST_MAX_PEAK_PRESSURE)
    (hinv : peakOrdering cfg s)
    (hmax : cfg.CONST_MAX_PEAK_PRESSURE + 255 < 65536)
    (hmin : 10 ≤ cfg.CONST_MIN_PLATEAU_PRESSURE)
    (hinc : cfg.MAX_PEAK_INCREMENT ≤ cfg.CONST_MIN_PLATEAU_PRESSURE) :
    peakOrdering cfg (onPlateauPressureIncrease cfg s)
      ∧ peakOrdering cfg (onPlateauPressureDecrease cfg s)
      ∧ peakOrdering cfg (onPeakPressureIncrease cfg s k)
      ∧ (k ≤ s.m_maxPeakPressureCommand → peakOrdering cfg (onPeakPressureDecrease s k))
      ∧ peakOrdering cfg (endRespiratoryCycle cfg s) := by
  obtain ⟨hr1, hr2⟩ := hrange
  obtain ⟨hi1, hi2⟩ := hinv
  have hdec : ∀ (s1 : PressureController) (d : Nat),
      s1.m_maxPlateauPressureCommand ≤ s.m_maxPlateauPressureCommand →
      s1.m_maxPeakPressureCommand = s.m_maxPeakPressureCommand →
      d ≤ s.m_maxPeakPressureCommand → peakOrdering cfg (onPeakPressureDecrease s1 d) := by
    intro s1 d h1 h2 h3
    simp only [onPeakPressureDecrease, h2]
    rw [toU16_sub_of_le _ _ h3 (by omega)]
    split_ifs <;> simp only [peakOrdering] <;> omega
  have hincr : ∀ (s1 : PressureController) (d : Nat),
      s1.m_maxPlateauPressureCommand ≤ min (s.m_maxPlateauPressureCommand + 10)
        cfg.CONST_MAX_PLATEAU_PRESSURE →
      (10 ≤ d ∨ s1.m_maxPlateauPressureCommand ≤ s.m_maxPlateauPressureCommand) →
      s1.m_maxPeakPressureCommand = s.m_maxPeakPressureCommand →
      d ≤ 255 → peakOrdering cfg (onPeakPressureIncrease cfg s1 d) := by
    intro s1 d h1 h2 h3 h4
    simp only [onPeakPressureIncrease, h3]
    rw [Nat.mod_eq_of_lt (by omega)]
    have := min_le_left (s.m_maxPlateauPressureCommand + 10) cfg.CONST_MAX_PLATEAU_PRESSURE
    have := min_le_right (s.m_maxPlateauPressureCommand + 10) cfg.CONST_MAX_PLATEAU_PRESSURE
    split_ifs <;> simp only [peakOrdering] <;> omega
  refine ⟨?_, ?_, ?_, ?_, ?_⟩
  · simp only [onPlateauPressureIncrease]
    apply hincr
    · rw [Nat.mod_eq_of_lt (by omega)]
      split_ifs <;> simp only [le_min_iff] <;> omega
    · left; decide
    · split_ifs <;> rfl
    · decide
  · simp only [onPlateauPressureDecrease]
    apply hdec
    · rw [toU16_sub_ten_of_le _ (by omega) (by omega)]
      split_ifs <;> simp only <;> omega
    · split_ifs <;> rfl
    · simp only [DEFAULT_PEAK_PRESSURE_DELTA]; omega
  · apply hincr
    · simp only [le_min_iff]; omega
    · right; exact le_refl _
    · rfl
    · exact hk
  · intro hks
    exact hdec s k (le_refl _) rfl hks
  · have hc := checkCycleAlarm_commands s
    simp only [endRespiratoryCycle]
    have hm : ∀ a : Nat, min a cfg.MAX_PEAK_INCREMENT % 256 ≤ cfg.MAX_PEAK_INCREMENT :=
      fun a => le_trans (Nat.mod_le _ _) (min_le_right _ _)
    have hm2 : ∀ a : Nat, min a cfg.MAX_PEAK_INCREMENT % 256 ≤ 255 := by
      intro a
      have := Nat.mod_lt (min a cfg.MAX_PEAK_INCREMENT) (by decide : 256 > 0)
      omega
    split_ifs
    · apply hdec
      · exact le_of_eq hc.1
      · exact hc.2
      · have := hm (toU16 (↑(toU32 ((↑(checkCycleAlarm s).m_plateauPressure
            - ↑(checkCycleAlarm s).m_maxPlateauPressureCommand) * 2)) / 10))
        omega
    · apply hincr
      · rw [hc.1]; simp only [le_min_iff]; omega
      · right; exact le_of_eq hc.1
      · exact hc.2
      · exact hm2 _
    · simp only [peakOrdering, hc.1, hc.2]; omega
    · simp only [peakOrdering, hc.1, hc.2]; omega

/-- C3 (evaluation at a failing input): with the plateau and the peak command
both at 100 (the plateau command in its range `100 .. 400`, the ordering
`100 <= 100 <= 700` holding), `onPeakPressureDecrease(255)` stores
`100 - 255` reduced modulo `2^16`, that is 65381; this is not below the plateau
command, so the floor is not applied and the peak command ends above
`CONST_MAX_PEAK_PRESSURE`. -/
theorem onPeakPressureDecrease_wraps_above_ceiling :
    (sampleConfig.CONST_MIN_PLATEAU_PRESSURE ≤ floorState.m_maxPlateauPressureCommand
      ∧ floorState.m_maxPlateauPressureCommand ≤ sampleConfig.CONST_MAX_PLATEAU_PRESSURE)
    ∧ sampleConfig.CONST_MAX_PLATEAU_PRESSURE ≤ sampleConfig.CONST_MAX_PEAK_PRESSURE
    ∧ peakOrdering sampleConfig floorState
    ∧ (onPeakPressureDecrease floorState 255).m_maxPeakPressureCommand = 65381
    ∧ (onPeakPressureDecrease floorState 255).m_maxPlateauPressureCommand = 100
    ∧ ¬ peakOrdering sampleConfig (onPeakPressureDecrease floorState 255) := by
  decide

/-- C4 (counterexample): every command being in its range and the full
ordering holding, `onPeepPressureIncrease` raises a PEEP command of 100 to 110
above a plateau command of 100, and `onPlateauPressureDecrease` lowers a plateau
command of 300 to 290 below a PEEP command of 295. -/
theorem peep_le_plateau_not_preserved :
    (commandsInRange sampleConfig floorState
      ∧ floorState.m_minPeepCommand ≤ floorState.m_maxPlateauPressureCommand
      ∧ peakOrdering sampleConfig floorState
      ∧ ¬ ((onPeepPressureIncrease sampleConfig floorState).m_minPeepCommand
            ≤ (onPeepPressureIncrease sampleConfig floorState).m_maxPlateauPressureCommand))
    ∧ (commandsInRange sampleConfig tightState
      ∧ tightState.m_minPeepCommand ≤ tightState.m_maxPlateauPressureCommand
      ∧ peakOrdering sampleConfig tightState
      ∧ ¬ ((onPlateauPressureDecrease sampleConfig tightState).m_minPeepCommand
            ≤ (onPlateauPressureDecrease sampleConfig tightState).m_maxPlateauPressureCommand)) := by
  decide

theorem onPeakPressureDecrease_frame (s : PressureController) (k : Nat) :
    (onPeakPressureDecrease s k).m_minPeepCommand = s.m_minPeepCommand
      ∧ (onPeakPressureDecrease s k).m_maxPlateauPressureCommand = s.m_maxPlateauPressureCommand
      ∧ (onPeakPressureDecrease s k).m_cyclesPerMinuteCommand = s.m_cyclesPerMinuteCommand := by
  simp only [onPeakPressureDecrease]
  split_ifs <;> simp

theorem onPeakPressureIncrease_frame (cfg : Config) (s : PressureController) (k : Nat) :
    (onPeakPressureIncrease cfg s k).m_minPeepCommand = s.m_minPeepCommand
      ∧ (onPeakPressureIncrease cfg s k).m_maxPlateauPressureCommand
          = s.m_maxPlateauPressureCommand
      ∧ (onPeakPressureIncrease cfg s k).m_cyclesPerMinuteCommand
          = s.m_cyclesPerMinuteCommand := by
  simp only [onPeakPressureIncrease]
  split_ifs <;> simp

/-- C4 (amended): in a state whose commands are in their ranges and whose PEEP
command is at most the plateau command, `minPeepCommand <= maxPlateauPressureCommand` still holds after
`onPeepPressureDecrease` when the PEEP command is at least the step of 10, and
after `onPlateauPressureIncrease` when the plateau ceiling is at least 10 below
`2^16`; it holds after `onPeepPressureIncrease` exactly when
`min(minPeepCommand + 10, CONST_MAX_PEEP_PRESSURE) <= maxPlateauPressureCommand`,
and after `onPlateauPressureDecrease` (plateau command at least 10) exactly when
`minPeepCommand <= max(maxPlateauPressureCommand - 10, CONST_MIN_PLATEAU_PRESSURE)`;
both hold when `minPeepCommand + 10 <= maxPlateauPressureCommand`. -/
theorem peep_le_plateau_preserved_with_room (cfg : Config) (s : PressureController)
    (hrange : commandsInRange cfg s)
    (hpeep : s.m_minPeepCommand ≤ s.m_maxPlateauPressureCommand)
    (hceil : cfg.CONST_MAX_PLATEAU_PRESSURE + 10 < 65536) :
    (10 ≤ s.m_minPeepCommand →
        (onPeepPressureDecrease cfg s).m_minPeepCommand
          ≤ (onPeepPressureDecrease cfg s).m_maxPlateauPressureCommand)
    ∧ (onPlateauPressureIncrease cfg s).m_minPeepCommand
        ≤ (onPlateauPressureIncrease cfg s).m_maxPlateauPressureCommand
    ∧ ((onPeepPressureIncrease cfg s).m_minPeepCommand
          ≤ (onPeepPressureIncrease cfg s).m_maxPlateauPressureCommand
        ↔ min (s.m_minPeepCommand + 10) cfg.CONST_MAX_PEEP_PRESSURE
          ≤ s.m_maxPlateauPressureCommand)
    ∧ (10 ≤ s.m_maxPlateauPressureCommand →
        ((onPlateauPressureDecrease cfg s).m_minPeepCommand
            ≤ (onPlateauPressureDecrease cfg s).m_maxPlateauPressureCommand
          ↔ s.m_minPeepCommand
            ≤ max (s.m_maxPlateauPressureCommand - 10) cfg.CONST_MIN_PLATEAU_PRESSURE))
    ∧ (s.m_minPeepCommand + 10 ≤ s.m_maxPlateauPressureCommand →
        (onPeepPressureIncrease cfg s).m_minPeepCommand
            ≤ (onPeepPressureIncrease cfg s).m_maxPlateauPressureCommand
          ∧ (onPlateauPressureDecrease cfg s).m_minPeepCommand
            ≤ (onPlateauPressureDecrease cfg s).m_maxPlateauPressureCommand) := by
  obtain ⟨_, ⟨hp1, hp2⟩, hl1, hl2⟩ := hrange
  have hInc : (onPeepPressureIncrease cfg s).m_minPeepCommand
          ≤ (onPeepPressureIncrease cfg s).m_maxPlateauPressureCommand
        ↔ min (s.m_minPeepCommand + 10) cfg.CONST_MAX_PEEP_PRESSURE
          ≤ s.m_maxPlateauPressureCommand := by
    simp only [onPeepPressureIncrease]
    rw [Nat.mod_eq_of_lt (by omega)]
    split_ifs <;> simp only [min_le_iff] <;> omega
  have hDec : 10 ≤ s.m_maxPlateauPressureCommand →
        ((onPlateauPressureDecrease cfg s).m_minPeepCommand
            ≤ (onPlateauPressureDecrease cfg s).m_maxPlateauPressureCommand
          ↔ s.m_minPeepCommand
            ≤ max (s.m_maxPlateauPressureCommand - 10) cfg.CONST_MIN_PLATEAU_PRESSURE) := by
    intro h10
    simp only [onPlateauPressureDecrease, (onPeakPressureDecrease_frame _ _).1,
      (onPeakPressureDecrease_frame _ _).2.1]
    rw [toU16_sub_ten_of_le _ h10 (by omega)]
    split_ifs <;> simp only [le_max_iff] <;> omega
  refine ⟨?_, ?_, hInc, hDec, ?_⟩
  · intro h10
    simp only [onPeepPressureDecrease]
    rw [toU16_sub_ten_of_le _ h10 (by omega)]
    split_ifs <;> simp only <;> omega
  · simp only [onPlateauPressureIncrease, (onPeakPressureIncrease_frame _ _ _).1,
      (onPeakPressureIncrease_frame _ _ _).2.1]
    rw [Nat.mod_eq_of_lt (by omega)]
    split_ifs <;> simp only <;> omega
  · intro hroom
    refine ⟨hInc.2 ?_, (hDec (by omega)).2 ?_⟩
    · simp only [min_le_iff]; omega
    · simp only [le_max_iff]; omega

theorem peep_le_plateau_preserved_with_room_witness :
    commandsInRange sampleConfig sampleState
    ∧ sampleState.m_minPeepCommand ≤ sampleState.m_maxPlateauPressureCommand
    ∧ sampleConfig.CONST_MAX_PLATEAU_PRESSURE + 10 < 65536
    ∧ (onPlateauPressureIncrease sampleConfig sampleState).m_minPeepCommand
        ≤ (onPlateauPressureIncrease sampleConfig sampleState).m_maxPlateauPressureCommand
    ∧ (onPeepPressureDecrease sampleConfig sampleState).m_minPeepCommand
        ≤ (onPeepPressureDecrease sampleConfig sampleState).m_maxPlateauPressureCommand
    ∧ (onPeepPressureIncrease sampleConfig sampleState).m_minPeepCommand
        ≤ (onPeepPressureIncrease sampleConfig sampleState).m_maxPlateauPressureCommand
    ∧ (onPlateauPressureDecrease sampleConfig sampleState).m_minPeepCommand
        ≤ (onPlateauPressureDecrease sampleConfig sampleState).m_maxPlateauPressureCommand :=
  have h := peep_le_plateau_preserved_with_room sampleConfig sampleState
    (by decide) (by decide) (by decide)
  ⟨by decide, by decide, by decide, h.2.1, h.1 (by decide),
    (h.2.2.2.2 (by decide)).1, (h.2.2.2.2 (by decide)).2⟩

/-- One adjuster of cycles per minute, PEEP or plateau keeps the three commands
in their ranges when no unsigned wrap-around can occur: every lower bound is at
least the step subtracted from the command and every upper bound is at least
the step below `2^16`. -/
theorem rangeAdjuster_keeps_ranges_without_wrap (cfg : Config) (s : PressureController)
    (c : Call) (hc : c.isRangeAdjuster = true)
    (hcycle : 1 ≤ cfg.CONST_MIN_CYCLE ∧ cfg.CONST_MAX_CYCLE + 1 < 65536)
    (hpeep : 10 ≤ cfg.CONST_MIN_PEEP_PRESSURE ∧ cfg.CONST_MAX_PEEP_PRESSURE + 10 < 65536)
    (hplat : 10 ≤ cfg.CONST_MIN_PLATEAU_PRESSURE
      ∧ cfg.CONST_MAX_PLATEAU_PRESSURE + 10 < 65536)
    (h : commandsInRange cfg s) : commandsInRange cfg (c.run cfg s) := by
  obtain ⟨⟨hc1, hc2⟩, ⟨hp1, hp2⟩, hl1, hl2⟩ := h
  cases c <;> simp only [Call.isRangeAdjuster, Bool.false_eq_true] at hc <;>
    simp only [Call.run, commandsInRange]
  · simp only [onCycleDecrease]
    rw [toU16_sub_one_of_le _ (by omega) (by omega)]
    split_ifs <;> (try simp only) <;> omega
  · simp only [onCycleIncrease]
    rw [Nat.mod_eq_of_lt (by omega)]
    split_ifs <;> (try simp only) <;> omega
  · simp only [onPeepPressureDecrease]
    rw [toU16_sub_ten_of_le _ (by omega) (by omega)]
    split_ifs <;> (try simp only) <;> omega
  · simp only [onPeepPressureIncrease]
    rw [Nat.mod_eq_of_lt (by omega)]
    split_ifs <;> (try simp only) <;> omega
  · simp only [onPlateauPressureDecrease, (onPeakPressureDecrease_frame _ _).1,
      (onPeakPressureDecrease_frame _ _).2.1, (onPeakPressureDecrease_frame _ _).2.2]
    rw [toU16_sub_ten_of_le _ (by omega) (by omega)]
    split_ifs <;> (try simp only) <;> omega
  · simp only [onPlateauPressureIncrease, (onPeakPressureIncrease_frame _ _ _).1,
      (onPeakPressureIncrease_frame _ _ _).2.1, (onPeakPressureIncrease_frame _ _ _).2.2]
    rw [Nat.mod_eq_of_lt (by omega)]
    split_ifs <;> (try simp only) <;> omega

/-- Every finite sequence of the six adjusters keeps the three commands in their
ranges when no unsigned wrap-around can occur. -/
theorem rangeAdjusters_keep_ranges_without_wrap (cfg : Config)
    (hcycle : 1 ≤ cfg.CONST_MIN_CYCLE ∧ cfg.CONST_MAX_CYCLE + 1 < 65536)
    (hpeep : 10 ≤ cfg.CONST_MIN_PEEP_PRESSURE ∧ cfg.CONST_MAX_PEEP_PRESSURE + 10 < 65536)
    (hplat : 10 ≤ cfg.CONST_MIN_PLATEAU_PRESSURE
      ∧ cfg.CONST_MAX_PLATEAU_PRESSURE + 10 < 65536)
    (calls : List Call) (hcalls : ∀ c ∈ calls, c.isRangeAdjuster = true) :
    ∀ s : PressureController, commandsInRange cfg s →
      commandsInRange cfg (runCalls cfg s calls) := by
  induction calls with
  | nil => intro s h; exact h
  | cons c cs ih =>
    intro s h
    simp only [runCalls, List.foldl_cons]
    exact ih (fun c' hc' => hcalls c' (List.mem_cons_of_mem _ hc')) _
      (rangeAdjuster_keeps_ranges_without_wrap cfg s c
        (hcalls c (List.mem_cons_self _ _)) hcycle hpeep hplat h)

/-- After `onPeepPressureIncrease` the PEEP command is at most
`CONST_MAX_PEEP_PRESSURE`, whatever it was before. -/
theorem onPeepPressureIncrease_le_max (cfg : Config) (s : PressureController) :
    (onPeepPressureIncrease cfg s).m_minPeepCommand ≤ cfg.CONST_MAX_PEEP_PRESSURE := by
  simp only [onPeepPressureIncrease]
  split_ifs <;> (try simp only) <;> omega

/-- After one or more calls of `onPeepPressureIncrease`, 1000 calls in
particular, the PEEP command is at most `CONST_MAX_PEEP_PRESSURE`. -/
theorem onPeepPressureIncrease_iterate_le_max (cfg : Config) (s : PressureController) (n : Nat) :
    ((onPeepPressureIncrease cfg)^[n + 1] s).m_minPeepCommand ≤ cfg.CONST_MAX_PEEP_PRESSURE := by
  rw [Function.iterate_succ_apply']
  exact onPeepPressureIncrease_le_max cfg _

/-- C5 (evaluation at a failing input): with `CONST_MIN_PEEP_PRESSURE = 0` and
the three commands in their ranges, a PEEP command of 6, smaller than the step,
becomes `6 - 10` reduced modulo `2^16`, that is 65532, after
`onPeepPressureDecrease`: the lower clamp does not fire and the command is
above `CONST_MAX_PEEP_PRESSURE = 300`; the same happens from a PEEP command
of 0. -/
theorem onPeepPressureDecrease_wraps_out_of_range :
    commandsInRange sampleConfig lowPeepState
    ∧ (onPeepPressureDecrease sampleConfig lowPeepState).m_minPeepCommand = 65532
    ∧ ¬ commandsInRange sampleConfig (onPeepPressureDecrease sampleConfig lowPeepState)
    ∧ ¬ commandsInRange sampleConfig
        (runCalls sampleConfig lowPeepState [Call.onPeepPressureDecrease])
    ∧ (onPeepPressureDecrease sampleConfig
        { lowPeepState with m_minPeepCommand := 0 }).m_minPeepCommand = 65526 := by
  decide

/-! ## Phase state -/

theorem onlyAlarmsDiffer_refl (s : PressureController) : onlyAlarmsDiffer s s := rfl

theorem onlyAlarmsDiffer_trans {a b c : PressureController}
    (h1 : onlyAlarmsDiffer a b) (h2 : onlyAlarmsDiffer b c) : onlyAlarmsDiffer a c := by
  unfold onlyAlarmsDiffer at *
  rw [h2, h1]

theorem onlyAlarmsDiffer_detectedAlarm (s : PressureController) (code : AlarmCode) :
    onlyAlarmsDiffer s (detectedAlarm s code) := rfl

theorem onlyAlarmsDiffer_notDetectedAlarm (s : PressureController) (code : AlarmCode) :
    onlyAlarmsDiffer s (notDetectedAlarm s code) := rfl

theorem onlyAlarmsDiffer_safeguardPlateau (cfg : Config) (s : PressureController) (t : Nat) :
    onlyAlarmsDiffer s (safeguardPlateau cfg s t) := by
  simp only [safeguardPlateau]
  split_ifs <;> rfl

theorem onlyAlarmsDiffer_safeguardHoldExpiration (cfg : Config) (s : PressureController)
    (t : Nat) : onlyAlarmsDiffer s (safeguardHoldExpiration cfg s t) := by
  simp only [safeguardHoldExpiration]
  split_ifs <;> rfl

/-- The safeguards write nothing but the calls received by the alarm controller. -/
theorem onlyAlarmsDiffer_safeguards (cfg : Config) (s : PressureController) (t : Nat) :
    onlyAlarmsDiffer s (safeguards cfg s t) := by
  have h1 := onlyAlarmsDiffer_safeguardPlateau cfg s t
  have h2 := onlyAlarmsDiffer_safeguardHoldExpiration cfg (safeguardPlateau cfg s t) t
  have h12 := onlyAlarmsDiffer_trans h1 h2
  simp only [safeguards]
  split_ifs <;> exact onlyAlarmsDiffer_trans h12 rfl

/-- The safeguards leave the phase state and the valves as they are. -/
theorem safeguards_frame (cfg : Config) (s : PressureController) (t : Nat) :
    (safeguards cfg s t).m_phase = s.m_phase
      ∧ (safeguards cfg s t).m_subPhase = s.m_subPhase
      ∧ (safeguards cfg s t).m_vigilance = s.m_vigilance
      ∧ (safeguards cfg s t).m_blower_valve = s.m_blower_valve
      ∧ (safeguards cfg s t).m_patient_valve = s.m_patient_valve := by
  have h := onlyAlarmsDiffer_safeguards cfg s t
  unfold onlyAlarmsDiffer at h
  refine ⟨?_, ?_, ?_, ?_, ?_⟩ <;> rw [h]

/-- The plateau estimator leaves the phase state and the valves as they are. -/
theorem computePlateau_frame (cfg : Config) (s : PressureController) (t : Nat) :
    (computePlateau cfg s t).m_phase = s.m_phase
      ∧ (computePlateau cfg s t).m_subPhase = s.m_subPhase
      ∧ (computePlateau cfg s t).m_vigilance = s.m_vigilance
      ∧ (computePlateau cfg s t).m_blower_valve = s.m_blower_valve
      ∧ (computePlateau cfg s t).m_patient_valve = s.m_patient_valve := by
  simp only [computePlateau]
  split_ifs <;> simp

/-- The phase state after the sub-phase dispatch and the safeguards of `compute`
is the one `updatePhase` left. -/
theorem computeStaged_frame (cfg : Config) (s : PressureController) (t : Nat) :
    (computeStaged cfg s t).m_phase = (updatePhase (updateBlower s t) t).m_phase
      ∧ (computeStaged cfg s t).m_subPhase = (updatePhase (updateBlower s t) t).m_subPhase
      ∧ (computeStaged cfg s t).m_vigilance
          = (updatePhase (updateBlower s t) t).m_vigilance := by
  simp only [computeStaged]
  generalize updatePhase (updateBlower s t) t = u
  simp only [(safeguards_frame _ _ _).1, (safeguards_frame _ _ _).2.1,
    (safeguards_frame _ _ _).2.2.1]
  split_ifs
  · split <;>
      simp [inhale, plateau, exhale, holdExhalation, pidBlower, pidPatient,
        computePlateau_frame]
  · simp

/-- The phase and sub-phase `updatePhase` leaves are consistent. -/
theorem updatePhase_phaseConsistent (s : PressureController) (t : Nat) :
    phaseConsistent (updatePhase s t) := by
  simp only [updatePhase, setSubPhase]
  split_ifs <;> simp_all [phaseConsistent]

/-- C6: for every prior state and tick, the phase and the sub-phase are
consistent after `updatePhase`, after `compute`, and after
`initRespiratoryCycle`: an inhalation is in `INSPIRATION` or `HOLD_INSPIRATION`,
an exhalation in `EXHALE` or `HOLD_EXHALE`. -/
theorem phase_subPhase_consistent (cfg : Config) (s : PressureController) (t : Nat) :
    phaseConsistent (updatePhase s t)
      ∧ phaseConsistent (compute cfg s t)
      ∧ phaseConsistent (initRespiratoryCycle cfg s) := by
  refine ⟨updatePhase_phaseConsistent s t, ?_, ?_⟩
  · have h := computeStaged_frame cfg s t
    have hu := updatePhase_phaseConsistent (updateBlower s t) t
    simp only [compute, executeCommands, phaseConsistent, h.1, h.2.1]
    exact hu
  · simp [initRespiratoryCycle, computeCentiSecParameters, setSubPhase, phaseConsistent]

/-! ## The vigilance flag and the hold sub-phases -/

theorem checkCycleAlarm_vigilance (s : PressureController) :
    (checkCycleAlarm s).m_vigilance = s.m_vigilance := by
  simp only [checkCycleAlarm, detectedAlarm, notDetectedAlarm]
  split_ifs <;> rfl

theorem onPeakPressureDecrease_vigilance (s : PressureController) (k : Nat) :
    (onPeakPressureDecrease s k).m_vigilance = s.m_vigilance := by
  simp only [onPeakPressureDecrease]
  split_ifs <;> rfl

theorem onPeakPressureIncrease_vigilance (cfg : Config) (s : PressureController) (k : Nat) :
    (onPeakPressureIncrease cfg s k).m_vigilance = s.m_vigilance := by
  simp only [onPeakPressureIncrease]
  split_ifs <;> rfl

theorem endRespiratoryCycle_vigilance (cfg : Config) (s : PressureController) :
    (endRespiratoryCycle cfg s).m_vigilance = s.m_vigilance := by
  simp only [endRespiratoryCycle]
  split_ifs <;>
    simp only [onPeakPressureDecrease_vigilance, onPeakPressureIncrease_vigilance,
      checkCycleAlarm_vigilance]

theorem updateBlower_vigilance (s : PressureController) (t : Nat) :
    (updateBlower s t).m_vigilance = s.m_vigilance := by
  simp only [updateBlower]
  split_ifs <;> rfl

theorem updatePhase_vigilance (s : PressureController) (t : Nat)
    (h : s.m_vigilance = false) : (updatePhase s t).m_vigilance = false := by
  simp only [updatePhase, setSubPhase]
  split_ifs <;> simp [h]

theorem compute_vigilance (cfg : Config) (s : PressureController) (t : Nat)
    (h : s.m_vigilance = false) : (compute cfg s t).m_vigilance = false := by
  simp only [compute, executeCommands, (computeStaged_frame cfg s t).2.2]
  exact updatePhase_vigilance _ t (by rw [updateBlower_vigilance]; exact h)

/-- No call sets the vigilance flag. -/
theorem callRun_vigilance (cfg : Config) (s : PressureController) (c : Call)
    (h : s.m_vigilance = false) : (c.run cfg s).m_vigilance = false := by
  cases c <;> simp only [Call.run]
  · simp [initRespiratoryCycle, computeCentiSecParameters, setSubPhase]
  · rw [endRespiratoryCycle_vigilance]; exact h
  · simp only [updatePressure]; split_ifs <;> exact h
  · exact h
  · exact compute_vigilance cfg s _ h
  · simp only [onCycleDecrease]; split_ifs <;> exact h
  · simp only [onCycleIncrease]; split_ifs <;> exact h
  · simp only [onPeepPressureDecrease]; split_ifs <;> exact h
  · simp only [onPeepPressureIncrease]; split_ifs <;> exact h
  · simp only [onPlateauPressureDecrease, onPeakPressureDecrease_vigilance]
    split_ifs <;> exact h
  · simp only [onPlateauPressureIncrease, onPeakPressureIncrease_vigilance]
    split_ifs <;> exact h
  · rw [onPeakPressureDecrease_vigilance]; exact h
  · rw [onPeakPressureIncrease_vigilance]; exact h

theorem runCalls_vigilance (cfg : Config) (calls : List Call) :
    ∀ s : PressureController, s.m_vigilance = false →
      (runCalls cfg s calls).m_vigilance = false := by
  induction calls with
  | nil => intro s h; exact h
  | cons c cs ih =>
    intro s h
    simp only [runCalls, List.foldl_cons]
    exact ih _ (callRun_vigilance cfg s c h)

/-- The vigilance flag is clear in every state reachable from
`initRespiratoryCycle`. -/
theorem Reachable.vigilance_false {cfg : Config} {s : PressureController}
    (h : Reachable cfg s) : s.m_vigilance = false := by
  obtain ⟨s0, calls, rfl⟩ := h
  apply runCalls_vigilance
  simp [initRespiratoryCycle, computeCentiSecParameters, setSubPhase]

/-- C7: in every state whose vigilance flag is clear, which every state
reachable from `initRespiratoryCycle` is, when the sub-phase after `compute(t)`
is `HOLD_INSPIRATION` or `HOLD_EXHALE`, the staged command of the blower valve
and of the patient valve, at the moment `executeCommands` runs, is the command
`close()` stages. -/
theorem hold_subPhases_stage_closed_valves (cfg : Config) (s : PressureController) (t : Nat)
    (hv : s.m_vigilance = false)
    (hsub : (compute cfg s t).m_subPhase = CycleSubPhases.HOLD_INSPIRATION
      ∨ (compute cfg s t).m_subPhase = CycleSubPhases.HOLD_EXHALE) :
    (∀ u : PressureController, Reachable cfg u → u.m_vigilance = false)
      ∧ compute cfg s t = executeCommands (computeStaged cfg s t)
      ∧ (computeStaged cfg s t).m_blower_valve.command
          = (computeStaged cfg s t).m_blower_valve.close.command
      ∧ (computeStaged cfg s t).m_patient_valve.command
          = (computeStaged cfg s t).m_patient_valve.close.command := by
  refine ⟨fun u hu => hu.vigilance_false, rfl, ?_⟩
  have hf := computeStaged_frame cfg s t
  have hv' : (updatePhase (updateBlower s t) t).m_vigilance = false :=
    updatePhase_vigilance _ t (by rw [updateBlower_vigilance]; exact hv)
  have hsub' : (updatePhase (updateBlower s t) t).m_subPhase = CycleSubPhases.HOLD_INSPIRATION
      ∨ (updatePhase (updateBlower s t) t).m_subPhase = CycleSubPhases.HOLD_EXHALE := by
    simpa only [compute, executeCommands, hf.2.1] using hsub
  simp only [computeStaged, (safeguards_frame _ _ _).2.2.2.1, (safeguards_frame _ _ _).2.2.2.2]
  generalize updatePhase (updateBlower s t) t = u at hv' hsub'
  rcases hsub' with h | h <;>
    simp [hv', h, plateau, holdExhalation, PressureValve.close]

theorem hold_subPhases_stage_closed_valves_witness :
    (holdExhaleState.m_vigilance = false
      ∧ (compute sampleConfig holdExhaleState 100).m_subPhase = CycleSubPhases.HOLD_EXHALE
      ∧ holdExhaleState.m_blower_valve.command = 60
      ∧ holdExhaleState.m_patient_valve.command = 40
      ∧ (computeStaged sampleConfig holdExhaleState 100).m_blower_valve.command
          = (computeStaged sampleConfig holdExhaleState 100).m_blower_valve.close.command
      ∧ (computeStaged sampleConfig holdExhaleState 100).m_patient_valve.command
          = (computeStaged sampleConfig holdExhaleState 100).m_patient_valve.close.command
      ∧ (computeStaged sampleConfig holdExhaleState 100).m_blower_valve.command = 125
      ∧ (computeStaged sampleConfig holdExhaleState 100).m_patient_valve.command = 125)
    ∧ (overPeakState.m_vigilance = false
      ∧ (compute sampleConfig overPeakState 0).m_subPhase = CycleSubPhases.HOLD_INSPIRATION
      ∧ (computeStaged sampleConfig overPeakState 0).m_blower_valve.command
          = (computeStaged sampleConfig overPeakState 0).m_blower_valve.close.command
      ∧ (computeStaged sampleConfig overPeakState 0).m_patient_valve.command
          = (computeStaged sampleConfig overPeakState 0).m_patient_valve.close.command) :=
  have h := hold_subPhases_stage_closed_valves sampleConfig holdExhaleState 100 (by decide)
    (Or.inr (by decide))
  have h' := hold_subPhases_stage_closed_valves sampleConfig overPeakState 0 (by decide)
    (Or.inl (by decide))
  ⟨⟨by decide, by decide, by decide, by decide, h.2.2.1, h.2.2.2, by decide, by decide⟩,
    ⟨by decide, by decide, h'.2.2.1, h'.2.2.2⟩⟩

/-! ## PID: 32-bit arithmetic -/

theorem isI32_tdiv (a b : Int) (ha : isI32 a) (hb : 0 < b) : isI32 (Int.tdiv a b) := by
  obtain ⟨h1, h2⟩ := ha
  rcases le_or_lt 0 a with h | h
  · rw [Int.tdiv_eq_ediv h (le_of_lt hb)]
    have := Int.ediv_le_self b h
    have := Int.ediv_nonneg h (le_of_lt hb)
    constructor <;> omega
  · have hc : a = -(-a) := by omega
    have h0 : 0 ≤ -a := by omega
    rw [hc, Int.neg_tdiv, Int.tdiv_eq_ediv h0 (le_of_lt hb)]
    have := Int.ediv_le_self b h0
    have := Int.ediv_nonneg h0 (le_of_lt hb)
    constructor <;> omega

theorem isI32_clamp (lo hi x : Int) (hlo : isI32 lo) (hhi : isI32 hi) (hx : isI32 x) :
    isI32 (max lo (min hi x)) := by
  rcases max_choice lo (min hi x) with h | h <;> rw [h]
  · exact hlo
  · rcases min_choice hi x with h' | h' <;> rw [h']
    · exact hhi
    · exact hx

/-- C9 (counterexample): on the first tick of a cycle (integral 0, `lastError` the
marker) with target 320, measure 0 (both 16-bit) and `dt = 1000000`, the
intermediate `Ki*error*dt = 16000000000` does not fit 32 bits and the aperture
computed with wrap-around, 125, is not the aperture computed over the integers,
0; `compute(0)` stages 125 on the blower valve.  And with `dt = 10000` and a
`lastError` of -3000 stored by an invocation with 16-bit inputs (target 0,
measure 3000), `1000000 * (error - lastError) = 3320000000` does not fit 32 bits
and the apertures are 125 and 109. -/
theorem pidBlower_overflows_on_long_first_tick :
    (isI16 320 ∧ isI16 0
      ∧ (1 ≤ (1000000 : Int) ∧ (1000000 : Int) ≤ 1000000)
      ∧ (initRespiratoryCycle sampleConfig sampleState).blowerLastError = INVALID_ERROR_MARKER
      ∧ (sampleConfig.PID_BLOWER_INTEGRAL_MIN
            ≤ (initRespiratoryCycle sampleConfig sampleState).blowerIntegral
        ∧ (initRespiratoryCycle sampleConfig sampleState).blowerIntegral
            ≤ sampleConfig.PID_BLOWER_INTEGRAL_MAX)
      ∧ ¬ isI32 (sampleConfig.PID_BLOWER_KI * (320 - 0) * 1000000)
      ∧ (pidBlower sampleConfig (initRespiratoryCycle sampleConfig sampleState)
          320 0 1000000).1 = 125
      ∧ (pidBlowerExactLocals sampleConfig (initRespiratoryCycle sampleConfig sampleState)
          320 0 1000000).aperture = 0
      ∧ (compute sampleConfig
          (updateDt (updatePressure sampleConfig
            (initRespiratoryCycle sampleConfig sampleState) 0) 1000000)
          0).m_blower_valve.command = 125)
    ∧ (isI16 3000
      ∧ (1 ≤ (10000 : Int) ∧ (10000 : Int) ≤ 1000000)
      ∧ afterHighPressureState.blowerLastError = 0 - 3000
      ∧ (sampleConfig.PID_BLOWER_INTEGRAL_MIN ≤ afterHighPressureState.blowerIntegral
        ∧ afterHighPressureState.blowerIntegral ≤ sampleConfig.PID_BLOWER_INTEGRAL_MAX)
      ∧ ¬ isI32 (1000000 * (320 - 0 - afterHighPressureState.blowerLastError))
      ∧ (pidBlower sampleConfig afterHighPressureState 320 0 10000).1 = 125
      ∧ (pidBlowerExactLocals sampleConfig afterHighPressureState 320 0 10000).aperture
          = 109) := by
  decide

/-- For `dt >= 1`, when every intermediate value of `pidBlower` computed over the
unbounded integers fits a signed 32-bit integer, the locals and the result
computed with 32-bit wrap-around are those computed over the unbounded
integers. -/
theorem pidBlowerLocals_exact_of_noOverflow (cfg : Config) (s : PressureController)
    (targetPressure currentPressure dt : Int) (hdt : 1 ≤ dt)
    (h : pidBlowerNoOverflow cfg s targetPressure currentPressure dt) :
    pidBlowerLocals cfg s targetPressure currentPressure dt
        = pidBlowerExactLocals cfg s targetPressure currentPressure dt
      ∧ (pidBlower cfg s targetPressure currentPressure dt).1
        = (pidBlowerExactLocals cfg s targetPressure currentPressure dt).aperture := by
  obtain ⟨hMin, hMax, hminA, hmaxA, he, hp1, hp2, hi1, hd, hk1, hk2, hk3, hc, ha0, ha1, ha2⟩ := h
  have hdt0 : dt ≠ 0 := by omega
  have hpos : (0 : Int) < dt := by omega
  have e1 := toI32_of_isI32 _ he
  have e2 := toI32_of_isI32 _ hp1
  have e3 := toI32_of_isI32 _ hp2
  have e4 := toI32_of_isI32 _ (isI32_tdiv _ _ hp2 (by decide : (0 : Int) < 1000000))
  have e5 := toI32_of_isI32 _ hi1
  have e6 := toI32_of_isI32 _ hk1
  have e11 := toI32_of_isI32 _ ha0
  have hloc : pidBlowerLocals cfg s targetPressure currentPressure dt
        = pidBlowerExactLocals cfg s targetPressure currentPressure dt := by
    by_cases hl : s.blowerLastError = INVALID_ERROR_MARKER
    · simp only [pidBlowerExactLocals, hl, decide_True, Bool.true_or, if_true, mul_zero,
        Int.zero_tdiv, add_zero] at hk2 hc ha1 ha2
      have e7 := toI32_of_isI32 _ hk2
      have e8 : toI32 0 = 0 := by decide
      have e12 := toI32_of_isI32 _ ha1
      have e13 := toI32_of_isI32 _ (isI32_tdiv _ _ ha1 (by decide : (0 : Int) < 1000))
      have e14 := toI32_of_isI32 _ ha2
      have e15 := toI32_of_isI32 _ (isI32_clamp _ _ _ hminA hmaxA ha2)
      simp only [pidBlowerLocals, pidBlowerExactLocals, hl, decide_True, Bool.true_or, if_true,
        mul_zero, Int.zero_tdiv, add_zero, toI32_toU32, e1, e2, e3, e4, e5, e6, e7, e8, e11,
        e12, e13, e14, e15]
    · obtain ⟨hd0, hd1⟩ := hd hl
      have hg : (decide (s.blowerLastError = INVALID_ERROR_MARKER) || decide (dt = 0)) = false := by
        simp [hl, hdt0]
      simp only [pidBlowerExactLocals, hg, Bool.false_eq_true, if_false] at hk2 hk3 hc ha1 ha2
      have d1 := toI32_of_isI32 _ hd0
      have d2 := toI32_of_isI32 _ hd1
      have d3 := toI32_of_isI32 _ (isI32_tdiv _ _ hd1 hpos)
      have e7 := toI32_of_isI32 _ hk2
      have e8 := toI32_of_isI32 _ hk3
      have e9 := toI32_of_isI32 _ (isI32_tdiv _ _ hk3 (by decide : (0 : Int) < 1000))
      have e10 := toI32_of_isI32 _ hc
      have e12 := toI32_of_isI32 _ ha1
      have e13 := toI32_of_isI32 _ (isI32_tdiv _ _ ha1 (by decide : (0 : Int) < 1000))
      have e14 := toI32_of_isI32 _ ha2
      have e15 := toI32_of_isI32 _ (isI32_clamp _ _ _ hminA hmaxA ha2)
      simp only [pidBlowerLocals, pidBlowerExactLocals, hg, Bool.false_eq_true, if_false,
        toI32_toU32, e1, e2, e3, e4, e5, e6, d1, d2, d3, e7, e8, e9, e10, e11, e12, e13, e14,
        e15]
  refine ⟨hloc, ?_⟩
  simp only [pidBlower, hloc]

theorem abs_tdiv (a k : Int) (hk : 0 < k) : |Int.tdiv a k| = |a| / k := by
  rcases le_or_lt 0 a with ha | ha
  · rw [Int.tdiv_eq_ediv ha (le_of_lt hk), abs_of_nonneg ha,
      abs_of_nonneg (Int.ediv_nonneg ha (le_of_lt hk))]
  · have ha0 : 0 ≤ -a := by omega
    have e1 : Int.tdiv (-a) k = -(Int.tdiv a k) := Int.neg_tdiv a k
    have e2 : Int.tdiv (-a) k = (-a) / k := Int.tdiv_eq_ediv ha0 (le_of_lt hk)
    have hq : 0 ≤ (-a) / k := Int.ediv_nonneg ha0 (le_of_lt hk)
    rw [abs_of_neg ha, abs_of_nonpos (by omega)]
    omega

theorem abs_tdiv_le (a k n : Int) (hk : 0 < k) (h : |a| ≤ n) : |Int.tdiv a k| ≤ n / k := by
  rw [abs_tdiv a k hk]
  exact Int.ediv_le_ediv hk h

theorem isI32_of_abs_le (x : Int) (h : |x| ≤ 2147483647) : isI32 x := by
  obtain ⟨h1, h2⟩ := abs_le.1 h
  constructor <;> omega

theorem abs_mul_le (x y X Y : Int) (hx : |x| ≤ X) (hy : |y| ≤ Y) : |x * y| ≤ X * Y := by
  rw [abs_mul]
  exact mul_le_mul hx hy (abs_nonneg y) (le_trans (abs_nonneg x) hx)

theorem abs_clamp_le (lo hi x B : Int) (hlo : -B ≤ lo) (hhi : hi ≤ B) (h : lo ≤ hi) :
    |max lo (min hi x)| ≤ B := by
  obtain ⟨h1, h2⟩ := clamp_bounds lo hi x h
  rw [abs_le]
  constructor <;> omega

/-- The command and the aperture mapping of a PID loop fit 32 bits when the
proportional term, the clamped integral, the derivative term and the valve
bounds are within the budget. -/
theorem pid_tail_fits (kp e i' kd d minA maxA bound span : Int)
    (hP : |kp * e| ≤ |kp| * 65535) (hI : |i'| ≤ bound) (hD : |kd * d| ≤ 2147483647)
    (hmin : |minA| ≤ span) (hmax : |maxA| ≤ span)
    (hC : |kp| * 65535 + bound + 2147483 ≤ 2147483647)
    (hS : 2 * span * (|kp| * 65535 + bound + 2147483) + span ≤ 2147483647) :
    isI32 (kp * e) ∧ isI32 (kp * e + i') ∧ isI32 (kd * d)
      ∧ isI32 (kp * e + i' + Int.tdiv (kd * d) 1000)
      ∧ isI32 (minA - maxA)
      ∧ isI32 ((minA - maxA) * (kp * e + i' + Int.tdiv (kd * d) 1000))
      ∧ isI32 (maxA + Int.tdiv ((minA - maxA) * (kp * e + i' + Int.tdiv (kd * d) 1000)) 1000) := by
  have hkp := abs_nonneg kp
  have hb0 : 0 ≤ bound := le_trans (abs_nonneg _) hI
  have hs0 : 0 ≤ span := le_trans (abs_nonneg _) hmin
  have hq : |Int.tdiv (kd * d) 1000| ≤ 2147483 := by
    have := abs_tdiv_le (kd * d) 1000 _ (by decide) hD
    norm_num at this
    exact this
  have h1 : |kp * e + i'| ≤ |kp| * 65535 + bound :=
    le_trans (abs_add _ _) (add_le_add hP hI)
  have hcmd : |kp * e + i' + Int.tdiv (kd * d) 1000| ≤ |kp| * 65535 + bound + 2147483 :=
    le_trans (abs_add _ _) (add_le_add h1 hq)
  have hspan : |minA - maxA| ≤ 2 * span := by
    have := abs_sub minA maxA
    linarith
  have hprod := abs_mul_le _ _ _ _ hspan hcmd
  have hone : (1 : Int) ≤ |kp| * 65535 + bound + 2147483 := by linarith
  have h2s : 2 * span ≤ 2 * span * (|kp| * 65535 + bound + 2147483) :=
    le_mul_of_one_le_right (by linarith) hone
  have hquot : |Int.tdiv ((minA - maxA) * (kp * e + i' + Int.tdiv (kd * d) 1000)) 1000|
      ≤ 2 * span * (|kp| * 65535 + bound + 2147483) := by
    rw [abs_tdiv _ 1000 (by decide)]
    exact le_trans (Int.ediv_le_self _ (abs_nonneg _)) hprod
  have hsum : |maxA + Int.tdiv ((minA - maxA) * (kp * e + i' + Int.tdiv (kd * d) 1000)) 1000|
      ≤ span + 2 * span * (|kp| * 65535 + bound + 2147483) :=
    le_trans (abs_add _ _) (add_le_add hmax hquot)
  refine ⟨isI32_of_abs_le _ (by linarith), isI32_of_abs_le _ (by linarith),
    isI32_of_abs_le _ hD, isI32_of_abs_le _ (by linarith), isI32_of_abs_le _ (by linarith),
    isI32_of_abs_le _ (by linarith), isI32_of_abs_le _ (by linarith)⟩

/-- On the inputs of `pidBlowerDomain` no intermediate value of `pidBlower`
leaves the signed 32-bit range. -/
theorem pidBlower_noOverflow_of_domain (cfg : Config) (s : PressureController)
    (targetPressure currentPressure dt bound span : Int)
    (h : pidBlowerDomain cfg s targetPressure currentPressure dt bound span) :
    pidBlowerNoOverflow cfg s targetPressure currentPressure dt := by
  obtain ⟨hT, hM, hdt, hI, hKi, hL, hB, hA, hC, hS⟩ := h
  have hpos : (0 : Int) < dt := by omega
  have hdt0 : dt ≠ 0 := by omega
  have he : |targetPressure - currentPressure| ≤ 65535 := by
    obtain ⟨a, b⟩ := hT
    obtain ⟨c, d⟩ := hM
    rw [abs_le]
    constructor <;> omega
  have hP : |cfg.PID_BLOWER_KP * (targetPressure - currentPressure)|
      ≤ |cfg.PID_BLOWER_KP| * 65535 := by
    rw [abs_mul]
    exact mul_le_mul_of_nonneg_left he (abs_nonneg _)
  have hKie : |cfg.PID_BLOWER_KI * (targetPressure - currentPressure)| ≤ 2147483647 :=
    le_trans (le_mul_of_one_le_right (abs_nonneg _) hdt) hKi
  have hKied : |cfg.PID_BLOWER_KI * (targetPressure - currentPressure) * dt| ≤ 2147483647 := by
    rw [abs_mul, abs_of_pos hpos]
    exact hKi
  have hq : |Int.tdiv (cfg.PID_BLOWER_KI * (targetPressure - currentPressure) * dt) 1000000|
      ≤ 2147 := by
    have := abs_tdiv_le _ 1000000 _ (by decide) hKied
    norm_num at this
    exact this
  have hkp := abs_nonneg cfg.PID_BLOWER_KP
  have hBI : |s.blowerIntegral| ≤ bound := by
    rw [abs_le]
    constructor <;> omega
  have hb0 : 0 ≤ bound := le_trans (abs_nonneg _) hBI
  have hs0 : 0 ≤ span := le_trans (abs_nonneg _) hA.1
  have hsum : |s.blowerIntegral
      + Int.tdiv (cfg.PID_BLOWER_KI * (targetPressure - currentPressure) * dt) 1000000|
      ≤ bound + 2147 := le_trans (abs_add _ _) (add_le_add hBI hq)
  have hInt : ∀ x : Int,
      |max cfg.PID_BLOWER_INTEGRAL_MIN (min cfg.PID_BLOWER_INTEGRAL_MAX x)| ≤ bound :=
    fun x => abs_clamp_le _ _ x _ hB.1 hB.2 (by omega)
  have hone : (1 : Int) ≤ |cfg.PID_BLOWER_KP| * 65535 + bound + 2147483 := by linarith
  have h2s : 2 * span ≤ 2 * span * (|cfg.PID_BLOWER_KP| * 65535 + bound + 2147483) :=
    le_mul_of_one_le_right (by linarith) hone
  have hMin : isI32 cfg.PID_BLOWER_INTEGRAL_MIN := by
    constructor <;> omega
  have hMax : isI32 cfg.PID_BLOWER_INTEGRAL_MAX := by
    constructor <;> omega
  have hminA : isI32 s.m_blower_valve.minAperture := isI32_of_abs_le _ (by linarith [hA.1])
  have hmaxA : isI32 s.m_blower_valve.maxAperture := isI32_of_abs_le _ (by linarith [hA.2])
  have hderiv : |cfg.PID_BLOWER_KD
      * (pidBlowerExactLocals cfg s targetPressure currentPressure dt).derivative|
      ≤ 2147483647 := by
    by_cases hl : s.blowerLastError = INVALID_ERROR_MARKER
    · simp [pidBlowerExactLocals, hl]
    · rcases hL with hL | ⟨-, hL⟩
      · exact absurd hL hl
      · have hg : (decide (s.blowerLastError = INVALID_ERROR_MARKER) || decide (dt = 0))
            = false := by simp [hl, hdt0]
        simp only [pidBlowerExactLocals, hg, Bool.false_eq_true, if_false]
        have hd : |Int.tdiv (1000000 * (targetPressure - currentPressure - s.blowerLastError)) dt|
            ≤ 1000000 * |targetPressure - currentPressure - s.blowerLastError| := by
          rw [abs_tdiv _ dt hpos]
          refine le_trans (Int.ediv_le_self _ (abs_nonneg _)) ?_
          rw [abs_mul]
          simp
        rw [abs_mul]
        exact le_trans (mul_le_mul_of_nonneg_left hd (abs_nonneg _)) hL
  have htail := pid_tail_fits cfg.PID_BLOWER_KP (targetPressure - currentPressure)
    (pidBlowerExactLocals cfg s targetPressure currentPressure dt).integral
    cfg.PID_BLOWER_KD (pidBlowerExactLocals cfg s targetPressure currentPressure dt).derivative
    s.m_blower_valve.minAperture s.m_blower_valve.maxAperture bound span hP (hInt _) hderiv
    hA.1 hA.2 hC hS
  obtain ⟨t1, t2, t3, t4, t5, t6, t7⟩ := htail
  refine ⟨hMin, hMax, hminA, hmaxA, isI32_of_abs_le _ (by linarith), isI32_of_abs_le _ hKie,
    isI32_of_abs_le _ hKied, isI32_of_abs_le _ (by linarith), ?_, t1, t2, t3, t4, t5, t6, t7⟩
  intro hl
  rcases hL with hL | ⟨hL, -⟩
  · exact absurd hL hl
  · have hdiff : |targetPressure - currentPressure - s.blowerLastError| ≤ 2147 := by
      have := abs_nonneg (targetPressure - currentPressure - s.blowerLastError)
      omega
    refine ⟨isI32_of_abs_le _ (by linarith), isI32_of_abs_le _ ?_⟩
    rw [abs_mul]
    simpa using hL

/-- C9 (amended): for every target and measure in the signed 16-bit range, every
`dt >= 1` and every PID state whose integral is within its clamp bounds, when
`|Ki * error| * dt <= 2^31 - 1`, the stored `lastError` is the marker or has
`1000000 * |error - lastError|` and `|Kd| * 1000000 * |error - lastError|` at
most `2^31 - 1`, and the configuration has its clamp bounds within `-bound .. bound`,
the valve bounds within `-span .. span`, and
`2 * span * (|Kp| * 65535 + bound + 2147483) + span <= 2^31 - 1`: no intermediate
value of `pidBlower` leaves the signed 32-bit range, and the locals and the
result computed with 32-bit wrap-around are those computed over the unbounded
integers. -/
theorem pidBlower_exact_within_domain (cfg : Config) (s : PressureController)
    (targetPressure currentPressure dt bound span : Int)
    (h : pidBlowerDomain cfg s targetPressure currentPressure dt bound span) :
    pidBlowerNoOverflow cfg s targetPressure currentPressure dt
      ∧ pidBlowerLocals cfg s targetPressure currentPressure dt
          = pidBlowerExactLocals cfg s targetPressure currentPressure dt
      ∧ (pidBlower cfg s targetPressure currentPressure dt).1
          = (pidBlowerExactLocals cfg s targetPressure currentPressure dt).aperture := by
  have hno := pidBlower_noOverflow_of_domain cfg s targetPressure currentPressure dt bound span h
  exact ⟨hno,
    pidBlowerLocals_exact_of_noOverflow cfg s targetPressure currentPressure dt h.2.2.1 hno⟩

theorem pidBlower_exact_within_domain_witness :
    pidBlowerDomain sampleConfig (pidBlower sampleConfig sampleState 320 0 10000).2
        320 50 10000 1000 125
      ∧ (pidBlower sampleConfig sampleState 320 0 10000).2.blowerLastError = 320
      ∧ pidBlowerDomain sampleConfig (initRespiratoryCycle sampleConfig sampleState)
        320 0 134217 1000 125
      ∧ (pidBlower sampleConfig (pidBlower sampleConfig sampleState 320 0 10000).2
            320 50 10000).1
          = (pidBlowerExactLocals sampleConfig
              (pidBlower sampleConfig sampleState 320 0 10000).2 320 50 10000).aperture
      ∧ (pidBlower sampleConfig (initRespiratoryCycle sampleConfig sampleState)
            320 0 134217).1
          = (pidBlowerExactLocals sampleConfig (initRespiratoryCycle sampleConfig sampleState)
              320 0 134217).aperture :=
  ⟨by decide, by decide, by decide,
    (pidBlower_exact_within_domain sampleConfig
      (pidBlower sampleConfig sampleState 320 0 10000).2 320 50 10000 1000 125
      (by decide)).2.2,
    (pidBlower_exact_within_domain sampleConfig
      (initRespiratoryCycle sampleConfig sampleState) 320 0 134217 1000 125
      (by decide)).2.2⟩

/-! ## Cycle timing -/

/-- What `initRespiratoryCycle` stores in the timing members: the latched rate
is the command, and the two durations are derived from the rate latched before
the call. -/
theorem initRespiratoryCycle_stores_timing (cfg : Config) (s : PressureController) :
    (initRespiratoryCycle cfg s).m_cyclesPerMinute = s.m_cyclesPerMinuteCommand
      ∧ (initRespiratoryCycle cfg s).m_centiSecPerCycle = 6000 / s.m_cyclesPerMinute
      ∧ (initRespiratoryCycle cfg s).m_centiSecPerInhalation
          = 6000 / s.m_cyclesPerMinute / 3 := by
  have h1 : 6000 / s.m_cyclesPerMinute ≤ 6000 := Nat.div_le_self _ _
  have h2 : 6000 / s.m_cyclesPerMinute / 3 ≤ 6000 := le_trans (Nat.div_le_self _ _) h1
  simp only [initRespiratoryCycle, computeCentiSecParameters, setSubPhase, Nat.reduceMul]
  rw [Nat.mod_eq_of_lt (a := 6000 / s.m_cyclesPerMinute) (by omega),
    Nat.mod_eq_of_lt (a := 6000 / s.m_cyclesPerMinute / 3) (by omega)]
  exact ⟨trivial, rfl, rfl⟩

/-- When the command has not changed since the rate was latched, the timing
`initRespiratoryCycle` stores is derived from the rate it latches. -/
theorem initRespiratoryCycle_timing_of_unchanged_command (cfg : Config)
    (s : PressureController) (h : s.m_cyclesPerMinute = s.m_cyclesPerMinuteCommand) :
    (initRespiratoryCycle cfg s).m_centiSecPerCycle
        = 6000 / (initRespiratoryCycle cfg s).m_cyclesPerMinute
      ∧ (initRespiratoryCycle cfg s).m_centiSecPerInhalation
        = (initRespiratoryCycle cfg s).m_centiSecPerCycle / 3 := by
  obtain ⟨h1, h2, h3⟩ := initRespiratoryCycle_stores_timing cfg s
  rw [h1, h2, h3, h]
  exact ⟨rfl, rfl⟩

/-- C10 (evaluation at the failing input): the cycle in progress was started at
20 cycles per minute and the command was raised to 21; `initRespiratoryCycle`
latches 21 and leaves `centiSecPerCycle = 300` and `centiSecPerInhalation = 100`,
the timing of 20 cycles per minute, where 21 cycles per minute give 285 and 95. -/
theorem initRespiratoryCycle_timing_lags_command :
    (sampleConfig.CONST_MIN_CYCLE ≤ cycleChangedState.m_cyclesPerMinuteCommand
      ∧ cycleChangedState.m_cyclesPerMinuteCommand ≤ sampleConfig.CONST_MAX_CYCLE)
    ∧ 1 ≤ sampleConfig.CONST_MIN_CYCLE
    ∧ cycleChangedState.m_cyclesPerMinute = 20
    ∧ cycleChangedState.m_cyclesPerMinuteCommand = 21
    ∧ (initRespiratoryCycle sampleConfig cycleChangedState).m_cyclesPerMinute = 21
    ∧ (initRespiratoryCycle sampleConfig cycleChangedState).m_centiSecPerCycle = 300
    ∧ (initRespiratoryCycle sampleConfig cycleChangedState).m_centiSecPerInhalation = 100
    ∧ 6000 / (initRespiratoryCycle sampleConfig cycleChangedState).m_cyclesPerMinute = 285
    ∧ 6000 / (initRespiratoryCycle sampleConfig cycleChangedState).m_cyclesPerMinute / 3 = 95
    ∧ (initRespiratoryCycle sampleConfig
        (initRespiratoryCycle sampleConfig cycleChangedState)).m_centiSecPerCycle = 285 := by
  decide

/-! ## Blower trim at cycle start -/

/-- C13: for every state, `initRespiratoryCycle` gives `runSpeed` the speed
`getSpeed() + m_blower_increment`, so that the commanded speed becomes the
previous one plus the increment (one less for an increment of -1, the same for
an increment of 0), and leaves `m_blower_increment = 0`. -/
theorem initRespiratoryCycle_applies_blower_increment (cfg : Config) (s : PressureController) :
    (initRespiratoryCycle cfg s).m_blower
        = s.m_blower.runSpeed (s.m_blower.getSpeed + s.m_blower_increment)
      ∧ (initRespiratoryCycle cfg s).m_blower.getSpeed
        = s.m_blower.getSpeed + s.m_blower_increment
      ∧ (s.m_blower_increment = -1 →
          (initRespiratoryCycle cfg s).m_blower.getSpeed = s.m_blower.getSpeed - 1)
      ∧ (s.m_blower_increment = 0 →
          (initRespiratoryCycle cfg s).m_blower.getSpeed = s.m_blower.getSpeed)
      ∧ (initRespiratoryCycle cfg s).m_blower_increment = 0 := by
  have h : (initRespiratoryCycle cfg s).m_blower.getSpeed
      = s.m_blower.getSpeed + s.m_blower_increment := by
    simp [initRespiratoryCycle, computeCentiSecParameters, setSubPhase, Blower.runSpeed,
      Blower.getSpeed]
  refine ⟨?_, h, ?_, ?_, ?_⟩
  · simp [initRespiratoryCycle, computeCentiSecParameters, setSubPhase]
  · intro hd; rw [h, hd]; rfl
  · intro hd; rw [h, hd, add_zero]
  · simp [initRespiratoryCycle, computeCentiSecParameters, setSubPhase]

theorem initRespiratoryCycle_applies_blower_increment_witness :
    ({ sampleState with m_blower_increment := -1 } : PressureController).m_blower_increment = -1
    ∧ (initRespiratoryCycle sampleConfig
        { sampleState with m_blower_increment := -1 }).m_blower.getSpeed
      = ({ sampleState with m_blower_increment := -1 } : PressureController).m_blower.getSpeed
          - 1 :=
  ⟨rfl, (initRespiratoryCycle_applies_blower_increment sampleConfig
    { sampleState with m_blower_increment := -1 }).2.2.1 rfl⟩

/-! ## Alarm calls of a tick -/

/-- The calls `safeguardPlateau` appends. -/
theorem safeguardPlateau_alarms (cfg : Config) (s : PressureController) (t : Nat) :
    (safeguardPlateau cfg s t).m_alarmController
      = s.m_alarmController
        ++ (if s.m_subPhase = CycleSubPhases.HOLD_INSPIRATION then
              [alarmReport (s.m_pressure < cfg.ALARM_THRESHOLD_PLATEAU_UNDER_2_CMH2O)
                  AlarmCode.RCM_SW_19 s.m_cycleNb,
                alarmReport (s.m_pressure > cfg.ALARM_THRESHOLD_PLATEAU_ABOVE_80_CMH2O)
                  AlarmCode.RCM_SW_18 s.m_cycleNb]
            else []) := by
  simp only [safeguardPlateau, detectedAlarm, notDetectedAlarm]
  split_ifs <;> simp [alarmReport, *]

/-- The calls `safeguardHoldExpiration` appends. -/
theorem safeguardHoldExpiration_alarms (cfg : Config) (s : PressureController) (t : Nat) :
    (safeguardHoldExpiration cfg s t).m_alarmController
      = s.m_alarmController
        ++ (if s.m_phase = CyclePhases.EXHALATION then
              [alarmReport
                  (s.m_pressure < toU16 (s.m_minPeepCommand
                        - cfg.ALARM_THRESHOLD_PEEP_ABOVE_OR_UNDER_2_CMH2O)
                    ∨ s.m_pressure > toU16 (s.m_minPeepCommand
                        + cfg.ALARM_THRESHOLD_PEEP_ABOVE_OR_UNDER_2_CMH2O))
                  AlarmCode.RCM_SW_3 s.m_cycleNb,
                alarmReport
                  (s.m_pressure < toU16 (s.m_minPeepCommand
                        - cfg.ALARM_THRESHOLD_PEEP_ABOVE_OR_UNDER_2_CMH2O)
                    ∨ s.m_pressure > toU16 (s.m_minPeepCommand
                        + cfg.ALARM_THRESHOLD_PEEP_ABOVE_OR_UNDER_2_CMH2O))
                  AlarmCode.RCM_SW_15 s.m_cycleNb]
            else []) := by
  simp only [safeguardHoldExpiration, detectedAlarm, notDetectedAlarm]
  split_ifs <;> simp [alarmReport, *]

theorem onlyAlarmsDiffer_fields {s s' : PressureController} (h : onlyAlarmsDiffer s s') :
    s'.m_pressure = s.m_pressure ∧ s'.m_cycleNb = s.m_cycleNb
      ∧ s'.m_minPeepCommand = s.m_minPeepCommand ∧ s'.m_phase = s.m_phase
      ∧ s'.m_subPhase = s.m_subPhase := by
  unfold onlyAlarmsDiffer at h
  refine ⟨?_, ?_, ?_, ?_, ?_⟩ <;> rw [h]

/-- The calls `safeguards` appends: the plateau alarms in `HOLD_INSPIRATION`,
the PEEP alarms in `EXHALATION`, then `RCM_SW_2` and `RCM_SW_1`. -/
theorem safeguards_alarms (cfg : Config) (s : PressureController) (t : Nat) :
    (safeguards cfg s t).m_alarmController
      = s.m_alarmController
        ++ (if s.m_subPhase = CycleSubPhases.HOLD_INSPIRATION then
              [alarmReport (s.m_pressure < cfg.ALARM_THRESHOLD_PLATEAU_UNDER_2_CMH2O)
                  AlarmCode.RCM_SW_19 s.m_cycleNb,
                alarmReport (s.m_pressure > cfg.ALARM_THRESHOLD_PLATEAU_ABOVE_80_CMH2O)
                  AlarmCode.RCM_SW_18 s.m_cycleNb]
            else [])
        ++ (if s.m_phase = CyclePhases.EXHALATION then
              [alarmReport
                  (s.m_pressure < toU16 (s.m_minPeepCommand
                        - cfg.ALARM_THRESHOLD_PEEP_ABOVE_OR_UNDER_2_CMH2O)
                    ∨ s.m_pressure > toU16 (s.m_minPeepCommand
                        + cfg.ALARM_THRESHOLD_PEEP_ABOVE_OR_UNDER_2_CMH2O))
                  AlarmCode.RCM_SW_3 s.m_cycleNb,
                alarmReport
                  (s.m_pressure < toU16 (s.m_minPeepCommand
                        - cfg.ALARM_THRESHOLD_PEEP_ABOVE_OR_UNDER_2_CMH2O)
                    ∨ s.m_pressure > toU16 (s.m_minPeepCommand
                        + cfg.ALARM_THRESHOLD_PEEP_ABOVE_OR_UNDER_2_CMH2O))
                  AlarmCode.RCM_SW_15 s.m_cycleNb]
            else [])
        ++ [alarmReport (s.m_pressure < cfg.ALARM_2_CMH2O) AlarmCode.RCM_SW_2 s.m_cycleNb,
            alarmReport (s.m_pressure > cfg.ALARM_35_CMH2O) AlarmCode.RCM_SW_1 s.m_cycleNb] := by
  have f1 := onlyAlarmsDiffer_fields (onlyAlarmsDiffer_safeguardPlateau cfg s t)
  have f2 := onlyAlarmsDiffer_fields
    (onlyAlarmsDiffer_safeguardHoldExpiration cfg (safeguardPlateau cfg s t) t)
  have a1 := safeguardPlateau_alarms cfg s t
  have a2 := safeguardHoldExpiration_alarms cfg (safeguardPlateau cfg s t) t
  rw [a1, f1.1, f1.2.1, f1.2.2.1, f1.2.2.2.1] at a2
  rw [f1.1, f1.2.1] at f2
  simp only [safeguards]
  generalize safeguardHoldExpiration cfg (safeguardPlateau cfg s t) t = s2 at a2 f2
  obtain ⟨hp, hc, -, -, -⟩ := f2
  by_cases h2 : s2.m_pressure < cfg.ALARM_2_CMH2O <;>
    by_cases h1 : s2.m_pressure > cfg.ALARM_35_CMH2O <;>
    simp only [h1, h2, if_true, if_false, detectedAlarm, notDetectedAlarm, a2, hc] <;>
    rw [hp] at h1 h2 <;>
    simp [alarmReport, h1, h2]

theorem updateBlower_tickFrame (s : PressureController) (t : Nat) :
    (updateBlower s t).m_pressure = s.m_pressure
      ∧ (updateBlower s t).m_cycleNb = s.m_cycleNb
      ∧ (updateBlower s t).m_minPeepCommand = s.m_minPeepCommand
      ∧ (updateBlower s t).m_alarmController = s.m_alarmController := by
  simp only [updateBlower]
  split_ifs <;> simp

theorem updatePhase_tickFrame (s : PressureController) (t : Nat) :
    (updatePhase s t).m_pressure = s.m_pressure
      ∧ (updatePhase s t).m_cycleNb = s.m_cycleNb
      ∧ (updatePhase s t).m_minPeepCommand = s.m_minPeepCommand
      ∧ (updatePhase s t).m_alarmController = s.m_alarmController := by
  simp only [updatePhase, setSubPhase]
  split_ifs <;> simp

theorem computePlateau_tickFrame (cfg : Config) (s : PressureController) (t : Nat) :
    (computePlateau cfg s t).m_pressure = s.m_pressure
      ∧ (computePlateau cfg s t).m_cycleNb = s.m_cycleNb
      ∧ (computePlateau cfg s t).m_minPeepCommand = s.m_minPeepCommand
      ∧ (computePlateau cfg s t).m_alarmController = s.m_alarmController := by
  simp only [computePlateau]
  split_ifs <;> simp

/-- The state `compute` hands to `safeguards` has the pressure, cycle number,
PEEP command and alarm calls of the state before the tick, and the phase and
sub-phase `updatePhase` chose. -/
theorem computeStaged_eq_safeguards (cfg : Config) (s : PressureController) (t : Nat) :
    ∃ w : PressureController, computeStaged cfg s t = safeguards cfg w t
      ∧ w.m_pressure = s.m_pressure ∧ w.m_cycleNb = s.m_cycleNb
      ∧ w.m_minPeepCommand = s.m_minPeepCommand
      ∧ w.m_alarmController = s.m_alarmController
      ∧ w.m_phase = (updatePhase (updateBlower s t) t).m_phase
      ∧ w.m_subPhase = (updatePhase (updateBlower s t) t).m_subPhase := by
  have hb := updateBlower_tickFrame s t
  have hu := updatePhase_tickFrame (updateBlower s t) t
  rw [hb.1, hb.2.1, hb.2.2.1, hb.2.2.2] at hu
  simp only [computeStaged]
  generalize updatePhase (updateBlower s t) t = u at hu
  obtain ⟨h1, h2, h3, h4⟩ := hu
  refine ⟨_, rfl, ?_⟩
  rw [← h1, ← h2, ← h3, ← h4]
  split_ifs
  · split
    · simp [inhale, pidBlower]
    · simp [plateau]
    · simp [(computePlateau_tickFrame _ _ _).1, (computePlateau_tickFrame _ _ _).2.1,
        (computePlateau_tickFrame _ _ _).2.2.1, (computePlateau_tickFrame _ _ _).2.2.2,
        (computePlateau_frame _ _ _).1, (computePlateau_frame _ _ _).2.1, exhale, pidPatient]
    · simp [holdExhalation]
  · simp

/-- The calls `compute` appends to those the alarm controller had received, in
terms of the pressure, cycle number and PEEP command before the tick and of the
phase and sub-phase the tick ends in. -/
theorem compute_alarms (cfg : Config) (s : PressureController) (t : Nat) :
    (compute cfg s t).m_alarmController
      = s.m_alarmController
        ++ (if (compute cfg s t).m_subPhase = CycleSubPhases.HOLD_INSPIRATION then
              [alarmReport (s.m_pressure < cfg.ALARM_THRESHOLD_PLATEAU_UNDER_2_CMH2O)
                  AlarmCode.RCM_SW_19 s.m_cycleNb,
                alarmReport (s.m_pressure > cfg.ALARM_THRESHOLD_PLATEAU_ABOVE_80_CMH2O)
                  AlarmCode.RCM_SW_18 s.m_cycleNb]
            else [])
        ++ (if (compute cfg s t).m_phase = CyclePhases.EXHALATION then
              [alarmReport
                  (s.m_pressure < toU16 (s.m_minPeepCommand
                        - cfg.ALARM_THRESHOLD_PEEP_ABOVE_OR_UNDER_2_CMH2O)
                    ∨ s.m_pressure > toU16 (s.m_minPeepCommand
                        + cfg.ALARM_THRESHOLD_PEEP_ABOVE_OR_UNDER_2_CMH2O))
                  AlarmCode.RCM_SW_3 s.m_cycleNb,
                alarmReport
                  (s.m_pressure < toU16 (s.m_minPeepCommand
                        - cfg.ALARM_THRESHOLD_PEEP_ABOVE_OR_UNDER_2_CMH2O)
                    ∨ s.m_pressure > toU16 (s.m_minPeepCommand
                        + cfg.ALARM_THRESHOLD_PEEP_ABOVE_OR_UNDER_2_CMH2O))
                  AlarmCode.RCM_SW_15 s.m_cycleNb]
            else [])
        ++ [alarmReport (s.m_pressure < cfg.ALARM_2_CMH2O) AlarmCode.RCM_SW_2 s.m_cycleNb,
            alarmReport (s.m_pressure > cfg.ALARM_35_CMH2O) AlarmCode.RCM_SW_1 s.m_cycleNb] := by
  have hf := computeStaged_frame cfg s t
  have hph : (compute cfg s t).m_phase = (updatePhase (updateBlower s t) t).m_phase := by
    simp only [compute, executeCommands, hf.1]
  have hsp : (compute cfg s t).m_subPhase = (updatePhase (updateBlower s t) t).m_subPhase := by
    simp only [compute, executeCommands, hf.2.1]
  obtain ⟨w, hw, e1, e2, e3, e4, e5, e6⟩ := computeStaged_eq_safeguards cfg s t
  have hal : (compute cfg s t).m_alarmController = (safeguards cfg w t).m_alarmController := by
    simp only [compute, executeCommands, hw]
  rw [hal, hph, hsp, safeguards_alarms, e1, e2, e3, e4, e5, e6]

@[simp] theorem alarmReport_code (b : Bool) (code : AlarmCode) (cycle : Nat) :
    (alarmReport b code cycle).code = code := by
  unfold alarmReport
  split_ifs <;> rfl

/-- The calls of one tick: the plateau alarms in `HOLD_INSPIRATION`, the PEEP
alarms in `EXHALATION`, then `RCM_SW_2` and `RCM_SW_1`. -/
theorem computeAlarmCalls_eq (cfg : Config) (s : PressureController) (t : Nat) :
    computeAlarmCalls cfg s t
      = (if (compute cfg s t).m_subPhase = CycleSubPhases.HOLD_INSPIRATION then
              [alarmReport (s.m_pressure < cfg.ALARM_THRESHOLD_PLATEAU_UNDER_2_CMH2O)
                  AlarmCode.RCM_SW_19 s.m_cycleNb,
                alarmReport (s.m_pressure > cfg.ALARM_THRESHOLD_PLATEAU_ABOVE_80_CMH2O)
                  AlarmCode.RCM_SW_18 s.m_cycleNb]
            else [])
        ++ (if (compute cfg s t).m_phase = CyclePhases.EXHALATION then
              [alarmReport
                  (s.m_pressure < toU16 (s.m_minPeepCommand
                        - cfg.ALARM_THRESHOLD_PEEP_ABOVE_OR_UNDER_2_CMH2O)
                    ∨ s.m_pressure > toU16 (s.m_minPeepCommand
                        + cfg.ALARM_THRESHOLD_PEEP_ABOVE_OR_UNDER_2_CMH2O))
                  AlarmCode.RCM_SW_3 s.m_cycleNb,
                alarmReport
                  (s.m_pressure < toU16 (s.m_minPeepCommand
                        - cfg.ALARM_THRESHOLD_PEEP_ABOVE_OR_UNDER_2_CMH2O)
                    ∨ s.m_pressure > toU16 (s.m_minPeepCommand
                        + cfg.ALARM_THRESHOLD_PEEP_ABOVE_OR_UNDER_2_CMH2O))
                  AlarmCode.RCM_SW_15 s.m_cycleNb]
            else [])
        ++ [alarmReport (s.m_pressure < cfg.ALARM_2_CMH2O) AlarmCode.RCM_SW_2 s.m_cycleNb,
            alarmReport (s.m_pressure > cfg.ALARM_35_CMH2O) AlarmCode.RCM_SW_1 s.m_cycleNb] := by
  unfold computeAlarmCalls
  rw [compute_alarms, List.append_assoc, List.append_assoc, List.drop_left, List.append_assoc]

theorem updatePressure_pressure (cfg : Config) (s : PressureController) (p : Int) :
    (updatePressure cfg s p).m_pressure = toU16 p
      ∧ (updatePressure cfg s p).m_cycleNb = s.m_cycleNb := by
  simp only [updatePressure]
  split_ifs <;> simp

/-- C17 (counterexample): after a pressure sample of -5, a signed 16-bit value,
the tick reports `RCM_SW_1` detected although `-5 > ALARM_35_CMH2O = 350` is
false, and reports `RCM_SW_2` not detected although `-5 < ALARM_2_CMH2O = 20`
holds: the stored pressure is 65531. -/
theorem negative_pressure_raises_rcm_sw_1 :
    isI16 (-5)
    ∧ negativePressureState.m_pressure = 65531
    ∧ callsFor AlarmCode.RCM_SW_1 (computeAlarmCalls sampleConfig negativePressureState 0)
        = [AlarmCall.detectedAlarm AlarmCode.RCM_SW_1 1]
    ∧ ¬ ((-5 : Int) > sampleConfig.ALARM_35_CMH2O)
    ∧ callsFor AlarmCode.RCM_SW_2 (computeAlarmCalls sampleConfig negativePressureState 0)
        = [AlarmCall.notDetectedAlarm AlarmCode.RCM_SW_2]
    ∧ (-5 : Int) < sampleConfig.ALARM_2_CMH2O := by
  decide

/-- C17 (amended): in every compute tick, whatever the phase, sub-phase and tick
index, `RCM_SW_1` receives exactly one call, detected with the current cycle
number if and only if the pressure stored in the unsigned 16-bit member exceeds
`ALARM_35_CMH2O`, and `RCM_SW_2` exactly one call, detected with the current
cycle number if and only if the stored pressure is below `ALARM_2_CMH2O`; the
pressure `updatePressure` stores is the sample reduced modulo `2^16`, which is
the sample itself when it is not negative. -/
theorem rcm_sw_1_and_2_follow_stored_pressure (cfg : Config) (s : PressureController)
    (p : Int) (t : Nat) :
    callsFor AlarmCode.RCM_SW_1 (computeAlarmCalls cfg s t)
        = [alarmReport (s.m_pressure > cfg.ALARM_35_CMH2O) AlarmCode.RCM_SW_1 s.m_cycleNb]
    ∧ callsFor AlarmCode.RCM_SW_2 (computeAlarmCalls cfg s t)
        = [alarmReport (s.m_pressure < cfg.ALARM_2_CMH2O) AlarmCode.RCM_SW_2 s.m_cycleNb]
    ∧ callsFor AlarmCode.RCM_SW_1 (computeAlarmCalls cfg (updatePressure cfg s p) t)
        = [alarmReport (toU16 p > cfg.ALARM_35_CMH2O) AlarmCode.RCM_SW_1 s.m_cycleNb]
    ∧ callsFor AlarmCode.RCM_SW_2 (computeAlarmCalls cfg (updatePressure cfg s p) t)
        = [alarmReport (toU16 p < cfg.ALARM_2_CMH2O) AlarmCode.RCM_SW_2 s.m_cycleNb]
    ∧ (0 ≤ p ∧ p < 65536 → (toU16 p : Int) = p) := by
  have h1 : ∀ u : PressureController,
      callsFor AlarmCode.RCM_SW_1 (computeAlarmCalls cfg u t)
        = [alarmReport (u.m_pressure > cfg.ALARM_35_CMH2O) AlarmCode.RCM_SW_1 u.m_cycleNb] := by
    intro u
    rw [computeAlarmCalls_eq]
    unfold callsFor
    split_ifs <;> simp [List.filter]
  have h2 : ∀ u : PressureController,
      callsFor AlarmCode.RCM_SW_2 (computeAlarmCalls cfg u t)
        = [alarmReport (u.m_pressure < cfg.ALARM_2_CMH2O) AlarmCode.RCM_SW_2 u.m_cycleNb] := by
    intro u
    rw [computeAlarmCalls_eq]
    unfold callsFor
    split_ifs <;> simp [List.filter]
  have hp := updatePressure_pressure cfg s p
  refine ⟨h1 s, h2 s, ?_, ?_, ?_⟩
  · rw [h1, hp.1, hp.2]
  · rw [h2, hp.1, hp.2]
  · intro h
    unfold toU16
    omega

theorem rcm_sw_1_and_2_follow_stored_pressure_witness :
    ((0 : Int) ≤ 400 ∧ (400 : Int) < 65536)
    ∧ (toU16 400 : Int) = 400
    ∧ callsFor AlarmCode.RCM_SW_1
        (computeAlarmCalls sampleConfig
          (updatePressure sampleConfig (initRespiratoryCycle sampleConfig sampleState) 400) 0)
      = [AlarmCall.detectedAlarm AlarmCode.RCM_SW_1 1] :=
  have h := rcm_sw_1_and_2_follow_stored_pressure sampleConfig
    (initRespiratoryCycle sampleConfig sampleState) 400 0
  ⟨by decide, h.2.2.2.2 (by decide), h.2.2.1.trans (by decide)⟩

/-- Without wrap-around of the two bounds (the PEEP command at least the
threshold, their sum below `2^16`), a tick in `EXHALATION` reports `RCM_SW_3` and
`RCM_SW_15` detected exactly when the stored pressure is below
`minPeepCommand - threshold` or above `minPeepCommand + threshold`. -/
theorem peep_alarms_without_wrap (cfg : Config) (s : PressureController) (t : Nat)
    (hphase : (compute cfg s t).m_phase = CyclePhases.EXHALATION)
    (hlow : cfg.ALARM_THRESHOLD_PEEP_ABOVE_OR_UNDER_2_CMH2O ≤ s.m_minPeepCommand)
    (hhigh : s.m_minPeepCommand + cfg.ALARM_THRESHOLD_PEEP_ABOVE_OR_UNDER_2_CMH2O < 65536) :
    callsFor AlarmCode.RCM_SW_3 (computeAlarmCalls cfg s t)
        = [alarmReport
            ((s.m_pressure : Int)
                < (s.m_minPeepCommand : Int) - cfg.ALARM_THRESHOLD_PEEP_ABOVE_OR_UNDER_2_CMH2O
              ∨ (s.m_pressure : Int)
                > (s.m_minPeepCommand : Int) + cfg.ALARM_THRESHOLD_PEEP_ABOVE_OR_UNDER_2_CMH2O)
            AlarmCode.RCM_SW_3 s.m_cycleNb]
    ∧ callsFor AlarmCode.RCM_SW_15 (computeAlarmCalls cfg s t)
        = [alarmReport
            ((s.m_pressure : Int)
                < (s.m_minPeepCommand : Int) - cfg.ALARM_THRESHOLD_PEEP_ABOVE_OR_UNDER_2_CMH2O
              ∨ (s.m_pressure : Int)
                > (s.m_minPeepCommand : Int) + cfg.ALARM_THRESHOLD_PEEP_ABOVE_OR_UNDER_2_CMH2O)
            AlarmCode.RCM_SW_15 s.m_cycleNb] := by
  have e1 : toU16 ((s.m_minPeepCommand : Int) - cfg.ALARM_THRESHOLD_PEEP_ABOVE_OR_UNDER_2_CMH2O)
      = s.m_minPeepCommand - cfg.ALARM_THRESHOLD_PEEP_ABOVE_OR_UNDER_2_CMH2O :=
    toU16_sub_of_le _ _ hlow (by omega)
  have e2 : toU16 ((s.m_minPeepCommand : Int) + cfg.ALARM_THRESHOLD_PEEP_ABOVE_OR_UNDER_2_CMH2O)
      = s.m_minPeepCommand + cfg.ALARM_THRESHOLD_PEEP_ABOVE_OR_UNDER_2_CMH2O := by
    unfold toU16
    omega
  have hd : decide ((s.m_pressure : Int)
                < (s.m_minPeepCommand : Int) - cfg.ALARM_THRESHOLD_PEEP_ABOVE_OR_UNDER_2_CMH2O
              ∨ (s.m_pressure : Int)
                > (s.m_minPeepCommand : Int) + cfg.ALARM_THRESHOLD_PEEP_ABOVE_OR_UNDER_2_CMH2O)
      = decide (s.m_pressure
                < s.m_minPeepCommand - cfg.ALARM_THRESHOLD_PEEP_ABOVE_OR_UNDER_2_CMH2O
              ∨ s.m_pressure
                > s.m_minPeepCommand + cfg.ALARM_THRESHOLD_PEEP_ABOVE_OR_UNDER_2_CMH2O) := by
    apply decide_eq_decide.2
    omega
  rw [computeAlarmCalls_eq, hphase, e1, e2, hd, if_pos rfl]
  unfold callsFor
  split_ifs <;> simp [List.filter]

/-- C18 (evaluation at a failing input): with a PEEP command of 6, in its range
`0 .. 300` and smaller than the threshold of 20, an exhalation tick with a
pressure of 10 reports `RCM_SW_3` and `RCM_SW_15` detected, although
`10 < 6 - 20` and `10 > 6 + 20` are both false over the integers: the lower
bound is stored as `6 - 20` reduced modulo `2^16`, that is 65522.  With a
threshold of 2 and a PEEP command of 6, pressures 3 and 9 both raise the two
alarms. -/
theorem peep_alarm_lower_bound_wraps :
    (sampleConfig.CONST_MIN_PEEP_PRESSURE ≤ lowPeepExhaleState.m_minPeepCommand
      ∧ lowPeepExhaleState.m_minPeepCommand ≤ sampleConfig.CONST_MAX_PEEP_PRESSURE)
    ∧ lowPeepExhaleState.m_minPeepCommand = 6
    ∧ lowPeepExhaleState.m_pressure = 10
    ∧ (compute sampleConfig lowPeepExhaleState 150).m_phase = CyclePhases.EXHALATION
    ∧ toU16 ((lowPeepExhaleState.m_minPeepCommand : Int)
        - sampleConfig.ALARM_THRESHOLD_PEEP_ABOVE_OR_UNDER_2_CMH2O) = 65522
    ∧ callsFor AlarmCode.RCM_SW_3 (computeAlarmCalls sampleConfig lowPeepExhaleState 150)
        = [AlarmCall.detectedAlarm AlarmCode.RCM_SW_3 1]
    ∧ callsFor AlarmCode.RCM_SW_15 (computeAlarmCalls sampleConfig lowPeepExhaleState 150)
        = [AlarmCall.detectedAlarm AlarmCode.RCM_SW_15 1]
    ∧ ¬ ((10 : Int) < 6 - 20 ∨ (10 : Int) > 6 + 20)
    ∧ callsFor AlarmCode.RCM_SW_3
        (computeAlarmCalls driftConfig
          (updatePressure driftConfig (initRespiratoryCycle driftConfig lowPeepState) 3) 150)
        = [AlarmCall.detectedAlarm AlarmCode.RCM_SW_3 1]
    ∧ callsFor AlarmCode.RCM_SW_15
        (computeAlarmCalls driftConfig
          (updatePressure driftConfig (initRespiratoryCycle driftConfig lowPeepState) 9) 150)
        = [AlarmCall.detectedAlarm AlarmCode.RCM_SW_15 1] := by
  decide

/-- C20 (counterexample): in a tick that ends in `INSPIRATION` (tick 0, pressure
50 below the peak command), `RCM_SW_18`, `RCM_SW_19`, `RCM_SW_3` and `RCM_SW_15`
receive no call at all, neither `detectedAlarm` nor `notDetectedAlarm`; the
only calls of the tick are those about `RCM_SW_2` and `RCM_SW_1`. -/
theorem inspiration_tick_makes_no_call_for_scoped_alarms :
    (compute sampleConfig risingPressureState 0).m_subPhase = CycleSubPhases.INSPIRATION
    ∧ callsFor AlarmCode.RCM_SW_18 (computeAlarmCalls sampleConfig risingPressureState 0) = []
    ∧ callsFor AlarmCode.RCM_SW_19 (computeAlarmCalls sampleConfig risingPressureState 0) = []
    ∧ callsFor AlarmCode.RCM_SW_3 (computeAlarmCalls sampleConfig risingPressureState 0) = []
    ∧ callsFor AlarmCode.RCM_SW_15 (computeAlarmCalls sampleConfig risingPressureState 0) = []
    ∧ computeAlarmCalls sampleConfig risingPressureState 0
        = [AlarmCall.notDetectedAlarm AlarmCode.RCM_SW_2,
            AlarmCall.notDetectedAlarm AlarmCode.RCM_SW_1] := by
  decide

/-- C20 (amended): in every compute tick, for every state and tick index,
`RCM_SW_1` and `RCM_SW_2` each receive exactly one call; `RCM_SW_18` and
`RCM_SW_19` each receive exactly one call when the tick ends in
`HOLD_INSPIRATION` and none otherwise; `RCM_SW_3` and `RCM_SW_15` each receive
exactly one call when the tick ends in `EXHALATION` and none otherwise;
`RCM_SW_14` receives none.  Each call made is `detectedAlarm(code, cycleNumber)`
or `notDetectedAlarm(code)` as decided by the stored pressure (and, for the PEEP
alarms, the PEEP command). -/
theorem tick_alarm_calls_by_scope (cfg : Config) (s : PressureController) (t : Nat) :
    callsFor AlarmCode.RCM_SW_1 (computeAlarmCalls cfg s t)
        = [alarmReport (s.m_pressure > cfg.ALARM_35_CMH2O) AlarmCode.RCM_SW_1 s.m_cycleNb]
    ∧ callsFor AlarmCode.RCM_SW_2 (computeAlarmCalls cfg s t)
        = [alarmReport (s.m_pressure < cfg.ALARM_2_CMH2O) AlarmCode.RCM_SW_2 s.m_cycleNb]
    ∧ callsFor AlarmCode.RCM_SW_18 (computeAlarmCalls cfg s t)
        = (if (compute cfg s t).m_subPhase = CycleSubPhases.HOLD_INSPIRATION then
            [alarmReport (s.m_pressure > cfg.ALARM_THRESHOLD_PLATEAU_ABOVE_80_CMH2O)
              AlarmCode.RCM_SW_18 s.m_cycleNb]
          else [])
    ∧ callsFor AlarmCode.RCM_SW_19 (computeAlarmCalls cfg s t)
        = (if (compute cfg s t).m_subPhase = CycleSubPhases.HOLD_INSPIRATION then
            [alarmReport (s.m_pressure < cfg.ALARM_THRESHOLD_PLATEAU_UNDER_2_CMH2O)
              AlarmCode.RCM_SW_19 s.m_cycleNb]
          else [])
    ∧ callsFor AlarmCode.RCM_SW_3 (computeAlarmCalls cfg s t)
        = (if (compute cfg s t).m_phase = CyclePhases.EXHALATION then
            [alarmReport
              (s.m_pressure < toU16 (s.m_minPeepCommand
                    - cfg.ALARM_THRESHOLD_PEEP_ABOVE_OR_UNDER_2_CMH2O)
                ∨ s.m_pressure > toU16 (s.m_minPeepCommand
                    + cfg.ALARM_THRESHOLD_PEEP_ABOVE_OR_UNDER_2_CMH2O))
              AlarmCode.RCM_SW_3 s.m_cycleNb]
          else [])
    ∧ callsFor AlarmCode.RCM_SW_15 (computeAlarmCalls cfg s t)
        = (if (compute cfg s t).m_phase = CyclePhases.EXHALATION then
            [alarmReport
              (s.m_pressure < toU16 (s.m_minPeepCommand
                    - cfg.ALARM_THRESHOLD_PEEP_ABOVE_OR_UNDER_2_CMH2O)
                ∨ s.m_pressure > toU16 (s.m_minPeepCommand
                    + cfg.ALARM_THRESHOLD_PEEP_ABOVE_OR_UNDER_2_CMH2O))
              AlarmCode.RCM_SW_15 s.m_cycleNb]
          else [])
    ∧ callsFor AlarmCode.RCM_SW_14 (computeAlarmCalls cfg s t) = [] := by
  rw [computeAlarmCalls_eq]
  unfold callsFor
  refine ⟨?_, ?_, ?_, ?_, ?_, ?_, ?_⟩ <;> split_ifs <;> simp [List.filter]

/-! ## Cycle-end alarm and peak trim -/

theorem onPeakPressureDecrease_alarms (s : PressureController) (k : Nat) :
    (onPeakPressureDecrease s k).m_alarmController = s.m_alarmController := by
  simp only [onPeakPressureDecrease]
  split_ifs <;> rfl

theorem onPeakPressureIncrease_alarms (cfg : Config) (s : PressureController) (k : Nat) :
    (onPeakPressureIncrease cfg s k).m_alarmController = s.m_alarmController := by
  simp only [onPeakPressureIncrease]
  split_ifs <;> rfl

/-- The one call `endRespiratoryCycle` makes: the `RCM_SW_14` report of
`checkCycleAlarm`. -/
theorem endCycleAlarmCalls_eq (cfg : Config) (s : PressureController) :
    endCycleAlarmCalls cfg s
      = [alarmReport
          (s.m_plateauPressure < ((s.m_maxPlateauPressureCommand * 80) / 100) % 65536
            ∨ s.m_plateauPressure > ((s.m_maxPlateauPressureCommand * 120) / 100) % 65536)
          AlarmCode.RCM_SW_14 s.m_cycleNb] := by
  have h : (endRespiratoryCycle cfg s).m_alarmController
      = (checkCycleAlarm s).m_alarmController := by
    simp only [endRespiratoryCycle]
    split_ifs <;>
      simp only [onPeakPressureDecrease_alarms, onPeakPressureIncrease_alarms]
  unfold endCycleAlarmCalls
  rw [h]
  simp only [checkCycleAlarm, detectedAlarm, notDetectedAlarm]
  split_ifs <;> simp [alarmReport, *]

/-- C19 (counterexample): with a plateau command of 101, in its range
`100 .. 400`, and a plateau pressure of 80, `100 * 80 < 80 * 101` (80 is below
`0.80 * 101 = 80.8`) and yet `RCM_SW_14` is reported not detected: the code
compares with `(101 * 80) / 100 = 80`. -/
theorem rcm_sw_14_lower_bound_is_floored :
    (sampleConfig.CONST_MIN_PLATEAU_PRESSURE ≤ oddPlateauState.m_maxPlateauPressureCommand
      ∧ oddPlateauState.m_maxPlateauPressureCommand ≤ sampleConfig.CONST_MAX_PLATEAU_PRESSURE)
    ∧ (100 * oddPlateauState.m_plateauPressure < 80 * oddPlateauState.m_maxPlateauPressureCommand
      ∨ 100 * oddPlateauState.m_plateauPressure
          > 120 * oddPlateauState.m_maxPlateauPressureCommand)
    ∧ endCycleAlarmCalls sampleConfig oddPlateauState
        = [AlarmCall.notDetectedAlarm AlarmCode.RCM_SW_14] := by
  decide

/-- C19 (amended): at cycle end, for every plateau pressure `p` and every plateau
command `c` with `(120 * c) / 100 < 2^16`, `endRespiratoryCycle` makes exactly one
alarm call, about `RCM_SW_14`: detected with the current cycle number if and only
if `p < (80 * c) / 100` or `p > (120 * c) / 100` with integer division, that is
`100 * (p + 1) <= 80 * c` or `100 * p > 120 * c`; this is `100 * p < 80 * c` or
`100 * p > 120 * c` when `c` is a multiple of 5. -/
theorem rcm_sw_14_integer_bounds (cfg : Config) (s : PressureController)
    (hc : s.m_maxPlateauPressureCommand * 120 / 100 < 65536) :
    endCycleAlarmCalls cfg s
        = [alarmReport
            (s.m_plateauPressure < s.m_maxPlateauPressureCommand * 80 / 100
              ∨ s.m_plateauPressure > s.m_maxPlateauPressureCommand * 120 / 100)
            AlarmCode.RCM_SW_14 s.m_cycleNb]
    ∧ ((s.m_plateauPressure < s.m_maxPlateauPressureCommand * 80 / 100
          ∨ s.m_plateauPressure > s.m_maxPlateauPressureCommand * 120 / 100)
        ↔ (100 * (s.m_plateauPressure + 1) ≤ 80 * s.m_maxPlateauPressureCommand
          ∨ 100 * s.m_plateauPressure > 120 * s.m_maxPlateauPressureCommand))
    ∧ (5 ∣ s.m_maxPlateauPressureCommand →
        ((s.m_plateauPressure < s.m_maxPlateauPressureCommand * 80 / 100
            ∨ s.m_plateauPressure > s.m_maxPlateauPressureCommand * 120 / 100)
          ↔ (100 * s.m_plateauPressure < 80 * s.m_maxPlateauPressureCommand
            ∨ 100 * s.m_plateauPressure > 120 * s.m_maxPlateauPressureCommand))) := by
  refine ⟨?_, ?_, ?_⟩
  · rw [endCycleAlarmCalls_eq, Nat.mod_eq_of_lt (a := s.m_maxPlateauPressureCommand * 80 / 100)
      (by omega), Nat.mod_eq_of_lt hc]
  · omega
  · intro h5
    omega

theorem rcm_sw_14_integer_bounds_witness :
    lowPlateauState.m_maxPlateauPressureCommand * 120 / 100 < 65536
    ∧ lowPlateauState.m_plateauPressure = 15
    ∧ lowPlateauState.m_maxPlateauPressureCommand = 20
    ∧ endCycleAlarmCalls sampleConfig lowPlateauState
        = [AlarmCall.detectedAlarm AlarmCode.RCM_SW_14 0] :=
  ⟨by decide, rfl, rfl,
    (rcm_sw_14_integer_bounds sampleConfig lowPlateauState (by decide)).1.trans (by decide)⟩

theorem onlyAlarmsDiffer_checkCycleAlarm (s : PressureController) :
    onlyAlarmsDiffer s (checkCycleAlarm s) := by
  simp only [checkCycleAlarm]
  split_ifs <;> rfl

theorem checkCycleAlarm_trim_fields (s : PressureController) :
    (checkCycleAlarm s).m_blower_increment = s.m_blower_increment
      ∧ (checkCycleAlarm s).m_plateauPressure = s.m_plateauPressure
      ∧ (checkCycleAlarm s).m_maxPlateauPressureCommand = s.m_maxPlateauPressureCommand
      ∧ (checkCycleAlarm s).m_maxPeakPressureCommand = s.m_maxPeakPressureCommand := by
  have h := onlyAlarmsDiffer_checkCycleAlarm s
  unfold onlyAlarmsDiffer at h
  refine ⟨?_, ?_, ?_, ?_⟩ <;> rw [h]

/-- The peak command `endRespiratoryCycle` stores, when no unsigned operation
wraps: the members hold 16-bit values, `MAX_PEAK_INCREMENT` fits the `uint8_t`
argument, the ceiling plus the increment is below `2^16`, and the decrement is at
most the peak command.  With `c` the plateau command and `p` the plateau
pressure: the peak command lowered by `min(((p - c) * 2) / 10, MAX_PEAK_INCREMENT)`
with a floor at `c` when the blower increment is 0 and `p > (105 * c) / 100`;
raised by `min(((c - p) * 2) / 10, MAX_PEAK_INCREMENT)` with a ceiling at
`CONST_MAX_PEAK_PRESSURE` when the blower increment is 0 and
`p < (95 * c) / 100`; unchanged otherwise.  It moves by at most
`MAX_PEAK_INCREMENT`. -/
theorem endRespiratoryCycle_peak_without_wrap (cfg : Config) (s : PressureController)
    (hp : s.m_plateauPressure < 65536) (hcu : s.m_maxPlateauPressureCommand < 65536)
    (hinv : peakOrdering cfg s) (hmpi : cfg.MAX_PEAK_INCREMENT ≤ 255)
    (hceil : cfg.CONST_MAX_PEAK_PRESSURE + cfg.MAX_PEAK_INCREMENT < 65536)
    (hfloor : min ((s.m_plateauPressure - s.m_maxPlateauPressureCommand) * 2 / 10)
        cfg.MAX_PEAK_INCREMENT ≤ s.m_maxPeakPressureCommand) :
    (endRespiratoryCycle cfg s).m_maxPeakPressureCommand
        = (if s.m_blower_increment = 0
              ∧ s.m_plateauPressure > 105 * s.m_maxPlateauPressureCommand / 100 then
            max (s.m_maxPeakPressureCommand
                - min ((s.m_plateauPressure - s.m_maxPlateauPressureCommand) * 2 / 10)
                    cfg.MAX_PEAK_INCREMENT)
              s.m_maxPlateauPressureCommand
          else if s.m_blower_increment = 0
              ∧ s.m_plateauPressure < 95 * s.m_maxPlateauPressureCommand / 100 then
            min (s.m_maxPeakPressureCommand
                + min ((s.m_maxPlateauPressureCommand - s.m_plateauPressure) * 2 / 10)
                    cfg.MAX_PEAK_INCREMENT)
              cfg.CONST_MAX_PEAK_PRESSURE
          else s.m_maxPeakPressureCommand)
      ∧ (endRespiratoryCycle cfg s).m_maxPeakPressureCommand
          ≤ s.m_maxPeakPressureCommand + cfg.MAX_PEAK_INCREMENT
      ∧ s.m_maxPeakPressureCommand
          ≤ (endRespiratoryCycle cfg s).m_maxPeakPressureCommand + cfg.MAX_PEAK_INCREMENT := by
  obtain ⟨hi1, hi2⟩ := hinv
  obtain ⟨f1, f2, f3, f4⟩ := checkCycleAlarm_trim_fields s
  have key : (endRespiratoryCycle cfg s).m_maxPeakPressureCommand
        = (if s.m_blower_increment = 0
              ∧ s.m_plateauPressure > 105 * s.m_maxPlateauPressureCommand / 100 then
            max (s.m_maxPeakPressureCommand
                - min ((s.m_plateauPressure - s.m_maxPlateauPressureCommand) * 2 / 10)
                    cfg.MAX_PEAK_INCREMENT)
              s.m_maxPlateauPressureCommand
          else if s.m_blower_increment = 0
              ∧ s.m_plateauPressure < 95 * s.m_maxPlateauPressureCommand / 100 then
            min (s.m_maxPeakPressureCommand
                + min ((s.m_maxPlateauPressureCommand - s.m_plateauPressure) * 2 / 10)
                    cfg.MAX_PEAK_INCREMENT)
              cfg.CONST_MAX_PEAK_PRESSURE
          else s.m_maxPeakPressureCommand) := by
    simp only [endRespiratoryCycle, f1, f2, f3]
    by_cases hb : s.m_blower_increment = 0
    · by_cases hhi : s.m_plateauPressure > s.m_maxPlateauPressureCommand * 105 / 100
      · have hd : toU16 (↑(toU32 (((s.m_plateauPressure : Int)
              - (s.m_maxPlateauPressureCommand : Int)) * 2)) / 10)
            = (s.m_plateauPressure - s.m_maxPlateauPressureCommand) * 2 / 10 := by
          have h32 : toU32 (((s.m_plateauPressure : Int)
              - (s.m_maxPlateauPressureCommand : Int)) * 2)
              = (s.m_plateauPressure - s.m_maxPlateauPressureCommand) * 2 := by
            unfold toU32
            omega
          rw [h32]
          unfold toU16
          omega
        have hm : min ((s.m_plateauPressure - s.m_maxPlateauPressureCommand) * 2 / 10)
            cfg.MAX_PEAK_INCREMENT % 256
            = min ((s.m_plateauPressure - s.m_maxPlateauPressureCommand) * 2 / 10)
              cfg.MAX_PEAK_INCREMENT :=
          Nat.mod_eq_of_lt (lt_of_le_of_lt (min_le_right _ _) (by omega))
        rw [if_pos hb, if_pos hhi, hd, hm, if_pos ⟨hb, by omega⟩]
        simp only [onPeakPressureDecrease, f3, f4]
        rw [toU16_sub_of_le _ _ hfloor (by omega)]
        split_ifs <;> simp only [] <;> omega
      · by_cases hlo : s.m_plateauPressure < s.m_maxPlateauPressureCommand * 95 / 100
        · have hd : toU16 (↑(toU32 (((s.m_maxPlateauPressureCommand : Int)
                - (s.m_plateauPressure : Int)) * 2)) / 10)
              = (s.m_maxPlateauPressureCommand - s.m_plateauPressure) * 2 / 10 := by
            have h32 : toU32 (((s.m_maxPlateauPressureCommand : Int)
                - (s.m_plateauPressure : Int)) * 2)
                = (s.m_maxPlateauPressureCommand - s.m_plateauPressure) * 2 := by
              unfold toU32
              omega
            rw [h32]
            unfold toU16
            omega
          have hm : min ((s.m_maxPlateauPressureCommand - s.m_plateauPressure) * 2 / 10)
              cfg.MAX_PEAK_INCREMENT % 256
              = min ((s.m_maxPlateauPressureCommand - s.m_plateauPressure) * 2 / 10)
                cfg.MAX_PEAK_INCREMENT :=
            Nat.mod_eq_of_lt (lt_of_le_of_lt (min_le_right _ _) (by omega))
          have hle := min_le_right
            ((s.m_maxPlateauPressureCommand - s.m_plateauPressure) * 2 / 10)
            cfg.MAX_PEAK_INCREMENT
          rw [if_pos hb, if_neg hhi, if_pos hlo, hd, hm, if_neg (by omega),
            if_pos ⟨hb, by omega⟩]
          simp only [onPeakPressureIncrease, f4]
          rw [Nat.mod_eq_of_lt (by omega)]
          split_ifs <;> simp only [] <;> omega
        · rw [if_pos hb, if_neg hhi, if_neg hlo, if_neg (by omega), if_neg (by omega), f4]
    · rw [if_neg hb, if_neg (fun h => hb h.1), if_neg (fun h => hb h.1), f4]
  refine ⟨key, ?_, ?_⟩
  · rw [key]
    have := min_le_right ((s.m_plateauPressure - s.m_maxPlateauPressureCommand) * 2 / 10)
      cfg.MAX_PEAK_INCREMENT
    have := min_le_right ((s.m_maxPlateauPressureCommand - s.m_plateauPressure) * 2 / 10)
      cfg.MAX_PEAK_INCREMENT
    split_ifs <;> omega
  · rw [key]
    have := min_le_right ((s.m_plateauPressure - s.m_maxPlateauPressureCommand) * 2 / 10)
      cfg.MAX_PEAK_INCREMENT
    have := min_le_right ((s.m_maxPlateauPressureCommand - s.m_plateauPressure) * 2 / 10)
      cfg.MAX_PEAK_INCREMENT
    split_ifs <;> omega

/-- C12 (evaluation at a failing input): with a plateau command of 20, a peak
command of 25 (so `20 <= 25 <= 700`), a blower increment of 0 and a plateau
pressure of 200, above `(105 * 20) / 100`, the decrement is
`min(((200 - 20) * 2) / 10, 30) = 30` and `endRespiratoryCycle` stores `25 - 30`
reduced modulo `2^16`, that is 65531, where the claim gives
`max(25 - 30, 20) = 20`; the peak command moves by far more than
`MAX_PEAK_INCREMENT`.  With a plateau pressure of 15 the peak command rises from
25 to 26. -/
theorem endRespiratoryCycle_peak_decrement_wraps :
    peakOrdering sampleConfig highPlateauState
    ∧ highPlateauState.m_blower_increment = 0
    ∧ highPlateauState.m_plateauPressure
        > 105 * highPlateauState.m_maxPlateauPressureCommand / 100
    ∧ min (((highPlateauState.m_plateauPressure : Int)
          - highPlateauState.m_maxPlateauPressureCommand) * 2 / 10)
        sampleConfig.MAX_PEAK_INCREMENT = 30
    ∧ max ((highPlateauState.m_maxPeakPressureCommand : Int) - 30)
        highPlateauState.m_maxPlateauPressureCommand = 20
    ∧ (endRespiratoryCycle sampleConfig highPlateauState).m_maxPeakPressureCommand = 65531
    ∧ (endRespiratoryCycle sampleConfig lowPlateauState).m_maxPeakPressureCommand = 26 := by
  decide

/-! ## Commands latched at cycle start -/

/-- The plateau adjusters and the PEEP adjusters leave the values latched for the
cycle in progress as they are, and `initRespiratoryCycle` latches the commands. -/
theorem latched_values_follow_commands_at_cycle_start (cfg : Config) (s : PressureController) :
    (onPlateauPressureIncrease cfg s).m_maxPlateauPressure = s.m_maxPlateauPressure
      ∧ (onPlateauPressureDecrease cfg s).m_maxPlateauPressure = s.m_maxPlateauPressure
      ∧ (onPeepPressureIncrease cfg s).m_minPeep = s.m_minPeep
      ∧ (onPeepPressureDecrease cfg s).m_minPeep = s.m_minPeep
      ∧ (initRespiratoryCycle cfg s).m_maxPlateauPressure = s.m_maxPlateauPressureCommand
      ∧ (initRespiratoryCycle cfg s).m_minPeep = s.m_minPeepCommand
      ∧ (initRespiratoryCycle cfg (onPlateauPressureIncrease cfg s)).m_maxPlateauPressure
          = (onPlateauPressureIncrease cfg s).m_maxPlateauPressureCommand := by
  refine ⟨?_, ?_, ?_, ?_, ?_, ?_, ?_⟩
  · simp only [onPlateauPressureIncrease, onPeakPressureIncrease]
    split_ifs <;> rfl
  · simp only [onPlateauPressureDecrease, onPeakPressureDecrease]
    split_ifs <;> rfl
  · simp only [onPeepPressureIncrease]
    split_ifs <;> rfl
  · simp only [onPeepPressureDecrease]
    split_ifs <;> rfl
  · simp [initRespiratoryCycle, computeCentiSecParameters, setSubPhase]
  · simp [initRespiratoryCycle, computeCentiSecParameters, setSubPhase]
  · simp [initRespiratoryCycle, computeCentiSecParameters, setSubPhase]

/-- The setpoint `updatePhase` stores is read from the commands: the values
latched for the cycle play no part in it. -/
theorem updatePhase_ignores_latched_values (s : PressureController) (t a b : Nat) :
    updatePhase { s with m_minPeep := a, m_maxPlateauPressure := b } t
      = { updatePhase s t with m_minPeep := a, m_maxPlateauPressure := b } := by
  simp only [updatePhase, setSubPhase]
  split_ifs <;> rfl

/-- C11 (evaluation at a failing input): the two controllers agree on everything
but `minPeepCommand` (100, and 110 after `onPeepPressureIncrease` in the middle
of the cycle), the latched `minPeep` and `maxPlateauPressure` being equal in
both; at tick 150 of the cycle `compute` ends in the same sub-phase in both and
yet stores the pressure setpoint 100 in one and 110 in the other, stages the
patient valve at 118 in one and 121 in the other, and reports `RCM_SW_3`
detected in one and not detected in the other. -/
theorem mid_cycle_peep_edit_changes_current_cycle :
    editedMidCycleState = { midCycleState with m_minPeepCommand := 110 }
    ∧ midCycleState.m_minPeepCommand = 100
    ∧ editedMidCycleState.m_minPeep = midCycleState.m_minPeep
    ∧ editedMidCycleState.m_maxPlateauPressure = midCycleState.m_maxPlateauPressure
    ∧ (compute sampleConfig midCycleState 150).m_subPhase
        = (compute sampleConfig editedMidCycleState 150).m_subPhase
    ∧ (compute sampleConfig midCycleState 150).m_pressureCommand = 100
    ∧ (compute sampleConfig editedMidCycleState 150).m_pressureCommand = 110
    ∧ (computeStaged sampleConfig midCycleState 150).m_patient_valve.command = 118
    ∧ (computeStaged sampleConfig editedMidCycleState 150).m_patient_valve.command = 121
    ∧ callsFor AlarmCode.RCM_SW_3 (computeAlarmCalls sampleConfig midCycleState 150)
        = [AlarmCall.detectedAlarm AlarmCode.RCM_SW_3 1]
    ∧ callsFor AlarmCode.RCM_SW_3 (computeAlarmCalls sampleConfig editedMidCycleState 150)
        = [AlarmCall.notDetectedAlarm AlarmCode.RCM_SW_3] := by
  decide

/-! ## Plateau estimator -/

/-- The aggregation loop of `computePlateau` over a window of zeros leaves the
minimum, the maximum and the total at zero. -/
theorem plateauLoop_zero_window (values : List Nat) (hz : ∀ i, values.getD i 0 = 0)
    (indices : List Nat) : indices.foldl (plateauLoopBody values) (0, 0, 0) = (0, 0, 0) := by
  induction indices with
  | nil => rfl
  | cons i rest ih =>
    rw [List.foldl_cons]
    have h : plateauLoopBody values (0, 0, 0) i = (0, 0, 0) := by
      simp only [plateauLoopBody, hz i]
      rfl
    rw [h, ih]

/-- On a window of zeros, with no plateau computed yet and the computation not
started, `computePlateau` starts the computation exactly from the tick
`(centiSecPerInhalation * 95) / 100` on, and then stores a plateau pressure
of 0. -/
theorem computePlateau_zero_window (cfg : Config) (s : PressureController) (t : Nat)
    (hz : ∀ i, s.m_lastPressureValues.getD i 0 = 0)
    (hc : s.m_plateauComputed = false) (hs : s.m_startPlateauComputation = false) :
    ((computePlateau cfg s t).m_startPlateauComputation = true
        ↔ t ≥ (s.m_centiSecPerInhalation * 95) / 100)
      ∧ (computePlateau cfg s t).m_plateauComputed = false
      ∧ (computePlateau cfg s t).m_plateauPressure
          = (if t ≥ (s.m_centiSecPerInhalation * 95) / 100 then 0 else s.m_plateauPressure) := by
  have h0 := hz 0
  simp only [computePlateau, h0, plateauLoop_zero_window _ hz, hc, hs]
  have hd : toU16 (((0 : Nat) : Int) - ((0 : Nat) : Int)) = 0 := by decide
  simp only [hd]
  by_cases ht : t ≥ (s.m_centiSecPerInhalation * 95) / 100
  · simp [ht, hs, hc]
  · simp [ht, hs, hc]

theorem initRespiratoryCycle_window (cfg : Config) (s : PressureController) :
    (initRespiratoryCycle cfg s).m_lastPressureValues = List.replicate cfg.MAX_PRESSURE_SAMPLES 0
      ∧ (initRespiratoryCycle cfg s).m_lastPressureValuesIndex = 0
      ∧ (initRespiratoryCycle cfg s).m_plateauComputed = false
      ∧ (initRespiratoryCycle cfg s).m_startPlateauComputation = false
      ∧ (initRespiratoryCycle cfg s).m_plateauPressure = 0 := by
  simp [initRespiratoryCycle, computeCentiSecParameters, setSubPhase]

theorem getD_replicate_zero (n i : Nat) : (List.replicate n 0).getD i 0 = 0 := by
  simp only [List.getD_eq_getElem?_getD, List.getElem?_replicate]
  split_ifs <;> rfl

/-- In the state `initRespiratoryCycle` leaves (window entirely zero), for every
tick `t`, `computePlateau(t)` leaves `plateauPressure` (zero) and
`plateauComputed` (false) unchanged, and leaves `startPlateauComputation` false
exactly when `t < (centiSecPerInhalation * 95) / 100`. -/
theorem computePlateau_after_init (cfg : Config) (s0 : PressureController) (t : Nat) :
    ((computePlateau cfg (initRespiratoryCycle cfg s0) t).m_startPlateauComputation = false
        ↔ t < ((initRespiratoryCycle cfg s0).m_centiSecPerInhalation * 95) / 100)
      ∧ (computePlateau cfg (initRespiratoryCycle cfg s0) t).m_plateauPressure
          = (initRespiratoryCycle cfg s0).m_plateauPressure
      ∧ (computePlateau cfg (initRespiratoryCycle cfg s0) t).m_plateauComputed
          = (initRespiratoryCycle cfg s0).m_plateauComputed
      ∧ ((initRespiratoryCycle cfg s0).m_centiSecPerInhalation ≤ t →
          (computePlateau cfg (initRespiratoryCycle cfg s0) t).m_startPlateauComputation
            = true) := by
  obtain ⟨hw, -, hc, hs, hp⟩ := initRespiratoryCycle_window cfg s0
  have hz : ∀ i, (initRespiratoryCycle cfg s0).m_lastPressureValues.getD i 0 = 0 := by
    intro i
    rw [hw]
    exact getD_replicate_zero _ i
  obtain ⟨h1, h2, h3⟩ := computePlateau_zero_window cfg _ t hz hc hs
  refine ⟨?_, ?_, ?_, ?_⟩
  · rw [← not_iff_not, Bool.not_eq_false, h1]
    omega
  · rw [h3, hp]
    split_ifs <;> rfl
  · rw [h2, hc]
  · intro ht
    rw [h1]
    have : (initRespiratoryCycle cfg s0).m_centiSecPerInhalation * 95 / 100
        ≤ (initRespiratoryCycle cfg s0).m_centiSecPerInhalation := by omega
    omega

theorem plateauLoop_total_lt (values : List Nat) (indices : List Nat) :
    ∀ acc : Nat × Nat × Nat, acc.2.2 < 65536 →
      (indices.foldl (plateauLoopBody values) acc).2.2 < 65536 := by
  induction indices with
  | nil => intro acc h; exact h
  | cons i rest ih =>
    intro acc _
    rw [List.foldl_cons]
    apply ih
    simp only [plateauLoopBody]
    omega

theorem plateauLoop_total_mod (values : List Nat) (indices : List Nat) :
    ∀ acc : Nat × Nat × Nat,
      (indices.foldl (plateauLoopBody values) acc).2.2 % 65536
        = (acc.2.2 + (indices.map (fun i => values.getD i 0)).sum) % 65536 := by
  induction indices with
  | nil => intro acc; simp
  | cons i rest ih =>
    intro acc
    rw [List.foldl_cons, ih]
    simp only [plateauLoopBody, List.map_cons, List.sum_cons]
    omega

theorem map_getD_range_cons (a : Nat) (rest : List Nat) :
    (List.range' 1 rest.length).map (fun i => (a :: rest).getD i 0) = rest := by
  apply List.ext_getElem
  · simp
  · intro i h1 h2
    simp [List.getElem_range', Nat.add_comm 1 i, List.getElem?_eq_getElem h2]

/-- The total the aggregation loop of `computePlateau` leaves in its 16-bit
accumulator: the sum of the window reduced modulo `2^16`. -/
theorem plateauLoop_total (values : List Nat) (n : Nat) (hlen : values.length = n)
    (hpos : 1 ≤ n) (hu16 : ∀ v ∈ values, v < 65536) :
    ((List.range' 1 (n - 1)).foldl (plateauLoopBody values)
        (values.getD 0 0, values.getD 0 0, values.getD 0 0)).2.2
      = values.sum % 65536 := by
  cases values with
  | nil => simp at hlen; omega
  | cons a rest =>
    have hn : n - 1 = rest.length := by simp at hlen; omega
    have ha : a < 65536 := hu16 a (List.mem_cons_self _ _)
    have hlt := plateauLoop_total_lt (a :: rest) (List.range' 1 (n - 1))
      ((a :: rest).getD 0 0, (a :: rest).getD 0 0, (a :: rest).getD 0 0)
      (by simpa using ha)
    have hmod := plateauLoop_total_mod (a :: rest) (List.range' 1 (n - 1))
      ((a :: rest).getD 0 0, (a :: rest).getD 0 0, (a :: rest).getD 0 0)
    rw [Nat.mod_eq_of_lt hlt] at hmod
    rw [hmod, hn, map_getD_range_cons]
    simp

/-- The plateau pressure `computePlateau` stores when it ends with the
computation started: the quotient of its 16-bit total. -/
theorem computePlateau_plateauPressure_of_started (cfg : Config) (s : PressureController)
    (t : Nat) (hstart : (computePlateau cfg s t).m_startPlateauComputation = true) :
    (computePlateau cfg s t).m_plateauPressure
      = (((List.range' 1 (cfg.MAX_PRESSURE_SAMPLES - 1)).foldl
            (plateauLoopBody s.m_lastPressureValues)
            (s.m_lastPressureValues.getD 0 0, s.m_lastPressureValues.getD 0 0,
              s.m_lastPressureValues.getD 0 0)).2.2
          / cfg.MAX_PRESSURE_SAMPLES) % 65536 := by
  simp only [computePlateau] at hstart ⊢
  split_ifs at hstart ⊢ <;> simp_all

/-- C14 (counterexample): after ten samples of 7000, non-negative 16-bit values,
`computePlateau(100)` ends with `startPlateauComputation = true` and stores a
plateau pressure of 446, not 7000: the exact sum 70000 does not fit the 16-bit
accumulator, which holds `70000 - 65536 = 4464`. -/
theorem computePlateau_total_wraps :
    saturatedWindowState.m_lastPressureValues = List.replicate 10 7000
    ∧ (isI16 7000 ∧ (0 : Int) ≤ 7000)
    ∧ (computePlateau sampleConfig saturatedWindowState 100).m_startPlateauComputation = true
    ∧ (computePlateau sampleConfig saturatedWindowState 100).m_plateauPressure = 446
    ∧ saturatedWindowState.m_lastPressureValues.sum / sampleConfig.MAX_PRESSURE_SAMPLES
        = 7000 := by
  decide

/-- C14 (amended): for every window of `MAX_PRESSURE_SAMPLES >= 1` unsigned
16-bit samples and every tick `t`, whenever `computePlateau(t)` ends with
`startPlateauComputation = true`, `plateauPressure` is the integer quotient by
`MAX_PRESSURE_SAMPLES` of the sum of the window reduced modulo `2^16` (the total
is a `uint16_t`); it is the quotient of the exact sum whenever that sum is below
`2^16`. -/
theorem computePlateau_plateau_is_wrapped_mean (cfg : Config) (s : PressureController)
    (t : Nat) (hlen : s.m_lastPressureValues.length = cfg.MAX_PRESSURE_SAMPLES)
    (hpos : 1 ≤ cfg.MAX_PRESSURE_SAMPLES)
    (hu16 : ∀ v ∈ s.m_lastPressureValues, v < 65536)
    (hstart : (computePlateau cfg s t).m_startPlateauComputation = true) :
    (computePlateau cfg s t).m_plateauPressure
        = (s.m_lastPressureValues.sum % 65536) / cfg.MAX_PRESSURE_SAMPLES
      ∧ (s.m_lastPressureValues.sum < 65536 →
          (computePlateau cfg s t).m_plateauPressure
            = s.m_lastPressureValues.sum / cfg.MAX_PRESSURE_SAMPLES) := by
  have h := computePlateau_plateauPressure_of_started cfg s t hstart
  rw [plateauLoop_total _ _ hlen hpos hu16] at h
  have hq : s.m_lastPressureValues.sum % 65536 / cfg.MAX_PRESSURE_SAMPLES < 65536 :=
    lt_of_le_of_lt (Nat.div_le_self _ _) (Nat.mod_lt _ (by decide))
  rw [Nat.mod_eq_of_lt hq] at h
  refine ⟨h, fun hs => ?_⟩
  rw [h, Nat.mod_eq_of_lt hs]

theorem computePlateau_plateau_is_wrapped_mean_witness :
    steadyWindowState.m_lastPressureValues.length = sampleConfig.MAX_PRESSURE_SAMPLES
    ∧ 1 ≤ sampleConfig.MAX_PRESSURE_SAMPLES
    ∧ (∀ v ∈ steadyWindowState.m_lastPressureValues, v < 65536)
    ∧ (computePlateau sampleConfig steadyWindowState 100).m_startPlateauComputation = true
    ∧ steadyWindowState.m_lastPressureValues.sum < 65536
    ∧ (computePlateau sampleConfig steadyWindowState 100).m_plateauPressure
        = steadyWindowState.m_lastPressureValues.sum / sampleConfig.MAX_PRESSURE_SAMPLES :=
  ⟨by decide, by decide, by decide, by decide, by decide,
    (computePlateau_plateau_is_wrapped_mean sampleConfig steadyWindowState 100
      (by decide) (by decide) (by decide) (by decide)).2 (by decide)⟩

/-! ## Sliding pressure window -/

theorem succ_mod_eq_ite (n m : Nat) (hm : 0 < m) :
    (n + 1) % m = if n % m + 1 ≥ m then 0 else n % m + 1 := by
  have hdiv := Nat.div_add_mod n m
  have hlt := Nat.mod_lt n hm
  split_ifs with h
  · have e : n + 1 = m * (n / m + 1) := by
      rw [Nat.mul_add, Nat.mul_one]
      omega
    rw [e, Nat.mul_mod_right]
  · have e : n + 1 = m * (n / m) + (n % m + 1) := by omega
    rw [e, Nat.mul_add_mod, Nat.mod_eq_of_lt (by omega)]

theorem mod_ne_of_lt_of_lt_add (i n m : Nat) (h1 : i < n) (h2 : n < i + m) :
    i % m ≠ n % m := by
  intro h
  have hd : m ∣ n - i := (Nat.modEq_iff_dvd' (le_of_lt h1)).1 h
  have := Nat.eq_zero_of_dvd_of_lt hd (by omega)
  omega

theorem getD_set (values : List Nat) (i j a : Nat) (hi : i < values.length) :
    (values.set i a).getD j 0 = if i = j then a else values.getD j 0 := by
  simp only [List.getD_eq_getElem?_getD, List.getElem?_set]
  split_ifs <;> simp_all

/-- One `updatePressure` on a window of `MAX_PRESSURE_SAMPLES` slots whose head
index is below `MAX_PRESSURE_SAMPLES`: the sample, converted to `uint16_t`, is
the current pressure and is written at the head index, which advances by one
modulo `MAX_PRESSURE_SAMPLES`. -/
theorem updatePressure_step (cfg : Config) (s : PressureController) (p : Int)
    (hmax : cfg.MAX_PRESSURE_SAMPLES < 65536)
    (hidx : s.m_lastPressureValuesIndex < cfg.MAX_PRESSURE_SAMPLES) :
    (updatePressure cfg s p).m_pressure = toU16 p
      ∧ (updatePressure cfg s p).m_lastPressureValues
          = s.m_lastPressureValues.set s.m_lastPressureValuesIndex (toU16 p)
      ∧ (updatePressure cfg s p).m_lastPressureValuesIndex
          = (if s.m_lastPressureValuesIndex + 1 ≥ cfg.MAX_PRESSURE_SAMPLES then 0
              else s.m_lastPressureValuesIndex + 1) := by
  simp only [updatePressure]
  rw [Nat.mod_eq_of_lt (by omega : s.m_lastPressureValuesIndex + 1 < 65536)]
  split_ifs <;> simp

/-- The window after a cycle start followed by a sequence of samples: the head
index is the number of samples modulo `MAX_PRESSURE_SAMPLES`, the window keeps
its `MAX_PRESSURE_SAMPLES` slots, and slot `j` holds the sample at the latest
position congruent to `j`, or zero when there is none. -/
theorem window_after_samples (cfg : Config) (s0 : PressureController)
    (hpos : 1 ≤ cfg.MAX_PRESSURE_SAMPLES) (hmax : cfg.MAX_PRESSURE_SAMPLES < 65536)
    (samples : List Int) :
    (samples.foldl (updatePressure cfg) (initRespiratoryCycle cfg s0)).m_lastPressureValuesIndex
        = samples.length % cfg.MAX_PRESSURE_SAMPLES
      ∧ (samples.foldl (updatePressure cfg)
          (initRespiratoryCycle cfg s0)).m_lastPressureValues.length
        = cfg.MAX_PRESSURE_SAMPLES
      ∧ ∀ j, j < cfg.MAX_PRESSURE_SAMPLES →
          (j < samples.length →
            ∃ i, i < samples.length ∧ i % cfg.MAX_PRESSURE_SAMPLES = j
              ∧ samples.length ≤ i + cfg.MAX_PRESSURE_SAMPLES
              ∧ (samples.foldl (updatePressure cfg)
                  (initRespiratoryCycle cfg s0)).m_lastPressureValues.getD j 0
                = toU16 (samples.getD i 0))
          ∧ (samples.length ≤ j →
            (samples.foldl (updatePressure cfg)
                (initRespiratoryCycle cfg s0)).m_lastPressureValues.getD j 0 = 0) := by
  induction samples using List.reverseRecOn with
  | nil =>
    obtain ⟨hw, hi, -, -, -⟩ := initRespiratoryCycle_window cfg s0
    simp only [List.foldl_nil, List.length_nil, Nat.zero_mod]
    refine ⟨hi, by rw [hw, List.length_replicate], fun j _ => ⟨fun h => absurd h (by omega), ?_⟩⟩
    intro _
    rw [hw]
    exact getD_replicate_zero _ j
  | append_singleton samples p ih =>
    obtain ⟨hidx, hlen, hslots⟩ := ih
    have hm : 0 < cfg.MAX_PRESSURE_SAMPLES := hpos
    have hlt := Nat.mod_lt samples.length hm
    rw [List.foldl_append, List.foldl_cons, List.foldl_nil]
    obtain ⟨-, hw, hi⟩ := updatePressure_step cfg
      (samples.foldl (updatePressure cfg) (initRespiratoryCycle cfg s0)) p hmax
      (by rw [hidx]; exact hlt)
    rw [hw, hi, hidx]
    refine ⟨?_, ?_, ?_⟩
    · rw [List.length_append, List.length_singleton, succ_mod_eq_ite _ _ hm]
    · rw [List.length_set, hlen]
    · intro j hj
      rw [getD_set _ _ _ _ (by rw [hlen]; exact hlt), List.length_append,
        List.length_singleton]
      by_cases hjn : samples.length % cfg.MAX_PRESSURE_SAMPLES = j
      · rw [if_pos hjn]
        refine ⟨fun _ => ⟨samples.length, by omega, hjn, by omega, ?_⟩, fun h => ?_⟩
        · rw [List.getD_append_right _ _ _ _ (le_refl _)]
          simp
        · have := Nat.mod_le samples.length cfg.MAX_PRESSURE_SAMPLES
          omega
      · rw [if_neg hjn]
        obtain ⟨h1, h2⟩ := hslots j hj
        refine ⟨fun hlt' => ?_, fun hge => h2 (by omega)⟩
        have hjlt : j < samples.length := by
          rcases Nat.lt_or_ge j samples.length with h | h
          · exact h
          · exfalso
            have : j = samples.length := by omega
            apply hjn
            rw [← this, Nat.mod_eq_of_lt hj]
        obtain ⟨i, hi1, hi2, hi3, hi4⟩ := h1 hjlt
        refine ⟨i, by omega, hi2, ?_, ?_⟩
        · rcases Nat.lt_or_ge samples.length (i + cfg.MAX_PRESSURE_SAMPLES) with h | h
          · omega
          · exfalso
            have : samples.length = i + cfg.MAX_PRESSURE_SAMPLES := by omega
            apply hjn
            rw [this, Nat.add_mod_right, hi2]
        · rw [hi4, List.getD_append _ _ _ _ hi1]

/-- C15 (counterexample): a sample of -5 mmH2O, a value of the `int16_t` parameter
of `updatePressure`, passed after `initRespiratoryCycle`: slot 0 of the window
and the current pressure hold 65531, not the sample. -/
theorem updatePressure_stores_negative_sample_wrapped :
    isI16 (-5)
      ∧ (updatePressure sampleConfig (initRespiratoryCycle sampleConfig sampleState)
          (-5)).m_lastPressureValues.getD 0 0 = 65531
      ∧ (updatePressure sampleConfig (initRespiratoryCycle sampleConfig sampleState)
          (-5)).m_pressure = 65531
      ∧ (updatePressure sampleConfig (initRespiratoryCycle sampleConfig sampleState)
          (-5)).m_lastPressureValuesIndex = 1 := by
  decide

/-- C15 (amended): for every sequence of `n` samples passed to `updatePressure`
after `initRespiratoryCycle` (with `1 <= MAX_PRESSURE_SAMPLES <= 255`, the loops
over the window counting in a `uint8_t`): the head index equals
`n mod MAX_PRESSURE_SAMPLES` and is below the length of the window, which stays
`MAX_PRESSURE_SAMPLES` (every write is in bounds); slot `j` holds the sample at
the most recent position congruent to `j` (the position `i < n` with
`i mod MAX_PRESSURE_SAMPLES = j` and `n <= i + MAX_PRESSURE_SAMPLES`), or 0 if
there is none (`n <= j`); each of the last `MAX_PRESSURE_SAMPLES` samples is in
its slot; and the current pressure is the last sample; every sample being held
as stored in a `uint16_t`: its value modulo `2^16`, which is the sample itself
when it is not negative and the sample plus `2^16` when it is negative. -/
theorem updatePressure_ring_buffer (cfg : Config) (s0 : PressureController)
    (samples : List Int)
    (hpos : 1 ≤ cfg.MAX_PRESSURE_SAMPLES) (hmax : cfg.MAX_PRESSURE_SAMPLES ≤ 255) :
    (samples.foldl (updatePressure cfg) (initRespiratoryCycle cfg s0)).m_lastPressureValuesIndex
        = samples.length % cfg.MAX_PRESSURE_SAMPLES
      ∧ (samples.foldl (updatePressure cfg)
            (initRespiratoryCycle cfg s0)).m_lastPressureValuesIndex
          < (samples.foldl (updatePressure cfg)
            (initRespiratoryCycle cfg s0)).m_lastPressureValues.length
      ∧ (samples.foldl (updatePressure cfg)
          (initRespiratoryCycle cfg s0)).m_lastPressureValues.length
        = cfg.MAX_PRESSURE_SAMPLES
      ∧ (∀ j, j < cfg.MAX_PRESSURE_SAMPLES →
          (j < samples.length →
            ∃ i, i < samples.length ∧ i % cfg.MAX_PRESSURE_SAMPLES = j
              ∧ samples.length ≤ i + cfg.MAX_PRESSURE_SAMPLES
              ∧ (samples.foldl (updatePressure cfg)
                  (initRespiratoryCycle cfg s0)).m_lastPressureValues.getD j 0
                = toU16 (samples.getD i 0))
          ∧ (samples.length ≤ j →
            (samples.foldl (updatePressure cfg)
                (initRespiratoryCycle cfg s0)).m_lastPressureValues.getD j 0 = 0))
      ∧ (∀ i, i < samples.length → samples.length ≤ i + cfg.MAX_PRESSURE_SAMPLES →
          (samples.foldl (updatePressure cfg)
              (initRespiratoryCycle cfg s0)).m_lastPressureValues.getD
                (i % cfg.MAX_PRESSURE_SAMPLES) 0
            = toU16 (samples.getD i 0))
      ∧ (∀ p, samples.getLast? = some p →
          (samples.foldl (updatePressure cfg) (initRespiratoryCycle cfg s0)).m_pressure
            = toU16 p)
      ∧ (∀ p : Int, 0 ≤ p ∧ p < 65536 → (toU16 p : Int) = p)
      ∧ (∀ p : Int, -32768 ≤ p ∧ p < 0 → (toU16 p : Int) = p + 65536) := by
  obtain ⟨hidx, hlen, hslots⟩ := window_after_samples cfg s0 hpos (by omega) samples
  have hm : 0 < cfg.MAX_PRESSURE_SAMPLES := hpos
  refine ⟨hidx, ?_, hlen, hslots, ?_, ?_, ?_, ?_⟩
  · rw [hidx, hlen]
    exact Nat.mod_lt _ hm
  · intro i hi1 hi2
    have hj := Nat.mod_lt i hm
    have hji : i % cfg.MAX_PRESSURE_SAMPLES ≤ i := Nat.mod_le _ _
    obtain ⟨i', h1, h2, h3, h4⟩ := (hslots _ hj).1 (by omega)
    rw [h4]
    rcases Nat.lt_trichotomy i i' with h | h | h
    · exact absurd h2.symm (mod_ne_of_lt_of_lt_add i i' _ h (by omega))
    · rw [h]
    · exact absurd h2 (mod_ne_of_lt_of_lt_add i' i _ h (by omega))
  · intro p hp
    rcases List.eq_nil_or_concat samples with h | ⟨l, a, h⟩
    · rw [h] at hp
      simp at hp
    · rw [h, List.concat_eq_append] at hp ⊢
      rw [List.getLast?_concat] at hp
      rw [List.foldl_append, List.foldl_cons, List.foldl_nil,
        (updatePressure_pressure cfg _ a).1]
      injection hp with hp
      rw [hp]
  · intro p hp
    unfold toU16
    omega
  · intro p hp
    unfold toU16
    omega

theorem updatePressure_ring_buffer_witness :
    (1 ≤ sampleConfig.MAX_PRESSURE_SAMPLES ∧ sampleConfig.MAX_PRESSURE_SAMPLES ≤ 255)
    ∧ ([10, 20, 30, 40, 50, 60, 70, 80, 90, 100, 110, 120].foldl (updatePressure sampleConfig)
        (initRespiratoryCycle sampleConfig sampleState)).m_lastPressureValuesIndex
      = [(10 : Int), 20, 30, 40, 50, 60, 70, 80, 90, 100, 110, 120].length
          % sampleConfig.MAX_PRESSURE_SAMPLES
    ∧ ([10, 20, 30, 40, 50, 60, 70, 80, 90, 100, 110, 120].foldl (updatePressure sampleConfig)
        (initRespiratoryCycle sampleConfig sampleState)).m_lastPressureValues
      = [110, 120, 30, 40, 50, 60, 70, 80, 90, 100] :=
  ⟨by decide,
    (updatePressure_ring_buffer sampleConfig sampleState
      [10, 20, 30, 40, 50, 60, 70, 80, 90, 100, 110, 120] (by decide) (by decide)).1,
    by decide⟩

/-! ## Peak pressure of a cycle -/

theorem safeguards_cycleFrame (cfg : Config) (s : PressureController) (t : Nat) :
    (safeguards cfg s t).m_peakPressure = s.m_peakPressure
      ∧ (safeguards cfg s t).m_maxPeakPressureCommand = s.m_maxPeakPressureCommand
      ∧ (safeguards cfg s t).m_centiSecPerInhalation = s.m_centiSecPerInhalation
      ∧ (safeguards cfg s t).m_blower_increment = s.m_blower_increment
      ∧ (safeguards cfg s t).m_pressure = s.m_pressure
      ∧ (safeguards cfg s t).m_peep = s.m_peep
      ∧ (safeguards cfg s t).m_plateauPressure = s.m_plateauPressure
      ∧ (safeguards cfg s t).m_plateauComputed = s.m_plateauComputed
      ∧ (safeguards cfg s t).m_startPlateauComputation = s.m_startPlateauComputation := by
  have h := onlyAlarmsDiffer_safeguards cfg s t
  unfold onlyAlarmsDiffer at h
  refine ⟨?_, ?_, ?_, ?_, ?_, ?_, ?_, ?_, ?_⟩ <;> rw [h]

theorem updateBlower_cycleFrame (s : PressureController) (t : Nat) :
    (updateBlower s t).m_peakPressure = s.m_peakPressure
      ∧ (updateBlower s t).m_maxPeakPressureCommand = s.m_maxPeakPressureCommand
      ∧ (updateBlower s t).m_centiSecPerInhalation = s.m_centiSecPerInhalation
      ∧ (updateBlower s t).m_subPhase = s.m_subPhase
      ∧ (updateBlower s t).m_pressure = s.m_pressure
      ∧ (updateBlower s t).m_plateauPressure = s.m_plateauPressure
      ∧ (updateBlower s t).m_plateauComputed = s.m_plateauComputed
      ∧ (updateBlower s t).m_startPlateauComputation = s.m_startPlateauComputation := by
  simp only [updateBlower]
  split_ifs <;> simp

theorem updatePhase_cycleFrame (s : PressureController) (t : Nat) :
    (updatePhase s t).m_peakPressure = s.m_peakPressure
      ∧ (updatePhase s t).m_maxPeakPressureCommand = s.m_maxPeakPressureCommand
      ∧ (updatePhase s t).m_centiSecPerInhalation = s.m_centiSecPerInhalation
      ∧ (updatePhase s t).m_blower_increment = s.m_blower_increment
      ∧ (updatePhase s t).m_pressure = s.m_pressure
      ∧ (updatePhase s t).m_plateauPressure = s.m_plateauPressure
      ∧ (updatePhase s t).m_plateauComputed = s.m_plateauComputed
      ∧ (updatePhase s t).m_startPlateauComputation = s.m_startPlateauComputation := by
  simp only [updatePhase, setSubPhase]
  split_ifs <;> simp

theorem computePlateau_cycleFrame (cfg : Config) (s : PressureController) (t : Nat) :
    (computePlateau cfg s t).m_peakPressure = s.m_peakPressure
      ∧ (computePlateau cfg s t).m_maxPeakPressureCommand = s.m_maxPeakPressureCommand
      ∧ (computePlateau cfg s t).m_centiSecPerInhalation = s.m_centiSecPerInhalation
      ∧ (computePlateau cfg s t).m_blower_increment = s.m_blower_increment
      ∧ (computePlateau cfg s t).m_pressure = s.m_pressure
      ∧ (computePlateau cfg s t).m_peep = s.m_peep := by
  simp only [computePlateau]
  split_ifs <;> simp

/-- The sub-phase `updatePhase` leaves, by the tick and the sub-phase before. -/
theorem updatePhase_subPhase (s : PressureController) (t : Nat) :
    (t < s.m_centiSecPerInhalation →
        (updatePhase s t).m_phase = CyclePhases.INHALATION
        ∧ ((updatePhase s t).m_subPhase = CycleSubPhases.INSPIRATION
            ∨ (updatePhase s t).m_subPhase = CycleSubPhases.HOLD_INSPIRATION)
        ∧ (s.m_subPhase = CycleSubPhases.HOLD_INSPIRATION →
            (updatePhase s t).m_subPhase = CycleSubPhases.HOLD_INSPIRATION))
      ∧ (s.m_centiSecPerInhalation ≤ t →
        (updatePhase s t).m_phase = CyclePhases.EXHALATION
        ∧ ((updatePhase s t).m_subPhase = CycleSubPhases.EXHALE
            ∨ (updatePhase s t).m_subPhase = CycleSubPhases.HOLD_EXHALE)
        ∧ (s.m_subPhase ≠ CycleSubPhases.HOLD_EXHALE →
            (updatePhase s t).m_subPhase = CycleSubPhases.EXHALE)) := by
  simp only [updatePhase, setSubPhase]
  constructor
  · intro h
    split_ifs <;> simp_all
  · intro h
    have h' : ¬ t < s.m_centiSecPerInhalation := by omega
    split_ifs <;> simp_all

/-- What a tick does to the peak pressure, the peak command, the inhalation
duration, the stored sample and the blower trim. -/
theorem compute_cycleFrame (cfg : Config) (s : PressureController) (t : Nat) :
    (compute cfg s t).m_maxPeakPressureCommand = s.m_maxPeakPressureCommand
      ∧ (compute cfg s t).m_centiSecPerInhalation = s.m_centiSecPerInhalation
      ∧ (compute cfg s t).m_pressure = s.m_pressure
      ∧ (compute cfg s t).m_blower_increment = (updateBlower s t).m_blower_increment
      ∧ (s.m_vigilance = false → t < s.m_centiSecPerInhalation →
          (compute cfg s t).m_peakPressure = max s.m_pressure s.m_peakPressure)
      ∧ (s.m_centiSecPerInhalation ≤ t →
          (compute cfg s t).m_peakPressure = s.m_peakPressure)
      ∧ s.m_peakPressure ≤ (compute cfg s t).m_peakPressure := by
  have hb := updateBlower_cycleFrame s t
  have hu := updatePhase_cycleFrame (updateBlower s t) t
  have hs := updatePhase_subPhase (updateBlower s t) t
  have hv := updatePhase_vigilance (updateBlower s t) t
  rw [updateBlower_vigilance] at hv
  rw [hb.1, hb.2.1, hb.2.2.1, hb.2.2.2.2.1] at hu
  rw [hb.2.2.1] at hs
  obtain ⟨hs1, hs2⟩ := hs
  obtain ⟨u1, u2, u3, u4, u5, -⟩ := hu
  have sg := safeguards_cycleFrame
  simp only [compute, executeCommands, computeStaged, (sg _ _ _).1, (sg _ _ _).2.1,
    (sg _ _ _).2.2.1, (sg _ _ _).2.2.2.1, (sg _ _ _).2.2.2.2.1]
  generalize updatePhase (updateBlower s t) t = u at u1 u2 u3 u4 u5 hs1 hs2 hv
  rw [← u1, ← u2, ← u3, ← u4, ← u5]
  have cp := computePlateau_cycleFrame
  refine ⟨?_, ?_, ?_, ?_, ?_, ?_, ?_⟩
  · split_ifs
    · split <;> simp [inhale, plateau, exhale, holdExhalation, pidBlower, pidPatient, (cp _ _ _).2.1]
    · rfl
  · split_ifs
    · split <;>
        simp [inhale, plateau, exhale, holdExhalation, pidBlower, pidPatient, (cp _ _ _).2.2.1]
    · rfl
  · split_ifs
    · split <;>
        simp [inhale, plateau, exhale, holdExhalation, pidBlower, pidPatient, (cp _ _ _).2.2.2.2.1]
    · rfl
  · split_ifs
    · split <;>
        simp [inhale, plateau, exhale, holdExhalation, pidBlower, pidPatient, (cp _ _ _).2.2.2.1]
    · rfl
  · intro h0 ht
    have hv' := hv h0
    obtain ⟨-, hsub, -⟩ := hs1 (by rw [← u3]; exact ht)
    rcases hsub with h | h <;> simp [hv', h, inhale, plateau, pidBlower]
  · intro ht
    obtain ⟨-, hsub, -⟩ := hs2 (by rw [← u3]; exact ht)
    split_ifs
    · rcases hsub with h | h <;> simp [h, exhale, holdExhalation, pidPatient, (cp _ _ _).1]
    · rfl
  · split_ifs
    · split <;>
        simp [inhale, plateau, exhale, holdExhalation, pidBlower, pidPatient, (cp _ _ _).1]
    · exact Nat.le_refl _

/-- The two stores that precede `compute` in a loop tick change the stored
sample, the window and `m_dt` only. -/
theorem tickInput_frame (cfg : Config) (s : PressureController) (p dt : Int) :
    (updateDt (updatePressure cfg s p) dt).m_pressure = toU16 p
      ∧ (updateDt (updatePressure cfg s p) dt).m_vigilance = s.m_vigilance
      ∧ (updateDt (updatePressure cfg s p) dt).m_centiSecPerInhalation
          = s.m_centiSecPerInhalation
      ∧ (updateDt (updatePressure cfg s p) dt).m_maxPeakPressureCommand
          = s.m_maxPeakPressureCommand
      ∧ (updateDt (updatePressure cfg s p) dt).m_peakPressure = s.m_peakPressure
      ∧ (updateDt (updatePressure cfg s p) dt).m_phase = s.m_phase
      ∧ (updateDt (updatePressure cfg s p) dt).m_subPhase = s.m_subPhase
      ∧ (updateDt (updatePressure cfg s p) dt).m_blower_increment = s.m_blower_increment := by
  simp only [updateDt, updatePressure]
  split_ifs <;> simp

/-- What a loop tick does to the peak pressure and to the values the blower
trim is decided from. -/
theorem loopTick_cycleFrame (cfg : Config) (s : PressureController) (input : Int × Int)
    (t : Nat) :
    (loopTick cfg s input t).m_maxPeakPressureCommand = s.m_maxPeakPressureCommand
      ∧ (loopTick cfg s input t).m_centiSecPerInhalation = s.m_centiSecPerInhalation
      ∧ (s.m_vigilance = false → (loopTick cfg s input t).m_vigilance = false)
      ∧ (s.m_vigilance = false → t < s.m_centiSecPerInhalation →
          (loopTick cfg s input t).m_peakPressure = max (toU16 input.1) s.m_peakPressure)
      ∧ (s.m_centiSecPerInhalation ≤ t →
          (loopTick cfg s input t).m_peakPressure = s.m_peakPressure)
      ∧ s.m_peakPressure ≤ (loopTick cfg s input t).m_peakPressure
      ∧ (t < s.m_centiSecPerInhalation →
          (loopTick cfg s input t).m_phase = CyclePhases.INHALATION) := by
  have hi := tickInput_frame cfg s input.1 input.2
  have hc := compute_cycleFrame cfg (updateDt (updatePressure cfg s input.1) input.2) t
  have hf := computeStaged_frame cfg (updateDt (updatePressure cfg s input.1) input.2) t
  have hv := compute_vigilance cfg (updateDt (updatePressure cfg s input.1) input.2) t
  have hs := updatePhase_subPhase
    (updateBlower (updateDt (updatePressure cfg s input.1) input.2) t) t
  rw [(updateBlower_cycleFrame _ _).2.2.1] at hs
  unfold loopTick
  generalize updateDt (updatePressure cfg s input.1) input.2 = s' at hi hc hf hv hs
  obtain ⟨i1, i2, i3, i4, i5, -, -, -⟩ := hi
  rw [i1, i2, i3, i4, i5] at hc
  rw [i2] at hv
  rw [i3] at hs
  obtain ⟨c1, c2, -, -, c5, c6, c7⟩ := hc
  refine ⟨c1, c2, hv, c5, c6, c7, ?_⟩
  intro ht
  simp only [compute, executeCommands, hf.1]
  exact (hs.1 ht).1

theorem runTicks_append (cfg : Config) (a b : List (Int × Int)) :
    ∀ (s : PressureController) (t : Nat),
      runTicks cfg s (a ++ b) t = runTicks cfg (runTicks cfg s a t) b (t + a.length) := by
  induction a with
  | nil => intro s t; rfl
  | cons x rest ih =>
    intro s t
    have e : t + (rest.length + 1) = t + 1 + rest.length := by omega
    simp only [List.cons_append, runTicks, List.length_cons]
    rw [e]
    exact ih _ _

/-- A run of loop ticks keeps the peak command, the inhalation duration and a
clear vigilance flag, and never lowers the peak pressure. -/
theorem runTicks_cycleFrame (cfg : Config) (inputs : List (Int × Int)) :
    ∀ (s : PressureController) (t : Nat),
      (runTicks cfg s inputs t).m_maxPeakPressureCommand = s.m_maxPeakPressureCommand
        ∧ (runTicks cfg s inputs t).m_centiSecPerInhalation = s.m_centiSecPerInhalation
        ∧ (s.m_vigilance = false → (runTicks cfg s inputs t).m_vigilance = false)
        ∧ s.m_peakPressure ≤ (runTicks cfg s inputs t).m_peakPressure := by
  induction inputs with
  | nil => intro s t; exact ⟨rfl, rfl, id, Nat.le_refl _⟩
  | cons x rest ih =>
    intro s t
    obtain ⟨h1, h2, h3, -, -, h6, -⟩ := loopTick_cycleFrame cfg s x t
    obtain ⟨r1, r2, r3, r4⟩ := ih (loopTick cfg s x t) (t + 1)
    simp only [runTicks]
    exact ⟨r1.trans h1, r2.trans h2, fun h => r3 (h3 h), Nat.le_trans h6 r4⟩

/-- The peak pressure after a run of loop ticks from tick `t` is the largest of
the peak before and of the samples of the ticks below the inhalation duration. -/
theorem runTicks_peakPressure (cfg : Config) (inputs : List (Int × Int)) :
    ∀ (s : PressureController) (t : Nat), s.m_vigilance = false →
      (runTicks cfg s inputs t).m_peakPressure
        = (inputs.take (s.m_centiSecPerInhalation - t)).foldl
            (fun m input => max (toU16 input.1) m) s.m_peakPressure := by
  induction inputs with
  | nil => intro s t _; simp [runTicks]
  | cons x rest ih =>
    intro s t hv
    obtain ⟨-, h2, h3, h4, h5, -, -⟩ := loopTick_cycleFrame cfg s x t
    have hr := ih (loopTick cfg s x t) (t + 1) (h3 hv)
    simp only [runTicks]
    rw [hr, h2]
    by_cases ht : t < s.m_centiSecPerInhalation
    · rw [h4 hv ht]
      have e : s.m_centiSecPerInhalation - t = (s.m_centiSecPerInhalation - (t + 1)) + 1 := by
        omega
      rw [e, List.take_succ_cons, List.foldl_cons]
    · have e1 : s.m_centiSecPerInhalation - (t + 1) = 0 := by omega
      have e2 : s.m_centiSecPerInhalation - t = 0 := by omega
      rw [h5 (by omega), e1, e2]
      simp

theorem initRespiratoryCycle_cycleStart (cfg : Config) (s : PressureController) :
    (initRespiratoryCycle cfg s).m_vigilance = false
      ∧ (initRespiratoryCycle cfg s).m_peakPressure = 0
      ∧ (initRespiratoryCycle cfg s).m_blower_increment = 0
      ∧ (initRespiratoryCycle cfg s).m_subPhase = CycleSubPhases.INSPIRATION
      ∧ (initRespiratoryCycle cfg s).m_phase = CyclePhases.INHALATION
      ∧ (initRespiratoryCycle cfg s).m_plateauComputed = false
      ∧ (initRespiratoryCycle cfg s).m_startPlateauComputation = false
      ∧ (initRespiratoryCycle cfg s).m_plateauPressure = 0 := by
  simp [initRespiratoryCycle, computeCentiSecParameters, setSubPhase]

/-- On samples that are not negative, the largest stored sample is the largest
sample. -/
theorem foldl_max_stored_eq (inputs : List (Int × Int)) :
    ∀ m : Nat, (∀ input ∈ inputs, 0 ≤ input.1 ∧ input.1 < 65536) →
      ((inputs.foldl (fun m input => max (toU16 input.1) m) m : Nat) : Int)
        = inputs.foldl (fun m input => max input.1 m) (m : Int) := by
  induction inputs with
  | nil => intro m _; rfl
  | cons x rest ih =>
    intro m h
    have hx := h x (List.mem_cons_self _ _)
    have hcast : ((toU16 x.1 : Nat) : Int) = x.1 := by
      unfold toU16
      omega
    rw [List.foldl_cons, List.foldl_cons, ih _ (fun y hy => h y (List.mem_cons_of_mem _ hy)),
      Nat.cast_max, hcast]

/-- C21 (counterexample): a cycle whose first sample is -5 mmH2O, a value of the
`int16_t` parameter of `updatePressure`: after the tick the peak pressure is
65531, while the maximum of 0 and the sample is 0. -/
theorem peakPressure_counts_negative_sample_wrapped :
    isI16 (-5)
      ∧ 0 < (initRespiratoryCycle sampleConfig sampleState).m_centiSecPerInhalation
      ∧ (runTicks sampleConfig (initRespiratoryCycle sampleConfig sampleState)
          [(-5, 10000)] 0).m_peakPressure = 65531
      ∧ maxOfSamples [(-5, 10000)] = 0 := by
  decide

/-- C21 (amended): in every state reachable from `initRespiratoryCycle`, a tick
below the inhalation duration leaves the peak pressure at the larger of the peak
before and the stored pressure sample, a tick at or after the inhalation
duration leaves it as it was, and no tick lowers it; hence, after
`initRespiratoryCycle` and any run of loop ticks from tick 0, the peak pressure
is the largest of zero and the samples of the ticks below the inhalation
duration as stored in the `uint16_t` pressure member (a negative sample counts
as the sample plus `2^16`); when none of these samples is negative it is the
maximum of 0 and the samples. -/
theorem peakPressure_is_running_maximum (cfg : Config) (s : PressureController) (t : Nat)
    (hr : Reachable cfg s) :
    (t < s.m_centiSecPerInhalation →
        (compute cfg s t).m_peakPressure = max s.m_peakPressure s.m_pressure)
      ∧ (s.m_centiSecPerInhalation ≤ t →
        (compute cfg s t).m_peakPressure = s.m_peakPressure)
      ∧ s.m_peakPressure ≤ (compute cfg s t).m_peakPressure
      ∧ (∀ (s0 : PressureController) (inputs : List (Int × Int)),
          (runTicks cfg (initRespiratoryCycle cfg s0) inputs 0).m_peakPressure
            = peakOfSamples
                (inputs.take (initRespiratoryCycle cfg s0).m_centiSecPerInhalation))
      ∧ (∀ (s0 : PressureController) (inputs : List (Int × Int)),
          (∀ input ∈ inputs.take (initRespiratoryCycle cfg s0).m_centiSecPerInhalation,
            0 ≤ input.1 ∧ input.1 < 65536) →
          ((runTicks cfg (initRespiratoryCycle cfg s0) inputs 0).m_peakPressure : Int)
            = maxOfSamples
                (inputs.take (initRespiratoryCycle cfg s0).m_centiSecPerInhalation)) := by
  obtain ⟨-, -, -, -, c5, c6, c7⟩ := compute_cycleFrame cfg s t
  have hrun : ∀ (s0 : PressureController) (inputs : List (Int × Int)),
      (runTicks cfg (initRespiratoryCycle cfg s0) inputs 0).m_peakPressure
        = peakOfSamples
            (inputs.take (initRespiratoryCycle cfg s0).m_centiSecPerInhalation) := by
    intro s0 inputs
    have hi := initRespiratoryCycle_cycleStart cfg s0
    rw [runTicks_peakPressure cfg inputs _ 0 hi.1, hi.2.1]
    rfl
  refine ⟨fun ht => ?_, c6, c7, hrun, ?_⟩
  · rw [c5 hr.vigilance_false ht, Nat.max_comm]
  · intro s0 inputs hpos
    rw [hrun]
    exact foldl_max_stored_eq _ 0 hpos

theorem peakPressure_is_running_maximum_witness :
    Reachable sampleConfig risingPressureState
      ∧ (0 < risingPressureState.m_centiSecPerInhalation →
        (compute sampleConfig risingPressureState 0).m_peakPressure
          = max risingPressureState.m_peakPressure risingPressureState.m_pressure)
      ∧ (compute sampleConfig risingPressureState 0).m_peakPressure = 50
      ∧ ((runTicks sampleConfig (initRespiratoryCycle sampleConfig sampleState)
            [(50, 10000), (120, 10000), (90, 10000)] 0).m_peakPressure : Int)
          = maxOfSamples [(50, 10000), (120, 10000), (90, 10000)]
      ∧ maxOfSamples [(50, 10000), (120, 10000), (90, 10000)] = 120 :=
  have hr : Reachable sampleConfig risingPressureState :=
    ⟨sampleState, [Call.updatePressure 50], rfl⟩
  have h := peakPressure_is_running_maximum sampleConfig risingPressureState 0 hr
  ⟨hr, h.1, by decide,
    h.2.2.2.2 sampleState [(50, 10000), (120, 10000), (90, 10000)] (by decide), by decide⟩

/-! ## Sub-phases within a cycle -/

theorem onPeakPressureDecrease_cycleFields (s : PressureController) (k : Nat) :
    (onPeakPressureDecrease s k).m_subPhase = s.m_subPhase
      ∧ (onPeakPressureDecrease s k).m_centiSecPerInhalation = s.m_centiSecPerInhalation
      ∧ (onPeakPressureDecrease s k).m_blower_increment = s.m_blower_increment
      ∧ (onPeakPressureDecrease s k).m_plateauPressure = s.m_plateauPressure
      ∧ (onPeakPressureDecrease s k).m_plateauComputed = s.m_plateauComputed
      ∧ (onPeakPressureDecrease s k).m_startPlateauComputation = s.m_startPlateauComputation := by
  simp only [onPeakPressureDecrease]
  split_ifs <;> simp

theorem onPeakPressureIncrease_cycleFields (cfg : Config) (s : PressureController) (k : Nat) :
    (onPeakPressureIncrease cfg s k).m_subPhase = s.m_subPhase
      ∧ (onPeakPressureIncrease cfg s k).m_centiSecPerInhalation = s.m_centiSecPerInhalation
      ∧ (onPeakPressureIncrease cfg s k).m_blower_increment = s.m_blower_increment
      ∧ (onPeakPressureIncrease cfg s k).m_plateauPressure = s.m_plateauPressure
      ∧ (onPeakPressureIncrease cfg s k).m_plateauComputed = s.m_plateauComputed
      ∧ (onPeakPressureIncrease cfg s k).m_startPlateauComputation
          = s.m_startPlateauComputation := by
  simp only [onPeakPressureIncrease]
  split_ifs <;> simp

theorem checkCycleAlarm_cycleFields (s : PressureController) :
    (checkCycleAlarm s).m_subPhase = s.m_subPhase
      ∧ (checkCycleAlarm s).m_centiSecPerInhalation = s.m_centiSecPerInhalation
      ∧ (checkCycleAlarm s).m_blower_increment = s.m_blower_increment
      ∧ (checkCycleAlarm s).m_plateauPressure = s.m_plateauPressure
      ∧ (checkCycleAlarm s).m_plateauComputed = s.m_plateauComputed
      ∧ (checkCycleAlarm s).m_startPlateauComputation = s.m_startPlateauComputation := by
  simp only [checkCycleAlarm, detectedAlarm, notDetectedAlarm]
  split_ifs <;> simp

theorem endRespiratoryCycle_cycleFields (cfg : Config) (s : PressureController) :
    (endRespiratoryCycle cfg s).m_subPhase = s.m_subPhase
      ∧ (endRespiratoryCycle cfg s).m_centiSecPerInhalation = s.m_centiSecPerInhalation
      ∧ (endRespiratoryCycle cfg s).m_blower_increment = s.m_blower_increment
      ∧ (endRespiratoryCycle cfg s).m_plateauPressure = s.m_plateauPressure
      ∧ (endRespiratoryCycle cfg s).m_plateauComputed = s.m_plateauComputed
      ∧ (endRespiratoryCycle cfg s).m_startPlateauComputation = s.m_startPlateauComputation := by
  have hc := checkCycleAlarm_cycleFields s
  have hd := onPeakPressureDecrease_cycleFields (checkCycleAlarm s)
  have hi := onPeakPressureIncrease_cycleFields cfg (checkCycleAlarm s)
  simp only [endRespiratoryCycle]
  split_ifs
  · rw [(hd _).1, (hd _).2.1, (hd _).2.2.1, (hd _).2.2.2.1, (hd _).2.2.2.2.1, (hd _).2.2.2.2.2]
    exact hc
  · rw [(hi _).1, (hi _).2.1, (hi _).2.2.1, (hi _).2.2.2.1, (hi _).2.2.2.2.1, (hi _).2.2.2.2.2]
    exact hc
  · exact hc
  · exact hc

/-- A call other than `initRespiratoryCycle` and `compute` leaves the sub-phase,
the inhalation duration, the blower trim and the plateau estimate as they are. -/
theorem callRun_cycleFields (cfg : Config) (s : PressureController) (c : Call)
    (hi : c ≠ Call.initRespiratoryCycle) (hc : ∀ t, c ≠ Call.compute t) :
    (c.run cfg s).m_subPhase = s.m_subPhase
      ∧ (c.run cfg s).m_centiSecPerInhalation = s.m_centiSecPerInhalation
      ∧ (c.run cfg s).m_blower_increment = s.m_blower_increment
      ∧ (c.run cfg s).m_plateauPressure = s.m_plateauPressure
      ∧ (c.run cfg s).m_plateauComputed = s.m_plateauComputed
      ∧ (c.run cfg s).m_startPlateauComputation = s.m_startPlateauComputation := by
  cases c <;> simp only [Call.run]
  · exact absurd rfl hi
  · exact endRespiratoryCycle_cycleFields cfg s
  · simp only [updatePressure]; split_ifs <;> simp
  · simp [updateDt]
  · exact absurd rfl (hc _)
  · simp only [onCycleDecrease]; split_ifs <;> simp
  · simp only [onCycleIncrease]; split_ifs <;> simp
  · simp only [onPeepPressureDecrease]; split_ifs <;> simp
  · simp only [onPeepPressureIncrease]; split_ifs <;> simp
  · have hd := onPeakPressureDecrease_cycleFields
    simp only [onPlateauPressureDecrease, (hd _ _).1, (hd _ _).2.1, (hd _ _).2.2.1,
      (hd _ _).2.2.2.1, (hd _ _).2.2.2.2.1, (hd _ _).2.2.2.2.2]
    split_ifs <;> simp
  · have hd := onPeakPressureIncrease_cycleFields
    simp only [onPlateauPressureIncrease, (hd _ _ _).1, (hd _ _ _).2.1, (hd _ _ _).2.2.1,
      (hd _ _ _).2.2.2.1, (hd _ _ _).2.2.2.2.1, (hd _ _ _).2.2.2.2.2]
    split_ifs <;> simp
  · exact onPeakPressureDecrease_cycleFields s _
  · exact onPeakPressureIncrease_cycleFields cfg s _

/-- The sub-phase after a tick is the one `updatePhase` chooses from the
sub-phase before. -/
theorem compute_subPhase (cfg : Config) (s : PressureController) (t : Nat) :
    (compute cfg s t).m_subPhase = (updatePhase s t).m_subPhase := by
  have hf := computeStaged_frame cfg s t
  simp only [compute, executeCommands, hf.2.1]
  simp only [updatePhase, setSubPhase, (updateBlower_cycleFrame s t).2.2.1,
    (updateBlower_cycleFrame s t).2.2.2.1, (updateBlower_cycleFrame s t).2.2.2.2.1,
    (updateBlower_cycleFrame s t).2.1]
  split_ifs <;> simp_all [(updateBlower_cycleFrame s t).2.2.2.1]

/-- No call enters `HOLD_EXHALE`. -/
theorem callRun_not_holdExhale (cfg : Config) (s : PressureController) (c : Call)
    (h : s.m_subPhase ≠ CycleSubPhases.HOLD_EXHALE) :
    (c.run cfg s).m_subPhase ≠ CycleSubPhases.HOLD_EXHALE := by
  by_cases hi : c = Call.initRespiratoryCycle
  · subst hi
    simp [Call.run, (initRespiratoryCycle_cycleStart cfg s).2.2.2.1]
  · by_cases hc : ∃ t, c = Call.compute t
    · obtain ⟨t, rfl⟩ := hc
      simp only [Call.run, compute_subPhase]
      have hs := updatePhase_subPhase s t
      by_cases ht : t < s.m_centiSecPerInhalation
      · rcases (hs.1 ht).2.1 with e | e <;> simp [e]
      · rw [(hs.2 (by omega)).2.2 h]; simp
    · rw [(callRun_cycleFields cfg s c hi (fun t e => hc ⟨t, e⟩)).1]
      exact h

theorem runCalls_not_holdExhale (cfg : Config) (calls : List Call) :
    ∀ s : PressureController, s.m_subPhase ≠ CycleSubPhases.HOLD_EXHALE →
      (runCalls cfg s calls).m_subPhase ≠ CycleSubPhases.HOLD_EXHALE := by
  induction calls with
  | nil => intro s h; exact h
  | cons c cs ih =>
    intro s h
    simp only [runCalls, List.foldl_cons]
    exact ih _ (callRun_not_holdExhale cfg s c h)

/-- The sub-phase is never `HOLD_EXHALE` in a state reachable from
`initRespiratoryCycle`. -/
theorem Reachable.not_holdExhale {cfg : Config} {s : PressureController}
    (h : Reachable cfg s) : s.m_subPhase ≠ CycleSubPhases.HOLD_EXHALE := by
  obtain ⟨s0, calls, rfl⟩ := h
  apply runCalls_not_holdExhale
  simp [(initRespiratoryCycle_cycleStart cfg s0).2.2.2.1]

/-- C27: in every state reachable from `initRespiratoryCycle` by any sequence of
calls, the sub-phase is not `HOLD_EXHALE` and the vigilance flag is clear; so at
every tick at or after the inhalation duration the sub-phase becomes `EXHALE`
and `compute` runs `exhale()` followed by `computePlateau`, then the safeguards
and `executeCommands`: the patient valve is staged to, and given, the aperture
`pidPatient` returns, and the PEEP becomes the stored pressure sample. -/
theorem holdExhale_unreachable_and_vigilance_clear (cfg : Config) (s : PressureController)
    (t : Nat) (hr : Reachable cfg s) :
    s.m_subPhase ≠ CycleSubPhases.HOLD_EXHALE
      ∧ s.m_vigilance = false
      ∧ (s.m_centiSecPerInhalation ≤ t →
          (compute cfg s t).m_subPhase = CycleSubPhases.EXHALE
          ∧ compute cfg s t
              = executeCommands (safeguards cfg
                  (computePlateau cfg (exhale cfg (updatePhase (updateBlower s t) t)) t) t)
          ∧ (computeStaged cfg s t).m_patient_valve.command
              = (pidPatient cfg
                  { updatePhase (updateBlower s t) t with
                    m_blower_valve := (updatePhase (updateBlower s t) t).m_blower_valve.close }
                  (updatePhase (updateBlower s t) t).m_pressureCommand
                  (updatePhase (updateBlower s t) t).m_pressure
                  (updatePhase (updateBlower s t) t).m_dt).1
          ∧ (compute cfg s t).m_patient_valve.position
              = (computeStaged cfg s t).m_patient_valve.command
          ∧ (compute cfg s t).m_peep = s.m_pressure) := by
  refine ⟨hr.not_holdExhale, hr.vigilance_false, fun ht => ?_⟩
  have hsub : (compute cfg s t).m_subPhase = CycleSubPhases.EXHALE := by
    rw [compute_subPhase]
    exact ((updatePhase_subPhase s t).2 ht).2.2 hr.not_holdExhale
  have hf := computeStaged_frame cfg s t
  have hu : (updatePhase (updateBlower s t) t).m_subPhase = CycleSubPhases.EXHALE := by
    rw [← hf.2.1]; exact hsub
  have hv : (updatePhase (updateBlower s t) t).m_vigilance = false :=
    updatePhase_vigilance _ t (by rw [updateBlower_vigilance]; exact hr.vigilance_false)
  have hp : (updatePhase (updateBlower s t) t).m_pressure = s.m_pressure := by
    rw [(updatePhase_cycleFrame _ t).2.2.2.2.1, (updateBlower_cycleFrame s t).2.2.2.2.1]
  have hstaged : computeStaged cfg s t
      = safeguards cfg
          (computePlateau cfg (exhale cfg (updatePhase (updateBlower s t) t)) t) t := by
    simp only [computeStaged, hv, hu]
    rfl
  refine ⟨hsub, by rw [compute, hstaged], ?_, rfl, ?_⟩
  · rw [hstaged, (safeguards_frame _ _ _).2.2.2.2, (computePlateau_frame _ _ _).2.2.2.2]
    rfl
  · simp only [compute, executeCommands, hstaged, (safeguards_cycleFrame _ _ _).2.2.2.2.2.1,
      (computePlateau_cycleFrame _ _ _).2.2.2.2.2]
    rw [← hp]
    rfl

theorem holdExhale_unreachable_and_vigilance_clear_witness :
    Reachable sampleConfig midCycleState
      ∧ midCycleState.m_centiSecPerInhalation ≤ 100
      ∧ (compute sampleConfig midCycleState 100).m_subPhase = CycleSubPhases.EXHALE
      ∧ (compute sampleConfig midCycleState 100).m_peep = 125 :=
  have hr : Reachable sampleConfig midCycleState :=
    ⟨sampleState, [Call.updatePressure 125], rfl⟩
  have h := (holdExhale_unreachable_and_vigilance_clear sampleConfig midCycleState 100 hr).2.2
    (by decide)
  ⟨hr, by decide, h.1, h.2.2.2.2⟩

/-! ## Pressure setpoint -/

/-- C22 (counterexample): with the sub-phase already `HOLD_INSPIRATION`, at tick 1
of an inhalation of 100 ticks and with a pressure of 50 below the peak command
of 320, `updatePhase` leaves the setpoint at 300, the value it had, not at the
peak command. -/
theorem updatePhase_keeps_setpoint_in_hold_inspiration :
    fallenPressureState.m_subPhase = CycleSubPhases.HOLD_INSPIRATION
      ∧ 1 < fallenPressureState.m_centiSecPerInhalation
      ∧ 1 < (fallenPressureState.m_centiSecPerInhalation * 80) / 100
      ∧ fallenPressureState.m_pressure < fallenPressureState.m_maxPeakPressureCommand
      ∧ fallenPressureState.m_maxPeakPressureCommand = 320
      ∧ fallenPressureState.m_pressureCommand = 300
      ∧ (updatePhase fallenPressureState 1).m_pressureCommand = 300
      ∧ (updatePhase fallenPressureState 1).m_subPhase = CycleSubPhases.HOLD_INSPIRATION := by
  decide

/-- C22 (amended): for every prior state and tick, the setpoint after
`updatePhase(t)` is: for `t < centiSecPerInhalation`, `t < (centiSecPerInhalation*80)/100`
and `pressure < maxPeakPressureCommand`, the peak command when the sub-phase was
not `HOLD_INSPIRATION` and the setpoint before the call when it was;
`maxPlateauPressureCommand` for every other `t < centiSecPerInhalation`; and
`minPeepCommand` for `t >= centiSecPerInhalation`. -/
theorem updatePhase_setpoint (s : PressureController) (t : Nat) :
    (updatePhase s t).m_pressureCommand
      = if t < s.m_centiSecPerInhalation then
          if t < (s.m_centiSecPerInhalation * 80) / 100
              ∧ s.m_pressure < s.m_maxPeakPressureCommand then
            if s.m_subPhase = CycleSubPhases.HOLD_INSPIRATION then s.m_pressureCommand
            else s.m_maxPeakPressureCommand
          else s.m_maxPlateauPressureCommand
        else s.m_minPeepCommand := by
  simp only [updatePhase, setSubPhase]
  split_ifs <;> simp_all

/-! ## Order of the sub-phases -/

theorem computeTicks_append (a b : List Call) :
    computeTicks (a ++ b) = computeTicks a ++ computeTicks b := by
  induction a with
  | nil => rfl
  | cons c rest ih => cases c <;> simp [computeTicks, ih]

theorem runCalls_append (cfg : Config) (s : PressureController) (a b : List Call) :
    runCalls cfg s (a ++ b) = runCalls cfg (runCalls cfg s a) b := by
  simp [runCalls, List.foldl_append]

/-- A call other than `initRespiratoryCycle` keeps the inhalation duration. -/
theorem callRun_centiSecPerInhalation (cfg : Config) (s : PressureController) (c : Call)
    (hi : c ≠ Call.initRespiratoryCycle) :
    (c.run cfg s).m_centiSecPerInhalation = s.m_centiSecPerInhalation := by
  by_cases hc : ∃ t, c = Call.compute t
  · obtain ⟨t, rfl⟩ := hc
    exact (compute_cycleFrame cfg s t).2.1
  · exact (callRun_cycleFields cfg s c hi (fun t e => hc ⟨t, e⟩)).2.1

/-- Within a cycle, calls whose `compute` ticks are below the inhalation
duration keep `HOLD_INSPIRATION`. -/
theorem runCalls_keeps_holdInspiration (cfg : Config) (calls : List Call) :
    ∀ s : PressureController, Call.initRespiratoryCycle ∉ calls →
      (∀ t ∈ computeTicks calls, t < s.m_centiSecPerInhalation) →
      s.m_subPhase = CycleSubPhases.HOLD_INSPIRATION →
      (runCalls cfg s calls).m_subPhase = CycleSubPhases.HOLD_INSPIRATION := by
  induction calls with
  | nil => intro s _ _ h; exact h
  | cons c cs ih =>
    intro s hi ht h
    have hc : c ≠ Call.initRespiratoryCycle := fun e => hi (by simp [e])
    have hcs : Call.initRespiratoryCycle ∉ cs := fun e => hi (List.mem_cons_of_mem _ e)
    have hd := callRun_centiSecPerInhalation cfg s c hc
    simp only [runCalls, List.foldl_cons]
    by_cases hk : ∃ t, c = Call.compute t
    · obtain ⟨t, rfl⟩ := hk
      simp only [computeTicks, List.mem_cons, forall_eq_or_imp] at ht
      refine ih _ hcs (by rw [hd]; exact ht.2) ?_
      simp only [Call.run, compute_subPhase]
      exact ((updatePhase_subPhase s t).1 ht.1).2.2 h
    · have ht' : ∀ t ∈ computeTicks cs, t < s.m_centiSecPerInhalation := by
        cases c <;> first | exact ht | exact absurd ⟨_, rfl⟩ hk
      refine ih _ hcs (by rw [hd]; exact ht') ?_
      rw [(callRun_cycleFields cfg s c hc (fun t e => hk ⟨t, e⟩)).1]
      exact h

/-- Within a cycle, calls whose `compute` ticks are at or after the inhalation
duration keep `EXHALE`. -/
theorem runCalls_keeps_exhale (cfg : Config) (calls : List Call) :
    ∀ s : PressureController, Call.initRespiratoryCycle ∉ calls →
      (∀ t ∈ computeTicks calls, s.m_centiSecPerInhalation ≤ t) →
      s.m_subPhase = CycleSubPhases.EXHALE →
      (runCalls cfg s calls).m_subPhase = CycleSubPhases.EXHALE := by
  induction calls with
  | nil => intro s _ _ h; exact h
  | cons c cs ih =>
    intro s hi ht h
    have hc : c ≠ Call.initRespiratoryCycle := fun e => hi (by simp [e])
    have hcs : Call.initRespiratoryCycle ∉ cs := fun e => hi (List.mem_cons_of_mem _ e)
    have hd := callRun_centiSecPerInhalation cfg s c hc
    simp only [runCalls, List.foldl_cons]
    by_cases hk : ∃ t, c = Call.compute t
    · obtain ⟨t, rfl⟩ := hk
      simp only [computeTicks, List.mem_cons, forall_eq_or_imp] at ht
      refine ih _ hcs (by rw [hd]; exact ht.2) ?_
      simp only [Call.run, compute_subPhase]
      exact ((updatePhase_subPhase s t).2 ht.1).2.2 (by rw [h]; decide)
    · have ht' : ∀ t ∈ computeTicks cs, s.m_centiSecPerInhalation ≤ t := by
        cases c <;> first | exact ht | exact absurd ⟨_, rfl⟩ hk
      refine ih _ hcs (by rw [hd]; exact ht') ?_
      rw [(callRun_cycleFields cfg s c hc (fun t e => hk ⟨t, e⟩)).1]
      exact h

/-- C23: take any run that starts with `initRespiratoryCycle`, reaches a
`compute(t1)` and goes on, without a further `initRespiratoryCycle`, through any
calls whose `compute` ticks do not decrease, to a `compute(t2)`.  If the
sub-phase after `compute(t1)` is `HOLD_INSPIRATION` and `t2` is below the
inhalation duration, the sub-phase after `compute(t2)` is `HOLD_INSPIRATION`; if
the sub-phase after `compute(t1)` is `EXHALE`, the sub-phase after `compute(t2)`
is `EXHALE`. -/
theorem subPhase_never_goes_backwards (cfg : Config) (s0 : PressureController)
    (before : List Call) (t1 : Nat) (between : List Call) (t2 : Nat)
    (hcycle : Call.initRespiratoryCycle ∉ between)
    (hticks : List.Sorted (fun a b => a ≤ b) (t1 :: (computeTicks between ++ [t2]))) :
    ((runCalls cfg (initRespiratoryCycle cfg s0) (before ++ [Call.compute t1])).m_subPhase
          = CycleSubPhases.HOLD_INSPIRATION →
        t2 < (runCalls cfg (initRespiratoryCycle cfg s0)
            (before ++ [Call.compute t1])).m_centiSecPerInhalation →
        (runCalls cfg (initRespiratoryCycle cfg s0)
            ((before ++ [Call.compute t1]) ++ (between ++ [Call.compute t2]))).m_subPhase
          = CycleSubPhases.HOLD_INSPIRATION)
      ∧ ((runCalls cfg (initRespiratoryCycle cfg s0) (before ++ [Call.compute t1])).m_subPhase
          = CycleSubPhases.EXHALE →
        (runCalls cfg (initRespiratoryCycle cfg s0)
            ((before ++ [Call.compute t1]) ++ (between ++ [Call.compute t2]))).m_subPhase
          = CycleSubPhases.EXHALE) := by
  have hno : Call.initRespiratoryCycle ∉ between ++ [Call.compute t2] := by
    simp [hcycle]
  have hct : computeTicks (between ++ [Call.compute t2]) = computeTicks between ++ [t2] := by
    rw [computeTicks_append]; rfl
  obtain ⟨hfirst, hrest⟩ := List.sorted_cons.1 hticks
  have hlast : ∀ t ∈ computeTicks between ++ [t2], t ≤ t2 := by
    intro t ht
    rcases List.mem_append.1 ht with h | h
    · exact (List.pairwise_append.1 hrest).2.2 t h t2 (by simp)
    · simp only [List.mem_singleton] at h
      omega
  rw [runCalls_append cfg _ (before ++ [Call.compute t1]) (between ++ [Call.compute t2])]
  have hA : runCalls cfg (initRespiratoryCycle cfg s0) (before ++ [Call.compute t1])
      = compute cfg (runCalls cfg (initRespiratoryCycle cfg s0) before) t1 := by
    rw [runCalls_append]; rfl
  generalize runCalls cfg (initRespiratoryCycle cfg s0) before = sP at hA
  generalize runCalls cfg (initRespiratoryCycle cfg s0) (before ++ [Call.compute t1]) = sA at hA
  constructor
  · intro hsub ht2
    refine runCalls_keeps_holdInspiration cfg _ sA hno ?_ hsub
    rw [hct]
    intro t ht
    exact Nat.lt_of_le_of_lt (hlast t ht) ht2
  · intro hsub
    refine runCalls_keeps_exhale cfg _ sA hno ?_ hsub
    rw [hct]
    intro t ht
    have h1 : sA.m_centiSecPerInhalation ≤ t1 := by
      rw [hA, (compute_cycleFrame cfg sP t1).2.1]
      by_contra hlt
      have hs := ((updatePhase_subPhase sP t1).1 (by omega)).2.1
      rw [hA, compute_subPhase] at hsub
      rw [hsub] at hs
      simp at hs
    exact Nat.le_trans h1 (hfirst t ht)

theorem subPhase_never_goes_backwards_witness :
    (runCalls sampleConfig (initRespiratoryCycle sampleConfig sampleState)
        ([Call.updatePressure 330] ++ [Call.compute 0])).m_subPhase
      = CycleSubPhases.HOLD_INSPIRATION
    ∧ (runCalls sampleConfig (initRespiratoryCycle sampleConfig sampleState)
        (([Call.updatePressure 330] ++ [Call.compute 0])
          ++ ([Call.updatePressure 50, Call.onPeepPressureIncrease] ++ [Call.compute 1]))).m_subPhase
      = CycleSubPhases.HOLD_INSPIRATION :=
  ⟨by decide,
    (subPhase_never_goes_backwards sampleConfig sampleState [Call.updatePressure 330] 0
      [Call.updatePressure 50, Call.onPeepPressureIncrease] 1 (by decide)
      (by simp [computeTicks])).1 (by decide) (by decide)⟩

/-! ## Plateau result of a cycle -/

theorem computePlateau_keeps_flag_ordering (cfg : Config) (s : PressureController) (t : Nat)
    (h : s.m_plateauComputed = true → s.m_startPlateauComputation = false) :
    (computePlateau cfg s t).m_plateauComputed = true →
      (computePlateau cfg s t).m_startPlateauComputation = false := by
  simp only [computePlateau]
  generalize (List.range' 1 (cfg.MAX_PRESSURE_SAMPLES - 1)).foldl
    (plateauLoopBody s.m_lastPressureValues) _ = acc
  split_ifs <;> simp_all

theorem computePlateau_frozen (cfg : Config) (s : PressureController) (t : Nat)
    (hc : s.m_plateauComputed = true) (hs : s.m_startPlateauComputation = false) :
    (computePlateau cfg s t).m_plateauPressure = s.m_plateauPressure
      ∧ (computePlateau cfg s t).m_plateauComputed = true
      ∧ (computePlateau cfg s t).m_startPlateauComputation = false := by
  simp only [computePlateau]
  generalize (List.range' 1 (cfg.MAX_PRESSURE_SAMPLES - 1)).foldl
    (plateauLoopBody s.m_lastPressureValues) _ = acc
  split_ifs <;> simp_all

/-- The plateau estimate and its two flags after a tick are those before the
tick, or those `computePlateau` leaves on a state that has them as before the
tick. -/
theorem compute_plateauFields (cfg : Config) (s : PressureController) (t : Nat) :
    ∃ w : PressureController,
      w.m_plateauPressure = s.m_plateauPressure
        ∧ w.m_plateauComputed = s.m_plateauComputed
        ∧ w.m_startPlateauComputation = s.m_startPlateauComputation
        ∧ (((compute cfg s t).m_plateauPressure = w.m_plateauPressure
            ∧ (compute cfg s t).m_plateauComputed = w.m_plateauComputed
            ∧ (compute cfg s t).m_startPlateauComputation = w.m_startPlateauComputation)
          ∨ ((compute cfg s t).m_plateauPressure = (computePlateau cfg w t).m_plateauPressure
            ∧ (compute cfg s t).m_plateauComputed = (computePlateau cfg w t).m_plateauComputed
            ∧ (compute cfg s t).m_startPlateauComputation
                = (computePlateau cfg w t).m_startPlateauComputation)) := by
  have hb := updateBlower_cycleFrame s t
  have hu := updatePhase_cycleFrame (updateBlower s t) t
  obtain ⟨-, -, -, -, -, u6, u7, u8⟩ := hu
  rw [hb.2.2.2.2.2.1] at u6
  rw [hb.2.2.2.2.2.2.1] at u7
  rw [hb.2.2.2.2.2.2.2] at u8
  have sg := safeguards_cycleFrame
  simp only [compute, executeCommands, computeStaged, (sg _ _ _).2.2.2.2.2.2.1,
    (sg _ _ _).2.2.2.2.2.2.2.1, (sg _ _ _).2.2.2.2.2.2.2.2]
  generalize updatePhase (updateBlower s t) t = u at u6 u7 u8
  by_cases hv : u.m_vigilance = true
  · exact ⟨u, u6, u7, u8, Or.inl (by simp [hv])⟩
  · simp only [Bool.not_eq_true] at hv
    cases hsub : u.m_subPhase
    · exact ⟨u, u6, u7, u8, Or.inl (by simp [hv, hsub, inhale, pidBlower])⟩
    · exact ⟨u, u6, u7, u8, Or.inl (by simp [hv, hsub, plateau])⟩
    · refine ⟨exhale cfg u, ?_, ?_, ?_, Or.inr (by simp [hv, hsub])⟩
      · rw [← u6]; simp [exhale, pidPatient]
      · rw [← u7]; simp [exhale, pidPatient]
      · rw [← u8]; simp [exhale, pidPatient]
    · exact ⟨u, u6, u7, u8, Or.inl (by simp [hv, hsub, holdExhalation])⟩

/-- No call sets `m_startPlateauComputation` while `m_plateauComputed` is set. -/
theorem callRun_keeps_flag_ordering (cfg : Config) (s : PressureController) (c : Call)
    (h : s.m_plateauComputed = true → s.m_startPlateauComputation = false) :
    (c.run cfg s).m_plateauComputed = true →
      (c.run cfg s).m_startPlateauComputation = false := by
  by_cases hi : c = Call.initRespiratoryCycle
  · subst hi
    intro _
    exact (initRespiratoryCycle_cycleStart cfg s).2.2.2.2.2.2.1
  · by_cases hc : ∃ t, c = Call.compute t
    · obtain ⟨t, rfl⟩ := hc
      obtain ⟨w, -, w2, w3, hw⟩ := compute_plateauFields cfg s t
      simp only [Call.run]
      rw [← w2, ← w3] at h
      rcases hw with ⟨-, e2, e3⟩ | ⟨-, e2, e3⟩
      · rw [e2, e3]; exact h
      · rw [e2, e3]; exact computePlateau_keeps_flag_ordering cfg w t h
    · have hf := callRun_cycleFields cfg s c hi (fun t e => hc ⟨t, e⟩)
      rw [hf.2.2.2.2.1, hf.2.2.2.2.2]
      exact h

theorem runCalls_keeps_flag_ordering (cfg : Config) (calls : List Call) :
    ∀ s : PressureController,
      (s.m_plateauComputed = true → s.m_startPlateauComputation = false) →
      (runCalls cfg s calls).m_plateauComputed = true →
        (runCalls cfg s calls).m_startPlateauComputation = false := by
  induction calls with
  | nil => intro s h; exact h
  | cons c cs ih =>
    intro s h
    simp only [runCalls, List.foldl_cons]
    exact ih _ (callRun_keeps_flag_ordering cfg s c h)

/-- C24: `plateauComputed` and `startPlateauComputation` are both clear after
`initRespiratoryCycle`; the predicate (`plateauComputed` implies not
`startPlateauComputation`) is preserved by every `computePlateau` call, by every
other call and by `setup`, so it holds in every state reachable from
`initRespiratoryCycle`; and in every state that satisfies it and has
`plateauComputed = true`, for every tick and every window content,
`computePlateau` leaves `plateauPressure`, `plateauComputed` and
`startPlateauComputation` unchanged, as does every call other than
`initRespiratoryCycle`, which resets the three.  `setup`, the initialisation run
before the first cycle, leaves the two flags as they are and stores 0 in
`plateauPressure`. -/
theorem plateau_frozen_once_computed (cfg : Config) (s : PressureController) (t : Nat)
    (hinv : s.m_plateauComputed = true → s.m_startPlateauComputation = false)
    (hc : s.m_plateauComputed = true) :
    (∀ s0 : PressureController,
        (initRespiratoryCycle cfg s0).m_plateauComputed = false
          ∧ (initRespiratoryCycle cfg s0).m_startPlateauComputation = false
          ∧ (initRespiratoryCycle cfg s0).m_plateauPressure = 0)
      ∧ (∀ (u : PressureController) (k : Nat),
          (u.m_plateauComputed = true → u.m_startPlateauComputation = false) →
          (computePlateau cfg u k).m_plateauComputed = true →
            (computePlateau cfg u k).m_startPlateauComputation = false)
      ∧ (∀ u : PressureController, Reachable cfg u →
          u.m_plateauComputed = true → u.m_startPlateauComputation = false)
      ∧ ((computePlateau cfg s t).m_plateauPressure = s.m_plateauPressure
          ∧ (computePlateau cfg s t).m_plateauComputed = true
          ∧ (computePlateau cfg s t).m_startPlateauComputation = false)
      ∧ (∀ (u : PressureController) (k : Nat), Reachable cfg u → u.m_plateauComputed = true →
          (computePlateau cfg u k).m_plateauPressure = u.m_plateauPressure
            ∧ (computePlateau cfg u k).m_plateauComputed = true
            ∧ (computePlateau cfg u k).m_startPlateauComputation = false)
      ∧ (∀ c : Call, c ≠ Call.initRespiratoryCycle →
          (c.run cfg s).m_plateauPressure = s.m_plateauPressure
            ∧ (c.run cfg s).m_plateauComputed = true
            ∧ (c.run cfg s).m_startPlateauComputation = false)
      ∧ (∀ u : PressureController,
          (setup u).m_plateauComputed = u.m_plateauComputed
            ∧ (setup u).m_startPlateauComputation = u.m_startPlateauComputation
            ∧ (setup u).m_plateauPressure = 0) := by
  have hs : s.m_startPlateauComputation = false := hinv hc
  have hreach : ∀ u : PressureController, Reachable cfg u →
      u.m_plateauComputed = true → u.m_startPlateauComputation = false := by
    rintro u ⟨s0, calls, rfl⟩
    apply runCalls_keeps_flag_ordering
    intro _
    exact (initRespiratoryCycle_cycleStart cfg s0).2.2.2.2.2.2.1
  refine ⟨fun s0 => ?_, computePlateau_keeps_flag_ordering cfg, hreach,
    computePlateau_frozen cfg s t hc hs, ?_, ?_, fun u => ⟨rfl, rfl, rfl⟩⟩
  · exact ⟨(initRespiratoryCycle_cycleStart cfg s0).2.2.2.2.2.1,
      (initRespiratoryCycle_cycleStart cfg s0).2.2.2.2.2.2.1,
      (initRespiratoryCycle_cycleStart cfg s0).2.2.2.2.2.2.2⟩
  · intro u k hu huc
    exact computePlateau_frozen cfg u k huc (hreach u hu huc)
  · intro c hi
    by_cases hk : ∃ k, c = Call.compute k
    · obtain ⟨k, rfl⟩ := hk
      obtain ⟨w, w1, w2, w3, hw⟩ := compute_plateauFields cfg s k
      simp only [Call.run]
      rcases hw with ⟨e1, e2, e3⟩ | ⟨e1, e2, e3⟩
      · rw [e1, e2, e3, w1, w2, w3]; exact ⟨rfl, hc, hs⟩
      · have hf := computePlateau_frozen cfg w k (by rw [w2]; exact hc) (by rw [w3]; exact hs)
        rw [e1, e2, e3, hf.1, hf.2.1, hf.2.2, w1]
        exact ⟨rfl, rfl, rfl⟩
    · have hf := callRun_cycleFields cfg s c hi (fun k e => hk ⟨k, e⟩)
      rw [hf.2.2.2.1, hf.2.2.2.2.1, hf.2.2.2.2.2]
      exact ⟨rfl, hc, hs⟩

theorem plateau_frozen_once_computed_witness :
    Reachable sampleConfig plateauDoneState
      ∧ plateauDoneState.m_plateauComputed = true
      ∧ plateauDoneState.m_startPlateauComputation = false
      ∧ plateauDoneState.m_plateauPressure = 250
      ∧ plateauDoneState.m_lastPressureValues = [100, 250, 250, 250, 250, 250, 250, 250, 250, 250]
      ∧ (computePlateau sampleConfig plateauDoneState 102).m_plateauPressure
          = plateauDoneState.m_plateauPressure
      ∧ (computePlateau sampleConfig plateauDoneState 102).m_plateauComputed = true
      ∧ (computePlateau sampleConfig plateauDoneState 102).m_startPlateauComputation = false :=
  ⟨⟨sampleState, _, rfl⟩, by decide, by decide, by decide, by decide,
    (plateau_frozen_once_computed sampleConfig plateauDoneState 102 (by decide)
      (by decide)).2.2.2.1⟩

/-! ## Blower trim during a cycle -/

theorem updateBlower_increment_low (s : PressureController) (t : Nat)
    (hphase : s.m_phase = CyclePhases.INHALATION)
    (ht : t < (s.m_centiSecPerInhalation * 30) / 100)
    (hpeak : s.m_peakPressure > (s.m_maxPeakPressureCommand * 105) / 100) :
    (updateBlower s t).m_blower_increment = -1 := by
  simp only [updateBlower]
  split_ifs <;> simp_all

theorem updateBlower_increment_stays_low (s : PressureController) (t : Nat)
    (hb : s.m_blower_increment = -1)
    (hpeak : s.m_peakPressure > (s.m_maxPeakPressureCommand * 105) / 100) :
    (updateBlower s t).m_blower_increment = -1 := by
  have h95 : ¬ s.m_peakPressure < (s.m_maxPeakPressureCommand * 95) / 100 := by omega
  simp only [updateBlower]
  split_ifs <;> simp_all

theorem updateBlower_increment_range (s : PressureController) (t : Nat)
    (hb : s.m_blower_increment = -1 ∨ s.m_blower_increment = 0 ∨ s.m_blower_increment = 1) :
    (updateBlower s t).m_blower_increment = -1 ∨ (updateBlower s t).m_blower_increment = 0
      ∨ (updateBlower s t).m_blower_increment = 1 := by
  simp only [updateBlower]
  split_ifs <;> simp_all

/-- The blower trim after a loop tick is the one `updateBlower` decides from the
phase and the peak pressure the tick before left. -/
theorem loopTick_increment (cfg : Config) (s : PressureController) (input : Int × Int)
    (t : Nat) :
    (loopTick cfg s input t).m_blower_increment = (updateBlower s t).m_blower_increment := by
  have hi := tickInput_frame cfg s input.1 input.2
  have hc := compute_cycleFrame cfg (updateDt (updatePressure cfg s input.1) input.2) t
  unfold loopTick
  rw [hc.2.2.2.1]
  generalize updateDt (updatePressure cfg s input.1) input.2 = s' at hi
  obtain ⟨-, -, i3, i4, i5, i6, -, i8⟩ := hi
  simp only [updateBlower, i3, i4, i5, i6]
  split_ifs <;> simp_all

/-- Once the trim is -1 and the peak pressure is above 105 % of the peak
command, the trim is -1 after every further loop tick. -/
theorem runTicks_increment_stays_low (cfg : Config) (inputs : List (Int × Int)) :
    ∀ (s : PressureController) (t : Nat), s.m_blower_increment = -1 →
      s.m_peakPressure > (s.m_maxPeakPressureCommand * 105) / 100 →
      (runTicks cfg s inputs t).m_blower_increment = -1 := by
  induction inputs with
  | nil => intro s t h _; exact h
  | cons x rest ih =>
    intro s t hb hpeak
    obtain ⟨h1, -, -, -, -, h6, -⟩ := loopTick_cycleFrame cfg s x t
    simp only [runTicks]
    refine ih _ _ ?_ ?_
    · rw [loopTick_increment]
      exact updateBlower_increment_stays_low s t hb hpeak
    · rw [h1]
      omega

/-- A call keeps the blower trim among -1, 0 and +1. -/
theorem callRun_increment_range (cfg : Config) (s : PressureController) (c : Call)
    (hb : s.m_blower_increment = -1 ∨ s.m_blower_increment = 0 ∨ s.m_blower_increment = 1) :
    (c.run cfg s).m_blower_increment = -1 ∨ (c.run cfg s).m_blower_increment = 0
      ∨ (c.run cfg s).m_blower_increment = 1 := by
  by_cases hi : c = Call.initRespiratoryCycle
  · subst hi
    exact Or.inr (Or.inl (initRespiratoryCycle_cycleStart cfg s).2.2.1)
  · by_cases hc : ∃ t, c = Call.compute t
    · obtain ⟨t, rfl⟩ := hc
      simp only [Call.run, (compute_cycleFrame cfg s t).2.2.2.1]
      exact updateBlower_increment_range s t hb
    · rw [(callRun_cycleFields cfg s c hi (fun t e => hc ⟨t, e⟩)).2.2.1]
      exact hb

theorem runCalls_increment_range (cfg : Config) (calls : List Call) :
    ∀ s : PressureController,
      (s.m_blower_increment = -1 ∨ s.m_blower_increment = 0 ∨ s.m_blower_increment = 1) →
      ((runCalls cfg s calls).m_blower_increment = -1
        ∨ (runCalls cfg s calls).m_blower_increment = 0
        ∨ (runCalls cfg s calls).m_blower_increment = 1) := by
  induction calls with
  | nil => intro s h; exact h
  | cons c cs ih =>
    intro s h
    simp only [runCalls, List.foldl_cons]
    exact ih _ (callRun_increment_range cfg s c h)

/-- A run of loop ticks is a sequence of calls. -/
theorem runTicks_eq_runCalls (cfg : Config) (inputs : List (Int × Int)) :
    ∀ (s : PressureController) (t : Nat),
      ∃ calls : List Call, Call.initRespiratoryCycle ∉ calls
        ∧ runTicks cfg s inputs t = runCalls cfg s calls := by
  induction inputs with
  | nil => intro s t; exact ⟨[], by simp, rfl⟩
  | cons x rest ih =>
    intro s t
    obtain ⟨calls, hno, h⟩ := ih (loopTick cfg s x t) (t + 1)
    refine ⟨[Call.updatePressure x.1, Call.updateDt x.2, Call.compute t] ++ calls, ?_, ?_⟩
    · simp [hno]
    · rw [runCalls_append]
      simp only [runTicks, h]
      rfl

/-- C25: in a cycle run (`initRespiratoryCycle`, then one loop tick per input
from tick 0), if the stored sample of a tick `t0` with
`t0 + 1 < (centiSecPerInhalation*30)/100` is above
`(maxPeakPressureCommand*105)/100`, then the blower trim is -1 after
`compute(t0 + 1)` and after every later tick of the run; and the blower trim is
-1, 0 or +1, hence within `MAX_BLOWER_INCREMENT`, after every run of loop ticks
and in every state reachable from `initRespiratoryCycle`. -/
theorem blower_increment_latched_low (cfg : Config) (s0 : PressureController)
    (pre : List (Int × Int)) (p dt : Int) (next : Int × Int) (later : List (Int × Int))
    (ht : pre.length + 1 < ((initRespiratoryCycle cfg s0).m_centiSecPerInhalation * 30) / 100)
    (hp : toU16 p > ((initRespiratoryCycle cfg s0).m_maxPeakPressureCommand * 105) / 100) :
    (runTicks cfg (initRespiratoryCycle cfg s0)
        (pre ++ (p, dt) :: next :: later) 0).m_blower_increment = -1
      ∧ (∀ inputs : List (Int × Int),
          (runTicks cfg (initRespiratoryCycle cfg s0) inputs 0).m_blower_increment = -1
            ∨ (runTicks cfg (initRespiratoryCycle cfg s0) inputs 0).m_blower_increment = 0
            ∨ (runTicks cfg (initRespiratoryCycle cfg s0) inputs 0).m_blower_increment = 1)
      ∧ (∀ u : PressureController, Reachable cfg u →
          (u.m_blower_increment = -1 ∨ u.m_blower_increment = 0 ∨ u.m_blower_increment = 1)
            ∧ -MAX_BLOWER_INCREMENT ≤ u.m_blower_increment
            ∧ u.m_blower_increment ≤ MAX_BLOWER_INCREMENT) := by
  have hi := initRespiratoryCycle_cycleStart cfg s0
  have hreach : ∀ u : PressureController, Reachable cfg u →
      (u.m_blower_increment = -1 ∨ u.m_blower_increment = 0 ∨ u.m_blower_increment = 1) := by
    rintro u ⟨s1, calls, rfl⟩
    exact runCalls_increment_range cfg calls _
      (Or.inr (Or.inl (initRespiratoryCycle_cycleStart cfg s1).2.2.1))
  refine ⟨?_, fun inputs => ?_, fun u hu => ⟨hreach u hu, ?_⟩⟩
  · rw [runTicks_append]
    obtain ⟨f1, f2, f3, -⟩ := runTicks_cycleFrame cfg pre (initRespiratoryCycle cfg s0) 0
    have fv := f3 hi.1
    rw [← f1] at hp
    rw [← f2] at ht
    generalize runTicks cfg (initRespiratoryCycle cfg s0) pre 0 = s1 at f1 f2 fv hp ht
    simp only [runTicks, Nat.zero_add]
    obtain ⟨a1, a2, -, a4, -, -, a7⟩ := loopTick_cycleFrame cfg s1 (p, dt) pre.length
    have hlt : pre.length < s1.m_centiSecPerInhalation := by omega
    have a4' := a4 fv hlt
    have a7' := a7 hlt
    generalize loopTick cfg s1 (p, dt) pre.length = s2 at a1 a2 a4' a7'
    have hpeak2 : s2.m_peakPressure > (s2.m_maxPeakPressureCommand * 105) / 100 := by
      rw [a1, a4']
      simp only [gt_iff_lt, lt_max_iff]
      exact Or.inl hp
    obtain ⟨b1, -, -, -, -, b6, -⟩ := loopTick_cycleFrame cfg s2 next (pre.length + 1)
    refine runTicks_increment_stays_low cfg later _ _ ?_ ?_
    · rw [loopTick_increment]
      exact updateBlower_increment_low s2 _ a7' (by rw [a2]; exact ht) hpeak2
    · rw [b1]
      omega
  · obtain ⟨calls, -, h⟩ := runTicks_eq_runCalls cfg inputs (initRespiratoryCycle cfg s0) 0
    exact hreach _ ⟨s0, calls, h⟩
  · have h := hreach u hu
    simp only [MAX_BLOWER_INCREMENT]
    omega

theorem blower_increment_latched_low_witness :
    (([] : List (Int × Int)).length + 1
        < ((initRespiratoryCycle sampleConfig lowPeakState).m_centiSecPerInhalation * 30) / 100)
      ∧ (initRespiratoryCycle sampleConfig lowPeakState).m_centiSecPerInhalation = 100
      ∧ (initRespiratoryCycle sampleConfig lowPeakState).m_maxPeakPressureCommand = 30
      ∧ toU16 40
          > ((initRespiratoryCycle sampleConfig lowPeakState).m_maxPeakPressureCommand * 105) / 100
      ∧ (runTicks sampleConfig (initRespiratoryCycle sampleConfig lowPeakState)
          ([] ++ (40, 10000) :: (40, 10000) :: List.replicate 29 (40, 10000)) 0).m_blower_increment
          = -1 :=
  ⟨by decide, by decide, by decide, by decide,
    (blower_increment_latched_low sampleConfig lowPeakState [] 40 10000 (40, 10000)
      (List.replicate 29 (40, 10000)) (by decide) (by decide)).1⟩

/-! ## PID: command-to-aperture mappings -/

theorem tdiv_mono (a b k : Int) (hk : 0 < k) (h : a ≤ b) : Int.tdiv a k ≤ Int.tdiv b k := by
  rcases le_or_lt 0 a with ha | ha
  · rw [Int.tdiv_eq_ediv ha (le_of_lt hk), Int.tdiv_eq_ediv (le_trans ha h) (le_of_lt hk)]
    exact Int.ediv_le_ediv hk h
  · have ha0 : 0 ≤ -a := by omega
    have hqa : 0 ≤ (-a) / k := Int.ediv_nonneg ha0 (le_of_lt hk)
    have ea : Int.tdiv (-a) k = -(Int.tdiv a k) := Int.neg_tdiv a k
    have ea' : Int.tdiv (-a) k = (-a) / k := Int.tdiv_eq_ediv ha0 (le_of_lt hk)
    rcases le_or_lt 0 b with hb | hb
    · have hqb := Int.tdiv_nonneg hb (le_of_lt hk)
      omega
    · have hb0 : 0 ≤ -b := by omega
      have hq := Int.ediv_le_ediv hk (show -b ≤ -a by omega)
      have eb : Int.tdiv (-b) k = -(Int.tdiv b k) := Int.neg_tdiv b k
      have eb' : Int.tdiv (-b) k = (-b) / k := Int.tdiv_eq_ediv hb0 (le_of_lt hk)
      omega

theorem clamp_mono (lo hi x y : Int) (h : x ≤ y) :
    max lo (min hi x) ≤ max lo (min hi y) :=
  max_le_max (le_refl lo) (min_le_min (le_refl hi) h)

/-- The 32-bit evaluation of a command-to-aperture mapping is the mapping over
the integers when nothing overflows. -/
theorem aperture_of_no_overflow (minA maxA span c : Int)
    (h : apertureNoOverflow minA maxA span c) :
    toI32 (toU32 (max minA (min maxA
        (toI32 (maxA + toI32 (Int.tdiv (toI32 (toI32 span * c)) 1000))))))
      = max minA (min maxA (maxA + Int.tdiv (span * c) 1000)) := by
  obtain ⟨h1, h2, h3, h4, h5⟩ := h
  rw [toI32_toU32, toI32_of_isI32 span h3, toI32_of_isI32 _ h4,
    toI32_of_isI32 _ (isI32_tdiv _ 1000 h4 (by decide)), toI32_of_isI32 _ h5]
  exact toI32_of_isI32 _ (isI32_clamp _ _ _ h1 h2 h5)

/-- The 32-bit evaluation of the command is the command over the integers when
nothing overflows. -/
theorem command_of_no_overflow (kp kd error integral derivative : Int)
    (h : commandNoOverflow kp kd error integral derivative) :
    toI32 (toI32 (toI32 (kp * error) + integral)
        + toI32 (Int.tdiv (toI32 (kd * derivative)) 1000))
      = kp * error + integral + Int.tdiv (kd * derivative) 1000 := by
  obtain ⟨h1, h2, h3, h4⟩ := h
  rw [toI32_of_isI32 _ h1, toI32_of_isI32 _ h2, toI32_of_isI32 _ h3,
    toI32_of_isI32 _ (isI32_tdiv _ 1000 h3 (by decide)), toI32_of_isI32 _ h4]

/-- C26: for valve bounds `minA <= maxA` and commands `c1 <= c2`, the blower-side
mapping `clamp(maxA + (minA - maxA)*c/1000, minA, maxA)` gives
`aperture(c1) >= aperture(c2)` and the patient-side mapping
`clamp(maxA + (maxA - minA)*c/1000, minA, maxA)` gives `aperture(c1) <= aperture(c2)`,
with truncating division; and when the 32-bit products and sums do not overflow,
the aperture `pidBlower` returns is the blower-side mapping, and the aperture
`pidPatient` returns the patient-side mapping, of the bounds the code reads and
of the command, the command is `Kp*error + integral + (Kd*derivative)/1000`, and
the patient error is `target + PID_PATIENT_SAFETY_PEEP_OFFSET - measurement`. -/
theorem aperture_mappings_monotone (minA maxA c1 c2 : Int) (hA : minA ≤ maxA)
    (hc : c1 ≤ c2) :
    blowerApertureOf minA maxA c2 ≤ blowerApertureOf minA maxA c1
      ∧ patientApertureOf minA maxA c1 ≤ patientApertureOf minA maxA c2
      ∧ (∀ (cfg : Config) (s : PressureController) (target measure dt : Int),
          apertureNoOverflow s.m_blower_valve.minAperture s.m_blower_valve.maxAperture
            (s.m_blower_valve.minAperture - s.m_blower_valve.maxAperture)
            (pidBlowerLocals cfg s target measure dt).command →
          (pidBlower cfg s target measure dt).1
            = blowerApertureOf s.m_blower_valve.minAperture s.m_blower_valve.maxAperture
                (pidBlowerLocals cfg s target measure dt).command)
      ∧ (∀ (cfg : Config) (s : PressureController) (target measure dt : Int),
          apertureNoOverflow s.m_blower_valve.minAperture s.m_blower_valve.maxAperture
            (s.m_blower_valve.maxAperture - s.m_blower_valve.minAperture)
            (pidPatientLocals cfg s target measure dt).command →
          (pidPatient cfg s target measure dt).1
            = patientApertureOf s.m_blower_valve.minAperture s.m_blower_valve.maxAperture
                (pidPatientLocals cfg s target measure dt).command)
      ∧ (∀ (cfg : Config) (s : PressureController) (target measure dt : Int),
          commandNoOverflow cfg.PID_BLOWER_KP cfg.PID_BLOWER_KD
            (pidBlowerLocals cfg s target measure dt).error
            (pidBlowerLocals cfg s target measure dt).integral
            (pidBlowerLocals cfg s target measure dt).derivative →
          (pidBlowerLocals cfg s target measure dt).command
            = cfg.PID_BLOWER_KP * (pidBlowerLocals cfg s target measure dt).error
              + (pidBlowerLocals cfg s target measure dt).integral
              + Int.tdiv (cfg.PID_BLOWER_KD
                  * (pidBlowerLocals cfg s target measure dt).derivative) 1000)
      ∧ (∀ (cfg : Config) (s : PressureController) (target measure dt : Int),
          commandNoOverflow cfg.PID_PATIENT_KP cfg.PID_PATIENT_KD
            (pidPatientLocals cfg s target measure dt).error
            (pidPatientLocals cfg s target measure dt).integral
            (pidPatientLocals cfg s target measure dt).derivative →
          (pidPatientLocals cfg s target measure dt).command
            = cfg.PID_PATIENT_KP * (pidPatientLocals cfg s target measure dt).error
              + (pidPatientLocals cfg s target measure dt).integral
              + Int.tdiv (cfg.PID_PATIENT_KD
                  * (pidPatientLocals cfg s target measure dt).derivative) 1000)
      ∧ (∀ (cfg : Config) (s : PressureController) (target measure dt : Int),
          isI32 (target + cfg.PID_PATIENT_SAFETY_PEEP_OFFSET) →
          isI32 (target + cfg.PID_PATIENT_SAFETY_PEEP_OFFSET - measure) →
          (pidPatientLocals cfg s target measure dt).error
            = target + cfg.PID_PATIENT_SAFETY_PEEP_OFFSET - measure) := by
  refine ⟨?_, ?_, ?_, ?_, ?_, ?_, ?_⟩
  · unfold blowerApertureOf
    apply clamp_mono
    have hm : (minA - maxA) * c2 ≤ (minA - maxA) * c1 :=
      Int.mul_le_mul_of_nonpos_left (by omega) hc
    have := tdiv_mono _ _ 1000 (by decide) hm
    omega
  · unfold patientApertureOf
    apply clamp_mono
    have hm : (maxA - minA) * c1 ≤ (maxA - minA) * c2 :=
      Int.mul_le_mul_of_nonneg_left hc (by omega)
    have := tdiv_mono _ _ 1000 (by decide) hm
    omega
  · intro cfg s target measure dt h
    exact aperture_of_no_overflow _ _ _ _ h
  · intro cfg s target measure dt h
    exact aperture_of_no_overflow _ _ _ _ h
  · intro cfg s target measure dt h
    exact command_of_no_overflow _ _ _ _ _ h
  · intro cfg s target measure dt h
    exact command_of_no_overflow _ _ _ _ _ h
  · intro cfg s target measure dt h1 h2
    show toI32 (toI32 (target + cfg.PID_PATIENT_SAFETY_PEEP_OFFSET) - measure) = _
    rw [toI32_of_isI32 _ h1, toI32_of_isI32 _ h2]

theorem aperture_mappings_monotone_witness :
    (0 : Int) ≤ 125 ∧ (100 : Int) ≤ 440
      ∧ blowerApertureOf 0 125 440 ≤ blowerApertureOf 0 125 100
      ∧ blowerApertureOf 0 125 440 = 70 ∧ blowerApertureOf 0 125 100 = 113
      ∧ patientApertureOf 0 125 (-440) ≤ patientApertureOf 0 125 (-100)
      ∧ (pidBlower sampleConfig sampleState 320 100 10000).1
          = blowerApertureOf 0 125 (pidBlowerLocals sampleConfig sampleState 320 100 10000).command
      ∧ (pidPatient sampleConfig sampleState 100 125 10000).1
          = patientApertureOf 0 125
              (pidPatientLocals sampleConfig sampleState 100 125 10000).command :=
  have h := aperture_mappings_monotone 0 125 100 440 (by decide) (by decide)
  have h' := aperture_mappings_monotone 0 125 (-440) (-100) (by decide) (by decide)
  ⟨by decide, by decide, h.1, by decide, by decide, h'.2.1,
    h.2.2.1 sampleConfig sampleState 320 100 10000 (by decide),
    h.2.2.2.1 sampleConfig sampleState 100 125 10000 (by decide)⟩

/-! ## Plateau estimator in a cycle run -/

end MakAir
